import Mathlib

/-!
Shallow embedding of `CodeSample-RobertLindgren.py`, an agent-based
simulation of a two-game evolutionary signaling model.

Conventions of the embedding:
* Python floats are modelled as rationals (`ℚ`); Python ints as `Nat`
  (or `ℚ` where the source stores an int into a float-initialized field).
* The global constants `POPSIZE`, `PROPTYPE1`, `PROPTYPE2` keep their
  source values.
* `playerdict` is modelled as a total function `Nat → SimplePlayer`;
  in-place mutation becomes functional update (`modPD`).
* Every use of the `random` module is modelled as an explicit oracle
  argument: `random.uniform(0,1)` draws become `ℚ` parameters,
  `random.choice(lst)` becomes a parameter `choice : List Nat → Nat`,
  `random.randint` results become `Nat` parameters.
* Dictionary-based records (`roundAgg`, the payoff matrices) become
  structures whose field names follow the source's dictionary keys.
-/

/-- Source line 36: `POPSIZE = 1000`. -/
def POPSIZE : Nat := 1000

/-- Source line 37: `NUMROUNDS = 1000`. -/
def NUMROUNDS : Nat := 1000

/-- Source line 40: `PROPTYPE1 = 0.5`. -/
def PROPTYPE1 : ℚ := 1/2

/-- Source line 41: `PROPTYPE2 = 1 - PROPTYPE1`. -/
def PROPTYPE2 : ℚ := 1 - PROPTYPE1

/-- A 2×2 payoff matrix. The source stores these as dicts keyed
`'A1A1'/'A1A2'/'A2A1'/'A2A2'` (Game A) or `'B1B1'/'B1B2'/'B2B1'/'B2B2'`
(Game B); field `pij` is the entry for own action `i` against opponent
action `j`. -/
structure PayoffMat where
  p11 : ℚ
  p12 : ℚ
  p21 : ℚ
  p22 : ℚ
deriving DecidableEq

/-- Source line 572: `GameA_PAYOFFMAT = {'A1A1': 3, 'A1A2': 0, 'A2A1': 0, 'A2A2': 3}`. -/
def GameA_PAYOFFMAT : PayoffMat := ⟨3, 0, 0, 3⟩

/-- Source line 573: `GameB1_PAYOFFMAT = {'B1B1': weight*3, 'B1B2': 0, 'B2B1': 0, 'B2B2': weight*3}`. -/
def GameB1_PAYOFFMAT (weight : ℚ) : PayoffMat := ⟨weight*3, 0, 0, weight*3⟩

/-- Source line 574: `GameB2_PAYOFFMAT = {'B1B1': 0, 'B1B2': weight*3, 'B2B1': weight*3, 'B2B2': 0}`. -/
def GameB2_PAYOFFMAT (weight : ℚ) : PayoffMat := ⟨0, weight*3, weight*3, 0⟩

/-- The per-round aggregate dictionary `roundAgg` (source lines 447,
494-517 and the initial dictionary at lines 552-565), with one field per
dictionary key. -/
structure RoundAgg where
  proptype1otherA1playB1 : ℚ
  proptype1otherA1playB2 : ℚ
  proptype1otherA2playB1 : ℚ
  proptype1otherA2playB2 : ℚ
  proptype2otherA1playB1 : ℚ
  proptype2otherA1playB2 : ℚ
  proptype2otherA2playB1 : ℚ
  proptype2otherA2playB2 : ℚ
  Type1PlayingA1 : ℚ
  Type1PlayingA2 : ℚ
  Type2PlayingA1 : ℚ
  Type2PlayingA2 : ℚ
  Type1PlayingB1 : ℚ
  Type1PlayingB2 : ℚ
  Type2PlayingB1 : ℚ
  Type2PlayingB2 : ℚ
  PropPlayingA1 : ℚ
  PropPlayingA2 : ℚ
  PropPlayingB1 : ℚ
  PropPlayingB2 : ℚ
  ProbType1GivenA1 : ℚ
  ProbType2GivenA1 : ℚ
  ProbType1GivenA2 : ℚ
  ProbType2GivenA2 : ℚ
deriving DecidableEq

/-- The mutable per-player state of `SimplePlayer` (source lines 46-81).
`lastOppGameA`/`lastOppGameB` are `ℚ` because the source initializes them
with `random.uniform` floats and later overwrites them with integer
player indices. -/
structure SimplePlayer where
  playerindex : Nat
  playertype : Nat
  actionA : Nat
  actionB : Nat
  numGameA : Nat
  numGameB : Nat
  lastActionA : Nat
  lastActionB : Nat
  lastGameAPay : ℚ
  lastGameBPay : ℚ
  lastOppGameA : ℚ
  lastOppGameB : ℚ
  lastOppGameBLastActionA : Nat
deriving DecidableEq

/-- Source lines 394-409: `divide(num, den)`, the safe-divide primitive. -/
def divide (num den : ℚ) : ℚ :=
  if den = 0 then 0 else num / den

/-- Functional update of the player dictionary at one index, modelling an
in-place mutation `playerdict[i].field = ...` or a whole-object rebinding. -/
def modPD (pd : Nat → SimplePlayer) (i : Nat) (f : SimplePlayer → SimplePlayer) :
    Nat → SimplePlayer :=
  fun j => if j = i then f (pd j) else pd j

/-- The twenty counting variables of `countAggs` (source lines 425-444). -/
structure Counts where
  numType1PlayingA1 : Nat
  numType1PlayingA2 : Nat
  numType2PlayingA1 : Nat
  numType2PlayingA2 : Nat
  numType1PlayingB1 : Nat
  numType1PlayingB2 : Nat
  numType2PlayingB1 : Nat
  numType2PlayingB2 : Nat
  numtype1otherA1 : Nat
  numtype1otherA2 : Nat
  numtype2otherA1 : Nat
  numtype2otherA2 : Nat
  numtype1otherA1playB1 : Nat
  numtype1otherA1playB2 : Nat
  numtype1otherA2playB1 : Nat
  numtype1otherA2playB2 : Nat
  numtype2otherA1playB1 : Nat
  numtype2otherA1playB2 : Nat
  numtype2otherA2playB1 : Nat
  numtype2otherA2playB2 : Nat
deriving DecidableEq

/-- All counters start at 0 (source lines 425-444). -/
def Counts.zero : Counts := ⟨0,0,0,0,0,0,0,0,0,0,0,0,0,0,0,0,0,0,0,0⟩

/-- Condition under which the source increments `numtype<t>otherA<o>`
(lines 452, 458, 464, 470): `playertype == t and lastOppGameBLastActionA == o`. -/
def condOther (t o : Nat) (p : SimplePlayer) : Bool :=
  p.playertype == t && p.lastOppGameBLastActionA == o

/-- Condition under which the source increments `numtype<t>otherA<o>playB<b>`
(the nested `if lastActionB == b` tests at lines 454-456, 460-462, 466-468,
472-474, reached only under the enclosing `condOther t o` test). -/
def condOtherPlay (t o b : Nat) (p : SimplePlayer) : Bool :=
  p.playertype == t && p.lastOppGameBLastActionA == o && p.lastActionB == b

/-- Condition under which the source increments `numType<t>PlayingA<a>`
(lines 476-483): `playertype == t and lastActionA == a`. -/
def condPlayA (t a : Nat) (p : SimplePlayer) : Bool :=
  p.playertype == t && p.lastActionA == a

/-- Condition under which the source increments `numType<t>PlayingB<b>`
(lines 484-491): `playertype == t and lastActionB == b`. -/
def condPlayB (t b : Nat) (p : SimplePlayer) : Bool :=
  p.playertype == t && p.lastActionB == b

/-- One iteration of the counting loop of `countAggs` (source lines
450-491): each counter is incremented exactly when its (possibly nested)
guarding conditions hold for the scanned player `pd z`. -/
def stepCounts (pd : Nat → SimplePlayer) (c : Counts) (z : Nat) : Counts where
  numType1PlayingA1 := c.numType1PlayingA1 + (if condPlayA 1 1 (pd z) then 1 else 0)
  numType1PlayingA2 := c.numType1PlayingA2 + (if condPlayA 1 2 (pd z) then 1 else 0)
  numType2PlayingA1 := c.numType2PlayingA1 + (if condPlayA 2 1 (pd z) then 1 else 0)
  numType2PlayingA2 := c.numType2PlayingA2 + (if condPlayA 2 2 (pd z) then 1 else 0)
  numType1PlayingB1 := c.numType1PlayingB1 + (if condPlayB 1 1 (pd z) then 1 else 0)
  numType1PlayingB2 := c.numType1PlayingB2 + (if condPlayB 1 2 (pd z) then 1 else 0)
  numType2PlayingB1 := c.numType2PlayingB1 + (if condPlayB 2 1 (pd z) then 1 else 0)
  numType2PlayingB2 := c.numType2PlayingB2 + (if condPlayB 2 2 (pd z) then 1 else 0)
  numtype1otherA1 := c.numtype1otherA1 + (if condOther 1 1 (pd z) then 1 else 0)
  numtype1otherA2 := c.numtype1otherA2 + (if condOther 1 2 (pd z) then 1 else 0)
  numtype2otherA1 := c.numtype2otherA1 + (if condOther 2 1 (pd z) then 1 else 0)
  numtype2otherA2 := c.numtype2otherA2 + (if condOther 2 2 (pd z) then 1 else 0)
  numtype1otherA1playB1 := c.numtype1otherA1playB1 + (if condOtherPlay 1 1 1 (pd z) then 1 else 0)
  numtype1otherA1playB2 := c.numtype1otherA1playB2 + (if condOtherPlay 1 1 2 (pd z) then 1 else 0)
  numtype1otherA2playB1 := c.numtype1otherA2playB1 + (if condOtherPlay 1 2 1 (pd z) then 1 else 0)
  numtype1otherA2playB2 := c.numtype1otherA2playB2 + (if condOtherPlay 1 2 2 (pd z) then 1 else 0)
  numtype2otherA1playB1 := c.numtype2otherA1playB1 + (if condOtherPlay 2 1 1 (pd z) then 1 else 0)
  numtype2otherA1playB2 := c.numtype2otherA1playB2 + (if condOtherPlay 2 1 2 (pd z) then 1 else 0)
  numtype2otherA2playB1 := c.numtype2otherA2playB1 + (if condOtherPlay 2 2 1 (pd z) then 1 else 0)
  numtype2otherA2playB2 := c.numtype2otherA2playB2 + (if condOtherPlay 2 2 2 (pd z) then 1 else 0)

/-- The counting loop `for z in range(1, POPSIZE)` of `countAggs`
(source line 450): it scans indices 1 .. POPSIZE-1. -/
def countsLoop (pd : Nat → SimplePlayer) : Counts :=
  (List.range' 1 (POPSIZE - 1)).foldl (stepCounts pd) Counts.zero

/-- Source lines 411-517: `countAggs(playerdict, numType1, numType2)`.
The counting loop is `countsLoop`; the returned record is the dictionary
built at lines 494-517 (note: in the source this dictionary is a variable
local to `countAggs`, see the round-loop embedding below). -/
def countAggs (pd : Nat → SimplePlayer) (numType1 numType2 : Nat) : RoundAgg :=
  let c := countsLoop pd
  let t1a1 : ℚ := divide c.numType1PlayingA1 numType1
  let t1a2 : ℚ := divide c.numType1PlayingA2 numType1
  let t2a1 : ℚ := divide c.numType2PlayingA1 numType2
  let t2a2 : ℚ := divide c.numType2PlayingA2 numType2
  let t1b1 : ℚ := divide c.numType1PlayingB1 numType1
  let t1b2 : ℚ := divide c.numType1PlayingB2 numType1
  let t2b1 : ℚ := divide c.numType2PlayingB1 numType2
  let t2b2 : ℚ := divide c.numType2PlayingB2 numType2
  { proptype1otherA1playB1 := divide c.numtype1otherA1playB1 c.numtype1otherA1
    proptype1otherA1playB2 := divide c.numtype1otherA1playB2 c.numtype1otherA1
    proptype1otherA2playB1 := divide c.numtype1otherA2playB1 c.numtype1otherA2
    proptype1otherA2playB2 := divide c.numtype1otherA2playB2 c.numtype1otherA2
    proptype2otherA1playB1 := divide c.numtype2otherA1playB1 c.numtype2otherA1
    proptype2otherA1playB2 := divide c.numtype2otherA1playB2 c.numtype2otherA1
    proptype2otherA2playB1 := divide c.numtype2otherA2playB1 c.numtype2otherA2
    proptype2otherA2playB2 := divide c.numtype2otherA2playB2 c.numtype2otherA2
    Type1PlayingA1 := t1a1
    Type1PlayingA2 := t1a2
    Type2PlayingA1 := t2a1
    Type2PlayingA2 := t2a2
    Type1PlayingB1 := t1b1
    Type1PlayingB2 := t1b2
    Type2PlayingB1 := t2b1
    Type2PlayingB2 := t2b2
    PropPlayingA1 := t1a1 * PROPTYPE1 + t2a1 * PROPTYPE2
    PropPlayingA2 := t1a2 * PROPTYPE1 + t2a2 * PROPTYPE2
    PropPlayingB1 := t1b1 * PROPTYPE1 + t2b1 * PROPTYPE2
    PropPlayingB2 := t1b2 * PROPTYPE1 + t2b2 * PROPTYPE2
    ProbType1GivenA1 := divide (PROPTYPE1 * t1a1) (PROPTYPE1 * t1a1 + PROPTYPE2 * t2a1)
    ProbType2GivenA1 := divide (PROPTYPE2 * t2a1) (PROPTYPE1 * t1a1 + PROPTYPE2 * t2a1)
    ProbType1GivenA2 := divide (PROPTYPE1 * t1a2) (PROPTYPE1 * t1a2 + PROPTYPE2 * t2a2)
    ProbType2GivenA2 := divide (PROPTYPE2 * t2a2) (PROPTYPE1 * t1a2 + PROPTYPE2 * t2a2) }

/-- Python's `max(EVdict, key=EVdict.get)` over the insertion-ordered dict
`{1: ev1, 2: ev2}` (source lines 194-195, 229-230, 277-278, 306-307):
`max` keeps the first-seen key and replaces it only on a strictly greater
value, so it returns 2 exactly when `ev2 > ev1`. -/
def maxAction (ev1 ev2 : ℚ) : Nat :=
  if ev2 > ev1 then 2 else 1

/-- The value `EVdict.get(action)` for the action chosen by `maxAction`
(source lines 197, 232, 280, 309). -/
def chosenEV (ev1 ev2 : ℚ) : ℚ :=
  if ev2 > ev1 then ev2 else ev1

/-- The pair `(indirectPayA1, indirectPayA2)` of `moveA` (source lines
186-191 and 221-226), as a function of the belief snapshot, the player's
Game-B payoff matrix and `self.lastActionB`. The source's
`if lastActionB == 1 ... elif lastActionB == 2` chain leaves the values
undefined otherwise; the final `else` arm is unreachable because actions
stay in {1,2}. -/
def indirectPaysA (agg : RoundAgg) (lpm : PayoffMat) (lastActionB : Nat) : ℚ × ℚ :=
  if lastActionB = 1 then
    (PROPTYPE1*(agg.proptype1otherA1playB1*lpm.p11 + agg.proptype1otherA1playB2*lpm.p12)
       + PROPTYPE2*(agg.proptype2otherA1playB1*lpm.p11 + agg.proptype2otherA1playB2*lpm.p12),
     PROPTYPE1*(agg.proptype1otherA2playB1*lpm.p11 + agg.proptype1otherA2playB2*lpm.p12)
       + PROPTYPE2*(agg.proptype2otherA2playB1*lpm.p11 + agg.proptype2otherA2playB2*lpm.p12))
  else if lastActionB = 2 then
    (PROPTYPE1*(agg.proptype1otherA1playB1*lpm.p21 + agg.proptype1otherA1playB2*lpm.p22)
       + PROPTYPE2*(agg.proptype2otherA1playB1*lpm.p21 + agg.proptype2otherA1playB2*lpm.p22),
     PROPTYPE1*(agg.proptype1otherA2playB1*lpm.p21 + agg.proptype1otherA2playB2*lpm.p22)
       + PROPTYPE2*(agg.proptype2otherA2playB1*lpm.p21 + agg.proptype2otherA2playB2*lpm.p22))
  else (0, 0)

/-- The pair `(evfora1, evfora2)` of `moveA` (source lines 192-193 and
227-228). -/
def evAs (agg : RoundAgg) (gameA lpm : PayoffMat) (lastActionB : Nat) : ℚ × ℚ :=
  let ind := indirectPaysA agg lpm lastActionB
  (agg.PropPlayingA1 * gameA.p11 + agg.PropPlayingA2 * gameA.p12 + ind.1,
   agg.PropPlayingA1 * gameA.p21 + agg.PropPlayingA2 * gameA.p22 + ind.2)

/-- The pair `(evforb1, evforb2)` of `moveB` (source lines 271-276 and
300-305), as a function of the belief snapshot, the player's Game-B
payoff matrix and the opponent's `lastActionA`. As in `indirectPaysA`,
the trailing `else` arm models the unreachable fall-through of the
source's `if ... == 1 ... elif ... == 2` chain. -/
def evBs (agg : RoundAgg) (lpm : PayoffMat) (oppLastActionA : Nat) : ℚ × ℚ :=
  if oppLastActionA = 1 then
    (agg.ProbType1GivenA1*(agg.Type1PlayingB1*lpm.p11 + agg.Type1PlayingB2*lpm.p12)
       + agg.ProbType2GivenA1*(agg.Type2PlayingB1*lpm.p11 + agg.Type2PlayingB2*lpm.p12),
     agg.ProbType1GivenA1*(agg.Type1PlayingB1*lpm.p21 + agg.Type1PlayingB2*lpm.p22)
       + agg.ProbType2GivenA1*(agg.Type2PlayingB1*lpm.p21 + agg.Type2PlayingB2*lpm.p22))
  else if oppLastActionA = 2 then
    (agg.ProbType1GivenA2*(agg.Type1PlayingB1*lpm.p11 + agg.Type1PlayingB2*lpm.p12)
       + agg.ProbType2GivenA2*(agg.Type2PlayingB1*lpm.p11 + agg.Type2PlayingB2*lpm.p12),
     agg.ProbType1GivenA2*(agg.Type1PlayingB1*lpm.p21 + agg.Type1PlayingB2*lpm.p22)
       + agg.ProbType2GivenA2*(agg.Type2PlayingB1*lpm.p21 + agg.Type2PlayingB2*lpm.p22))
  else (0, 0)

/-- Source lines 150-234: `SimplePlayer.moveA`. Returns the mutated
`self` together with the returned action. `choice` is the
`random.choice` oracle (applied to the same-type player list, source
lines 205-208); `u` is the `random.uniform(0,1)` draw of line 214. The
increment `self.numGameA += 1` (lines 181, 201) is folded into the
returned record. -/
def moveA (self : SimplePlayer) (opp_index : Nat)
    (gameAP gameB1P gameB2P : PayoffMat)
    (playerlistType1 playerlistType2 : List Nat)
    (playerdict : Nat → SimplePlayer) (agg : RoundAgg)
    (choice : List Nat → Nat) (u : ℚ) : SimplePlayer × Nat :=
  if self.numGameA = 0 then
    let lpm := if self.playertype = 1 then gameB1P else gameB2P
    let ev := evAs agg gameAP lpm self.lastActionB
    let actionA := maxAction ev.1 ev.2
    ({ self with numGameA := self.numGameA + 1, lastActionA := actionA,
                 lastGameAPay := chosenEV ev.1 ev.2,
                 lastOppGameA := (opp_index : ℚ) }, actionA)
  else
    let myAction := self.lastActionA
    let obsIdx := if self.playertype = 1 then choice playerlistType1
                  else choice playerlistType2
    if (playerdict obsIdx).lastActionA = myAction then
      ({ self with numGameA := self.numGameA + 1 }, myAction)
    else
      let revisionProb := max 0 (((playerdict obsIdx).lastGameAPay - self.lastGameAPay) / 3)
      if u > revisionProb then
        ({ self with numGameA := self.numGameA + 1 }, self.lastActionA)
      else
        let lpm := if self.playertype = 1 then gameB1P else gameB2P
        let ev := evAs agg gameAP lpm self.lastActionB
        let actionA := maxAction ev.1 ev.2
        ({ self with numGameA := self.numGameA + 1, lastActionA := actionA,
                     lastGameAPay := chosenEV ev.1 ev.2,
                     lastOppGameA := (opp_index : ℚ) }, actionA)

/-- Source lines 237-311: `SimplePlayer.moveB`, symmetric to `moveA` but
with the expected values conditioned on the opponent's stored
`lastActionA` (read through `playerdict[opp_index]`). -/
def moveB (self : SimplePlayer) (opp_index : Nat)
    (gameAP gameB1P gameB2P : PayoffMat)
    (playerlistType1 playerlistType2 : List Nat)
    (playerdict : Nat → SimplePlayer) (agg : RoundAgg)
    (choice : List Nat → Nat) (u : ℚ) : SimplePlayer × Nat :=
  if self.numGameB = 0 then
    let lpm := if self.playertype = 1 then gameB1P else gameB2P
    let ev := evBs agg lpm (playerdict opp_index).lastActionA
    let actionB := maxAction ev.1 ev.2
    ({ self with numGameB := self.numGameB + 1, lastActionB := actionB,
                 lastGameBPay := chosenEV ev.1 ev.2,
                 lastOppGameB := (opp_index : ℚ) }, actionB)
  else
    let myAction := self.lastActionB
    let obsIdx := if self.playertype = 1 then choice playerlistType1
                  else choice playerlistType2
    if (playerdict obsIdx).lastActionB = myAction then
      ({ self with numGameB := self.numGameB + 1 }, myAction)
    else
      let revisionProb := max 0 (((playerdict obsIdx).lastGameBPay - self.lastGameBPay) / 3)
      if u > revisionProb then
        ({ self with numGameB := self.numGameB + 1 }, self.lastActionB)
      else
        let lpm := if self.playertype = 1 then gameB1P else gameB2P
        let ev := evBs agg lpm (playerdict opp_index).lastActionA
        let actionB := maxAction ev.1 ev.2
        ({ self with numGameB := self.numGameB + 1, lastActionB := actionB,
                     lastGameBPay := chosenEV ev.1 ev.2,
                     lastOppGameB := (opp_index : ℚ) }, actionB)

/-- Source lines 334-361: `playGameA`. Player 1 moves first (its mutation
is visible to player 2's move), then the four write-back assignments of
lines 358-361 run in source order. `c1`,`u1` (resp. `c2`,`u2`) are the
random oracles consumed by player 1's (resp. player 2's) move. -/
def playGameA (p1 p2 : Nat) (gameAP gameB1P gameB2P : PayoffMat)
    (l1 l2 : List Nat) (pd : Nat → SimplePlayer) (agg : RoundAgg)
    (c1 c2 : List Nat → Nat) (u1 u2 : ℚ) : Nat → SimplePlayer :=
  let r1 := moveA (pd p1) p2 gameAP gameB1P gameB2P l1 l2 pd agg c1 u1
  let pd1 := modPD pd p1 (fun _ => r1.1)
  let r2 := moveA (pd1 p2) p1 gameAP gameB1P gameB2P l1 l2 pd1 agg c2 u2
  let pd2 := modPD pd1 p2 (fun _ => r2.1)
  let pd3 := modPD pd2 p1 (fun a => { a with lastActionA := r1.2 })
  let pd4 := modPD pd3 p2 (fun a => { a with lastActionA := r2.2 })
  let pd5 := modPD pd4 p1 (fun a => { a with lastOppGameA := (p2 : ℚ) })
  modPD pd5 p2 (fun a => { a with lastOppGameA := (p1 : ℚ) })

/-- Source lines 363-392: `playGameB`, with the two extra write-backs of
lines 391-392 copying each participant's (current) `lastActionA` into the
other's `lastOppGameBLastActionA`. -/
def playGameB (p1 p2 : Nat) (gameAP gameB1P gameB2P : PayoffMat)
    (l1 l2 : List Nat) (pd : Nat → SimplePlayer) (agg : RoundAgg)
    (c1 c2 : List Nat → Nat) (u1 u2 : ℚ) : Nat → SimplePlayer :=
  let r1 := moveB (pd p1) p2 gameAP gameB1P gameB2P l1 l2 pd agg c1 u1
  let pd1 := modPD pd p1 (fun _ => r1.1)
  let r2 := moveB (pd1 p2) p1 gameAP gameB1P gameB2P l1 l2 pd1 agg c2 u2
  let pd2 := modPD pd1 p2 (fun _ => r2.1)
  let pd3 := modPD pd2 p1 (fun a => { a with lastActionB := r1.2 })
  let pd4 := modPD pd3 p2 (fun a => { a with lastActionB := r2.2 })
  let pd5 := modPD pd4 p1 (fun a => { a with lastOppGameB := (p2 : ℚ) })
  let pd6 := modPD pd5 p2 (fun a => { a with lastOppGameB := (p1 : ℚ) })
  let pd7 := modPD pd6 p1 (fun a => { a with lastOppGameBLastActionA := (pd6 p2).lastActionA })
  modPD pd7 p2 (fun a => { a with lastOppGameBLastActionA := (pd7 p1).lastActionA })

/-- Source lines 83-99: `getplayertype`, with `d` the `random.uniform(0,1)`
draw: type 1 exactly when `d < PROPTYPE1`. -/
def getplayertype (d : ℚ) : Nat :=
  if d < PROPTYPE1 then 1 else 2

/-- Source lines 101-124: `getactionA`, with `d` the `random.uniform(0,1)`
draw. The source tests `playertype == 1` then `playertype == 2`; the
second test is the else-arm here since `getplayertype` only produces 1
or 2. -/
def getactionA (playertype : Nat) (agg : RoundAgg) (d : ℚ) : Nat :=
  if playertype = 1 then (if d < agg.Type1PlayingA1 then 1 else 2)
  else (if d < agg.Type2PlayingA1 then 1 else 2)

/-- Source lines 126-147: `getactionB`, analogous to `getactionA`. -/
def getactionB (playertype : Nat) (agg : RoundAgg) (d : ℚ) : Nat :=
  if playertype = 1 then (if d < agg.Type1PlayingB1 then 1 else 2)
  else (if d < agg.Type2PlayingB1 then 1 else 2)

/-- The random draws consumed by `SimplePlayer.__init__`
(source lines 49-81), one field per `random` call in source order. -/
structure InitDraws where
  typeDraw : ℚ
  aDraw : ℚ
  bDraw : ℚ
  payA : ℚ
  payB : ℚ
  oppA : ℚ
  oppB : ℚ
  oppBActA : Nat

/-- Source lines 49-81: `SimplePlayer.__init__` for player index `z`
(the appends to the per-type index lists at lines 78-81 are bookkeeping
on the caller's lists and are not part of the player state). -/
def mkPlayer (z : Nat) (agg : RoundAgg) (dr : InitDraws) : SimplePlayer :=
  let pt := getplayertype dr.typeDraw
  let aA := getactionA pt agg dr.aDraw
  let aB := getactionB pt agg dr.bDraw
  { playerindex := z
    playertype := pt
    actionA := aA
    actionB := aB
    numGameA := 0
    numGameB := 0
    lastActionA := aA
    lastActionB := aB
    lastGameAPay := dr.payA
    lastGameBPay := dr.payB
    lastOppGameA := dr.oppA
    lastOppGameB := dr.oppB
    lastOppGameBLastActionA := dr.oppBActA }

/-- The game label drawn at source line 594 from `('A','B')`. -/
inductive GameName where
  | A : GameName
  | B : GameName
deriving DecidableEq

/-- The random draws of one iteration of the interaction loop (source
lines 591-594): two `random.randint(1, POPSIZE)` player indices, the
game label, and the oracles consumed inside the two player moves. -/
structure InteractionDraw where
  p1 : Nat
  p2 : Nat
  game : GameName
  c1 : List Nat → Nat
  c2 : List Nat → Nat
  u1 : ℚ
  u2 : ℚ

/-- The dispatch at source lines 596-601: one interaction runs
`playGameA` or `playGameB` on the drawn pair according to the drawn
game label. -/
def interact (gameAP gameB1P gameB2P : PayoffMat) (l1 l2 : List Nat)
    (agg : RoundAgg) (pd : Nat → SimplePlayer) (d : InteractionDraw) :
    Nat → SimplePlayer :=
  match d.game with
  | GameName.A => playGameA d.p1 d.p2 gameAP gameB1P gameB2P l1 l2 pd agg d.c1 d.c2 d.u1 d.u2
  | GameName.B => playGameB d.p1 d.p2 gameAP gameB1P gameB2P l1 l2 pd agg d.c1 d.c2 d.u1 d.u2

/-- The interaction loop of one round, source line 591:
`for y in range(1, int(POPSIZE/20))` — iterations y = 1 .. ⌊POPSIZE/20⌋−1,
each consuming fresh draws `draws y`. -/
def runRound (gameAP gameB1P gameB2P : PayoffMat) (l1 l2 : List Nat)
    (agg : RoundAgg) (draws : Nat → InteractionDraw)
    (pd : Nat → SimplePlayer) : Nat → SimplePlayer :=
  (List.range' 1 (POPSIZE / 20 - 1)).foldl
    (fun q y => interact gameAP gameB1P gameB2P l1 l2 agg q (draws y)) pd

/-- The initial `roundAgg` dictionary of `main` (source lines 552-565),
as a function of `A1 = u*0.05`. The `ProbType*Given*` entries use plain
division there (not `divide`). -/
def initRoundAgg (A1 : ℚ) : RoundAgg :=
  let Type1PlayingA1 := A1
  let Type1PlayingA2 := 1 - Type1PlayingA1
  let Type2PlayingA1 := A1
  let Type2PlayingA2 := 1 - Type2PlayingA1
  let Type1PlayingB1 : ℚ := 1/2
  let Type1PlayingB2 := 1 - Type1PlayingB1
  let Type2PlayingB1 : ℚ := 1/2
  let Type2PlayingB2 := 1 - Type2PlayingB1
  { PropPlayingA1 := Type1PlayingA1*PROPTYPE1 + Type2PlayingA1*PROPTYPE2
    PropPlayingA2 := Type1PlayingA2*PROPTYPE1 + Type2PlayingA2*PROPTYPE2
    PropPlayingB1 := Type1PlayingB1*PROPTYPE1 + Type2PlayingB1*PROPTYPE2
    PropPlayingB2 := Type1PlayingB2*PROPTYPE1 + Type2PlayingB2*PROPTYPE2
    ProbType1GivenA1 := (PROPTYPE1*Type1PlayingA1) / (PROPTYPE1*Type1PlayingA1 + PROPTYPE2*Type2PlayingA1)
    ProbType2GivenA1 := (PROPTYPE2*Type2PlayingA1) / (PROPTYPE1*Type1PlayingA1 + PROPTYPE2*Type2PlayingA1)
    ProbType1GivenA2 := (PROPTYPE1*Type1PlayingA2) / (PROPTYPE1*Type1PlayingA2 + PROPTYPE2*Type2PlayingA2)
    ProbType2GivenA2 := (PROPTYPE2*Type2PlayingA2) / (PROPTYPE1*Type1PlayingA2 + PROPTYPE2*Type2PlayingA2)
    Type1PlayingA1 := Type1PlayingA1
    Type1PlayingA2 := Type1PlayingA2
    Type2PlayingA1 := Type2PlayingA1
    Type2PlayingA2 := Type2PlayingA2
    Type1PlayingB1 := Type1PlayingB1
    Type1PlayingB2 := Type1PlayingB2
    Type2PlayingB1 := Type2PlayingB1
    Type2PlayingB2 := Type2PlayingB2
    proptype1otherA1playB1 := 1/2
    proptype1otherA1playB2 := 1/2
    proptype1otherA2playB1 := 1/2
    proptype1otherA2playB2 := 1/2
    proptype2otherA1playB1 := 1/2
    proptype2otherA1playB2 := 1/2
    proptype2otherA2playB1 := 1/2
    proptype2otherA2playB2 := 1/2 }

/-- The per-run mutable state of `main`'s round loop (source lines
588-608): the player dictionary, the `roundAgg` dictionary read by all
decision procedures, and the accumulated per-round series `aggVarsDict`
(modelled as the list of appended rows; line 569 seeds it with the
initial row). -/
structure RunState where
  pd : Nat → SimplePlayer
  roundAgg : RoundAgg
  series : List RoundAgg

/-- One iteration of `for x in range(1, NUMROUNDS+1)` (source lines
588-608): run the interaction loop, call `countAggs`, then append to the
series. Crucially, in the source `countAggs` writes its results into a
dictionary that is *local* to `countAggs` (the rebinding `roundAgg = {}`
at line 447) and returns `None`, so the caller's `roundAgg` — the one
agents read and `aggVarsDict` appends from (line 608) — is never
updated; the freshly computed snapshot (`_discardedAgg` below) is dead. -/
def simRound (numType1 numType2 : Nat) (gameAP gameB1P gameB2P : PayoffMat)
    (l1 l2 : List Nat) (draws : Nat → InteractionDraw) (st : RunState) : RunState :=
  let pd1 := runRound gameAP gameB1P gameB2P l1 l2 st.roundAgg draws st.pd
  let _discardedAgg := countAggs pd1 numType1 numType2
  { pd := pd1
    roundAgg := st.roundAgg
    series := st.series ++ [st.roundAgg] }

/-- Generic characterization of one counter of the counting loop: a field
that `stepCounts` increments exactly when `p z` holds accumulates, over a
list of scanned indices, its initial value plus the number of indices
satisfying `p`. -/
theorem foldl_stepCounts_field (pd : Nat → SimplePlayer) (f : Counts → Nat) (p : Nat → Bool)
    (hf : ∀ c z, f (stepCounts pd c z) = f c + (if p z then 1 else 0)) :
    ∀ (l : List Nat) (c : Counts), f (l.foldl (stepCounts pd) c) = f c + l.countP p := by
  intro l
  induction l with
  | nil => intro c; simp
  | cons a t ih =>
    intro c
    rw [List.foldl_cons, ih, hf, List.countP_cons]
    rcases Bool.eq_false_or_eq_true (p a) with hp | hp <;> simp [hp] <;> omega

/-- Two player dictionaries agreeing on every scanned index produce the
same fold of the counting loop. -/
theorem foldl_stepCounts_congr (pd pd' : Nat → SimplePlayer) :
    ∀ (l : List Nat), (∀ z ∈ l, pd z = pd' z) →
    ∀ (c : Counts), l.foldl (stepCounts pd) c = l.foldl (stepCounts pd') c := by
  intro l
  induction l with
  | nil => intro _ c; rfl
  | cons a t ih =>
    intro h c
    have ha : pd a = pd' a := h a (List.mem_cons_self a t)
    have hstep : stepCounts pd c a = stepCounts pd' c a := by
      unfold stepCounts; rw [ha]
    rw [List.foldl_cons, List.foldl_cons, hstep,
      ih (fun z hz => h z (List.mem_cons_of_mem a hz))]

/-- Splitting a count over two mutually exclusive conditions that
together cover a third. -/
theorem countP_split (p q r : Nat → Bool) :
    ∀ (l : List Nat), (∀ z ∈ l, (p z || q z) = r z ∧ ¬(p z = true ∧ q z = true)) →
    l.countP p + l.countP q = l.countP r := by
  intro l
  induction l with
  | nil => simp
  | cons a t ih =>
    intro h
    have ha := h a (List.mem_cons_self a t)
    have ht := ih (fun z hz => h z (List.mem_cons_of_mem a hz))
    rw [List.countP_cons, List.countP_cons, List.countP_cons, ← ht]
    rcases Bool.eq_false_or_eq_true (p a) with hp | hp <;>
      rcases Bool.eq_false_or_eq_true (q a) with hq | hq
    · exact absurd ⟨hp, hq⟩ ha.2
    · have hr : r a = true := by simpa [hp, hq] using ha.1
      simp [hp, hq, hr]
      omega
    · have hr : r a = true := by simpa [hp, hq] using ha.1
      simp [hp, hq, hr]
      omega
    · have hr : r a = false := by simpa [hp, hq] using ha.1
      simp [hp, hq, hr]

/-- The index range 1..POPSIZE is the scanned range 1..POPSIZE−1 plus the
excluded last index. -/
theorem range'_POPSIZE_concat :
    List.range' 1 POPSIZE = List.range' 1 (POPSIZE - 1) ++ [POPSIZE] := by
  show List.range' 1 1000 = List.range' 1 999 ++ [1000]
  have h : List.range' 1 (999 + 1) 1 = List.range' 1 999 1 ++ [1 + 1 * 999] :=
    List.range'_concat 1 999
  simpa using h

/-- Safe division of a nonnegative numerator by a dominating denominator
lands in the unit interval. -/
theorem divide_mem_unit (n d : ℚ) (h0 : 0 ≤ n) (hle : n ≤ d) :
    0 ≤ divide n d ∧ divide n d ≤ 1 := by
  unfold divide
  split_ifs with h
  · exact ⟨le_refl 0, by norm_num⟩
  · have hd : 0 < d := lt_of_le_of_ne (le_trans h0 hle) (Ne.symm h)
    exact ⟨div_nonneg h0 hd.le, (div_le_one hd).2 hle⟩

/-- The counter `numType1PlayingA1` of the counting loop counts the scanned indices
whose player satisfies `condPlayA 1 1`. -/
theorem countsLoop_numType1PlayingA1 (pd : Nat → SimplePlayer) :
    (countsLoop pd).numType1PlayingA1 =
      (List.range' 1 (POPSIZE - 1)).countP (fun z => condPlayA 1 1 (pd z)) := by
  unfold countsLoop
  rw [foldl_stepCounts_field pd (fun c => c.numType1PlayingA1)
    (fun z => condPlayA 1 1 (pd z)) (fun c z => rfl)]
  simp [Counts.zero]

/-- The counter `numType1PlayingA2` of the counting loop counts the scanned indices
whose player satisfies `condPlayA 1 2`. -/
theorem countsLoop_numType1PlayingA2 (pd : Nat → SimplePlayer) :
    (countsLoop pd).numType1PlayingA2 =
      (List.range' 1 (POPSIZE - 1)).countP (fun z => condPlayA 1 2 (pd z)) := by
  unfold countsLoop
  rw [foldl_stepCounts_field pd (fun c => c.numType1PlayingA2)
    (fun z => condPlayA 1 2 (pd z)) (fun c z => rfl)]
  simp [Counts.zero]

/-- The counter `numType2PlayingA1` of the counting loop counts the scanned indices
whose player satisfies `condPlayA 2 1`. -/
theorem countsLoop_numType2PlayingA1 (pd : Nat → SimplePlayer) :
    (countsLoop pd).numType2PlayingA1 =
      (List.range' 1 (POPSIZE - 1)).countP (fun z => condPlayA 2 1 (pd z)) := by
  unfold countsLoop
  rw [foldl_stepCounts_field pd (fun c => c.numType2PlayingA1)
    (fun z => condPlayA 2 1 (pd z)) (fun c z => rfl)]
  simp [Counts.zero]

/-- The counter `numType2PlayingA2` of the counting loop counts the scanned indices
whose player satisfies `condPlayA 2 2`. -/
theorem countsLoop_numType2PlayingA2 (pd : Nat → SimplePlayer) :
    (countsLoop pd).numType2PlayingA2 =
      (List.range' 1 (POPSIZE - 1)).countP (fun z => condPlayA 2 2 (pd z)) := by
  unfold countsLoop
  rw [foldl_stepCounts_field pd (fun c => c.numType2PlayingA2)
    (fun z => condPlayA 2 2 (pd z)) (fun c z => rfl)]
  simp [Counts.zero]

/-- The counter `numType1PlayingB1` of the counting loop counts the scanned indices
whose player satisfies `condPlayB 1 1`. -/
theorem countsLoop_numType1PlayingB1 (pd : Nat → SimplePlayer) :
    (countsLoop pd).numType1PlayingB1 =
      (List.range' 1 (POPSIZE - 1)).countP (fun z => condPlayB 1 1 (pd z)) := by
  unfold countsLoop
  rw [foldl_stepCounts_field pd (fun c => c.numType1PlayingB1)
    (fun z => condPlayB 1 1 (pd z)) (fun c z => rfl)]
  simp [Counts.zero]

/-- The counter `numType1PlayingB2` of the counting loop counts the scanned indices
whose player satisfies `condPlayB 1 2`. -/
theorem countsLoop_numType1PlayingB2 (pd : Nat → SimplePlayer) :
    (countsLoop pd).numType1PlayingB2 =
      (List.range' 1 (POPSIZE - 1)).countP (fun z => condPlayB 1 2 (pd z)) := by
  unfold countsLoop
  rw [foldl_stepCounts_field pd (fun c => c.numType1PlayingB2)
    (fun z => condPlayB 1 2 (pd z)) (fun c z => rfl)]
  simp [Counts.zero]

/-- The counter `numType2PlayingB1` of the counting loop counts the scanned indices
whose player satisfies `condPlayB 2 1`. -/
theorem countsLoop_numType2PlayingB1 (pd : Nat → SimplePlayer) :
    (countsLoop pd).numType2PlayingB1 =
      (List.range' 1 (POPSIZE - 1)).countP (fun z => condPlayB 2 1 (pd z)) := by
  unfold countsLoop
  rw [foldl_stepCounts_field pd (fun c => c.numType2PlayingB1)
    (fun z => condPlayB 2 1 (pd z)) (fun c z => rfl)]
  simp [Counts.zero]

/-- The counter `numType2PlayingB2` of the counting loop counts the scanned indices
whose player satisfies `condPlayB 2 2`. -/
theorem countsLoop_numType2PlayingB2 (pd : Nat → SimplePlayer) :
    (countsLoop pd).numType2PlayingB2 =
      (List.range' 1 (POPSIZE - 1)).countP (fun z => condPlayB 2 2 (pd z)) := by
  unfold countsLoop
  rw [foldl_stepCounts_field pd (fun c => c.numType2PlayingB2)
    (fun z => condPlayB 2 2 (pd z)) (fun c z => rfl)]
  simp [Counts.zero]

/-- The counter `numtype1otherA1` of the counting loop counts the scanned indices
whose player satisfies `condOther 1 1`. -/
theorem countsLoop_numtype1otherA1 (pd : Nat → SimplePlayer) :
    (countsLoop pd).numtype1otherA1 =
      (List.range' 1 (POPSIZE - 1)).countP (fun z => condOther 1 1 (pd z)) := by
  unfold countsLoop
  rw [foldl_stepCounts_field pd (fun c => c.numtype1otherA1)
    (fun z => condOther 1 1 (pd z)) (fun c z => rfl)]
  simp [Counts.zero]

/-- The counter `numtype1otherA2` of the counting loop counts the scanned indices
whose player satisfies `condOther 1 2`. -/
theorem countsLoop_numtype1otherA2 (pd : Nat → SimplePlayer) :
    (countsLoop pd).numtype1otherA2 =
      (List.range' 1 (POPSIZE - 1)).countP (fun z => condOther 1 2 (pd z)) := by
  unfold countsLoop
  rw [foldl_stepCounts_field pd (fun c => c.numtype1otherA2)
    (fun z => condOther 1 2 (pd z)) (fun c z => rfl)]
  simp [Counts.zero]

/-- The counter `numtype2otherA1` of the counting loop counts the scanned indices
whose player satisfies `condOther 2 1`. -/
theorem countsLoop_numtype2otherA1 (pd : Nat → SimplePlayer) :
    (countsLoop pd).numtype2otherA1 =
      (List.range' 1 (POPSIZE - 1)).countP (fun z => condOther 2 1 (pd z)) := by
  unfold countsLoop
  rw [foldl_stepCounts_field pd (fun c => c.numtype2otherA1)
    (fun z => condOther 2 1 (pd z)) (fun c z => rfl)]
  simp [Counts.zero]

/-- The counter `numtype2otherA2` of the counting loop counts the scanned indices
whose player satisfies `condOther 2 2`. -/
theorem countsLoop_numtype2otherA2 (pd : Nat → SimplePlayer) :
    (countsLoop pd).numtype2otherA2 =
      (List.range' 1 (POPSIZE - 1)).countP (fun z => condOther 2 2 (pd z)) := by
  unfold countsLoop
  rw [foldl_stepCounts_field pd (fun c => c.numtype2otherA2)
    (fun z => condOther 2 2 (pd z)) (fun c z => rfl)]
  simp [Counts.zero]

/-- The counter `numtype1otherA1playB1` of the counting loop counts the scanned indices
whose player satisfies `condOtherPlay 1 1 1`. -/
theorem countsLoop_numtype1otherA1playB1 (pd : Nat → SimplePlayer) :
    (countsLoop pd).numtype1otherA1playB1 =
      (List.range' 1 (POPSIZE - 1)).countP (fun z => condOtherPlay 1 1 1 (pd z)) := by
  unfold countsLoop
  rw [foldl_stepCounts_field pd (fun c => c.numtype1otherA1playB1)
    (fun z => condOtherPlay 1 1 1 (pd z)) (fun c z => rfl)]
  simp [Counts.zero]

/-- The counter `numtype1otherA1playB2` of the counting loop counts the scanned indices
whose player satisfies `condOtherPlay 1 1 2`. -/
theorem countsLoop_numtype1otherA1playB2 (pd : Nat → SimplePlayer) :
    (countsLoop pd).numtype1otherA1playB2 =
      (List.range' 1 (POPSIZE - 1)).countP (fun z => condOtherPlay 1 1 2 (pd z)) := by
  unfold countsLoop
  rw [foldl_stepCounts_field pd (fun c => c.numtype1otherA1playB2)
    (fun z => condOtherPlay 1 1 2 (pd z)) (fun c z => rfl)]
  simp [Counts.zero]

/-- The counter `numtype1otherA2playB1` of the counting loop counts the scanned indices
whose player satisfies `condOtherPlay 1 2 1`. -/
theorem countsLoop_numtype1otherA2playB1 (pd : Nat → SimplePlayer) :
    (countsLoop pd).numtype1otherA2playB1 =
      (List.range' 1 (POPSIZE - 1)).countP (fun z => condOtherPlay 1 2 1 (pd z)) := by
  unfold countsLoop
  rw [foldl_stepCounts_field pd (fun c => c.numtype1otherA2playB1)
    (fun z => condOtherPlay 1 2 1 (pd z)) (fun c z => rfl)]
  simp [Counts.zero]

/-- The counter `numtype1otherA2playB2` of the counting loop counts the scanned indices
whose player satisfies `condOtherPlay 1 2 2`. -/
theorem countsLoop_numtype1otherA2playB2 (pd : Nat → SimplePlayer) :
    (countsLoop pd).numtype1otherA2playB2 =
      (List.range' 1 (POPSIZE - 1)).countP (fun z => condOtherPlay 1 2 2 (pd z)) := by
  unfold countsLoop
  rw [foldl_stepCounts_field pd (fun c => c.numtype1otherA2playB2)
    (fun z => condOtherPlay 1 2 2 (pd z)) (fun c z => rfl)]
  simp [Counts.zero]

/-- The counter `numtype2otherA1playB1` of the counting loop counts the scanned indices
whose player satisfies `condOtherPlay 2 1 1`. -/
theorem countsLoop_numtype2otherA1playB1 (pd : Nat → SimplePlayer) :
    (countsLoop pd).numtype2otherA1playB1 =
      (List.range' 1 (POPSIZE - 1)).countP (fun z => condOtherPlay 2 1 1 (pd z)) := by
  unfold countsLoop
  rw [foldl_stepCounts_field pd (fun c => c.numtype2otherA1playB1)
    (fun z => condOtherPlay 2 1 1 (pd z)) (fun c z => rfl)]
  simp [Counts.zero]

/-- The counter `numtype2otherA1playB2` of the counting loop counts the scanned indices
whose player satisfies `condOtherPlay 2 1 2`. -/
theorem countsLoop_numtype2otherA1playB2 (pd : Nat → SimplePlayer) :
    (countsLoop pd).numtype2otherA1playB2 =
      (List.range' 1 (POPSIZE - 1)).countP (fun z => condOtherPlay 2 1 2 (pd z)) := by
  unfold countsLoop
  rw [foldl_stepCounts_field pd (fun c => c.numtype2otherA1playB2)
    (fun z => condOtherPlay 2 1 2 (pd z)) (fun c z => rfl)]
  simp [Counts.zero]

/-- The counter `numtype2otherA2playB1` of the counting loop counts the scanned indices
whose player satisfies `condOtherPlay 2 2 1`. -/
theorem countsLoop_numtype2otherA2playB1 (pd : Nat → SimplePlayer) :
    (countsLoop pd).numtype2otherA2playB1 =
      (List.range' 1 (POPSIZE - 1)).countP (fun z => condOtherPlay 2 2 1 (pd z)) := by
  unfold countsLoop
  rw [foldl_stepCounts_field pd (fun c => c.numtype2otherA2playB1)
    (fun z => condOtherPlay 2 2 1 (pd z)) (fun c z => rfl)]
  simp [Counts.zero]

/-- The counter `numtype2otherA2playB2` of the counting loop counts the scanned indices
whose player satisfies `condOtherPlay 2 2 2`. -/
theorem countsLoop_numtype2otherA2playB2 (pd : Nat → SimplePlayer) :
    (countsLoop pd).numtype2otherA2playB2 =
      (List.range' 1 (POPSIZE - 1)).countP (fun z => condOtherPlay 2 2 2 (pd z)) := by
  unfold countsLoop
  rw [foldl_stepCounts_field pd (fun c => c.numtype2otherA2playB2)
    (fun z => condOtherPlay 2 2 2 (pd z)) (fun c z => rfl)]
  simp [Counts.zero]

/-- A sample Type-1 player used for concrete instantiations. -/
def sampleT1 : SimplePlayer :=
  ⟨1, 1, 1, 1, 0, 0, 1, 1, 0, 0, 0, 0, 1⟩

/-- A sample Type-2 player used for concrete instantiations. -/
def sampleT2 : SimplePlayer :=
  ⟨1, 2, 2, 2, 0, 0, 2, 2, 0, 0, 0, 0, 1⟩

/-- A player dictionary holding only Type-2 players. -/
def pdAllT2 : Nat → SimplePlayer := fun _ => sampleT2

/-- Claim C8: for every numerator `n`, `divide n 0 = 0`, and for every
nonzero denominator `d`, `divide n d = n / d` — the safe-divide
primitive never fails on a zero denominator. -/
theorem claim_C8_divide (n d : ℚ) :
    divide n 0 = 0 ∧ (d ≠ 0 → divide n d = n / d) := by
  refine ⟨by simp [divide], fun h => by simp [divide, h]⟩

/-- Witness for C8 at concrete inputs. -/
theorem claim_C8_divide_witness : divide 5 0 = 0 ∧ divide 6 3 = 6 / 3 :=
  ⟨(claim_C8_divide 5 3).1, (claim_C8_divide 6 3).2 (by norm_num)⟩

/-- Claim C3: the aggregation pass scans exactly the agent indices
1 .. POPSIZE−1, each exactly once, and the agent with index POPSIZE
contributes to no counter and hence to no computed frequency.
Conjunct 1: the output depends only on the agents at indices
1 .. POPSIZE−1. Conjunct 2: rewriting the agent at index POPSIZE
arbitrarily leaves the output unchanged. Conjunct 3 (and the per-counter
lemmas it bundles): every counter equals the count, over the scanned
index list `range' 1 (POPSIZE−1)` whose entries are pairwise distinct,
of the indices satisfying the counter's condition — i.e. each scanned
index is tallied exactly once. -/
theorem claim_C3_scan_excludes_last :
    (∀ (pd pd' : Nat → SimplePlayer) (n1 n2 : Nat),
      (∀ z, 1 ≤ z → z ≤ POPSIZE - 1 → pd z = pd' z) →
      countAggs pd n1 n2 = countAggs pd' n1 n2)
    ∧ (∀ (pd : Nat → SimplePlayer) (q : SimplePlayer → SimplePlayer) (n1 n2 : Nat),
      countAggs (modPD pd POPSIZE q) n1 n2 = countAggs pd n1 n2)
    ∧ (∀ pd : Nat → SimplePlayer,
      (countsLoop pd).numType1PlayingA1 =
        (List.range' 1 (POPSIZE - 1)).countP (fun z => condPlayA 1 1 (pd z))
      ∧ (countsLoop pd).numType2PlayingB2 =
        (List.range' 1 (POPSIZE - 1)).countP (fun z => condPlayB 2 2 (pd z))
      ∧ (countsLoop pd).numtype1otherA1 =
        (List.range' 1 (POPSIZE - 1)).countP (fun z => condOther 1 1 (pd z))
      ∧ (countsLoop pd).numtype2otherA2playB1 =
        (List.range' 1 (POPSIZE - 1)).countP (fun z => condOtherPlay 2 2 1 (pd z)))
    ∧ (List.range' 1 (POPSIZE - 1)).Nodup := by
  have hagree : ∀ (pd pd' : Nat → SimplePlayer),
      (∀ z, 1 ≤ z → z ≤ POPSIZE - 1 → pd z = pd' z) →
      ∀ n1 n2, countAggs pd n1 n2 = countAggs pd' n1 n2 := by
    intro pd pd' h n1 n2
    have hloop : countsLoop pd = countsLoop pd' := by
      unfold countsLoop
      refine foldl_stepCounts_congr pd pd' _ (fun z hz => ?_) Counts.zero
      have hz' := List.mem_range'_1.mp hz
      have hpop : POPSIZE = 1000 := rfl
      exact h z hz'.1 (by omega)
    unfold countAggs
    rw [hloop]
  refine ⟨fun pd pd' n1 n2 h => hagree pd pd' h n1 n2, ?_, ?_, ?_⟩
  · intro pd q n1 n2
    refine hagree _ _ (fun z h1 h2 => ?_) n1 n2
    have hpop : POPSIZE = 1000 := rfl
    unfold modPD
    rw [if_neg (by omega)]
  · intro pd
    exact ⟨countsLoop_numType1PlayingA1 pd, countsLoop_numType2PlayingB2 pd,
      countsLoop_numtype1otherA1 pd, countsLoop_numtype2otherA2playB1 pd⟩
  · exact List.nodup_range' 1 (POPSIZE - 1)

/-- Witness for C3: overwriting the excluded agent (index POPSIZE) of a
concrete dictionary does not change the computed snapshot. -/
theorem claim_C3_witness :
    countAggs (modPD pdAllT2 POPSIZE (fun _ => sampleT1)) 0 1000 =
      countAggs pdAllT2 0 1000 :=
  claim_C3_scan_excludes_last.2.1 pdAllT2 (fun _ => sampleT1) 0 1000

/-- Stateful view of `countAggs` (source lines 411-517): the function
reads the player dictionary but every assignment in its body targets a
function-local name (the counters, lines 425-444, and the local dict
`roundAgg`, line 447), so as a state transformer it returns the player
dictionary unchanged alongside the computed snapshot. -/
def countAggsS (pd : Nat → SimplePlayer) (numType1 numType2 : Nat) :
    (Nat → SimplePlayer) × RoundAgg :=
  (pd, countAggs pd numType1 numType2)

/-- Claim C10: the aggregation pass is read-only with respect to the
population — after `countAggs` returns, every agent is unchanged (the
state component of `countAggsS` is the input dictionary itself, and the
`numType` arguments are passed by value) — and hence running it twice in
succession on the same collection computes identical statistics. -/
theorem claim_C10_countAggs_readonly (pd : Nat → SimplePlayer) (n1 n2 : Nat) :
    (countAggsS pd n1 n2).1 = pd
    ∧ ∀ i, ((countAggsS pd n1 n2).1) i = pd i
    ∧ (countAggsS ((countAggsS pd n1 n2).1) n1 n2).2 = (countAggsS pd n1 n2).2 :=
  ⟨rfl, fun _ => ⟨rfl, rfl⟩⟩

set_option maxRecDepth 10000 in
/-- On the all-Type-2 dictionary the conditional frequency
`proptype1otherA1playB1` computed by `countAggs` is 0 (both its joint
count and its conditioning count are 0, and `divide 0 0 = 0`). -/
theorem countAggs_pdAllT2_prop1 :
    (countAggs pdAllT2 0 1000).proptype1otherA1playB1 = 0 := by
  have hnum : (countsLoop pdAllT2).numtype1otherA1playB1 = 0 := by
    rw [countsLoop_numtype1otherA1playB1]
    simp [condOtherPlay, pdAllT2, sampleT2]
  have hden : (countsLoop pdAllT2).numtype1otherA1 = 0 := by
    rw [countsLoop_numtype1otherA1]
    simp [condOther, pdAllT2, sampleT2]
  show divide (countsLoop pdAllT2).numtype1otherA1playB1 (countsLoop pdAllT2).numtype1otherA1 = 0
  rw [hnum, hden]
  simp [divide]

/-- Claim C1 (failing): in the source, `countAggs` stores its results in
a dictionary *local* to itself (`roundAgg = {}`, line 447) and returns
`None`, so the `roundAgg` of `main` is never updated after its
initialization at lines 552-565. Conjunct 1: a simulation round leaves
the belief snapshot unchanged (so round r+1's decisions read the same,
initial snapshot) and appends that stale snapshot — not the fresh
`countAggs` output — to the series. Conjuncts 2 and 3: at a concrete
population the fresh `countAggs` snapshot differs from the initial
snapshot that is actually consumed and recorded (field
`proptype1otherA1playB1`: 0 versus 1/2). -/
theorem claim_C1_snapshot_never_updated :
    (∀ (n1 n2 : Nat) (gameAP gameB1P gameB2P : PayoffMat) (l1 l2 : List Nat)
        (draws : Nat → InteractionDraw) (st : RunState),
      (simRound n1 n2 gameAP gameB1P gameB2P l1 l2 draws st).roundAgg = st.roundAgg
      ∧ (simRound n1 n2 gameAP gameB1P gameB2P l1 l2 draws st).series
          = st.series ++ [st.roundAgg])
    ∧ (countAggs pdAllT2 0 1000).proptype1otherA1playB1 = 0
    ∧ (initRoundAgg (1/20)).proptype1otherA1playB1 = 1/2 := by
  refine ⟨fun n1 n2 gA gB1 gB2 l1 l2 draws st => ⟨rfl, rfl⟩, countAggs_pdAllT2_prop1, ?_⟩
  show ((1 : ℚ)/2 : ℚ) = 1/2
  norm_num

/-- Claim C7: each round performs exactly ⌊POPSIZE/20⌋ − 1 = 49
interactions (the loop `for y in range(1, int(POPSIZE/20))`), and each
interaction dispatches its drawn pair of player indices (sampled by
`random.randint(1, POPSIZE)`, here oracle fields of the draw, with
replacement and self-play allowed) to `playGameA` or `playGameB`
according to the drawn game label. -/
theorem claim_C7_round_scheduler :
    (List.range' 1 (POPSIZE / 20 - 1)).length = POPSIZE / 20 - 1
    ∧ POPSIZE / 20 - 1 = 49
    ∧ (∀ (gameAP gameB1P gameB2P : PayoffMat) (l1 l2 : List Nat) (agg : RoundAgg)
        (draws : Nat → InteractionDraw) (pd : Nat → SimplePlayer),
      runRound gameAP gameB1P gameB2P l1 l2 agg draws pd =
        (List.range' 1 (POPSIZE / 20 - 1)).foldl
          (fun q y => interact gameAP gameB1P gameB2P l1 l2 agg q (draws y)) pd)
    ∧ (∀ (p1 p2 : Nat) (c1 c2 : List Nat → Nat) (u1 u2 : ℚ)
        (gameAP gameB1P gameB2P : PayoffMat) (l1 l2 : List Nat)
        (agg : RoundAgg) (pd : Nat → SimplePlayer),
      interact gameAP gameB1P gameB2P l1 l2 agg pd ⟨p1, p2, GameName.A, c1, c2, u1, u2⟩ =
        playGameA p1 p2 gameAP gameB1P gameB2P l1 l2 pd agg c1 c2 u1 u2
      ∧ interact gameAP gameB1P gameB2P l1 l2 agg pd ⟨p1, p2, GameName.B, c1, c2, u1, u2⟩ =
        playGameB p1 p2 gameAP gameB1P gameB2P l1 l2 pd agg c1 c2 u1 u2) := by
  refine ⟨by simp, rfl, fun _ _ _ _ _ _ _ _ => rfl, fun _ _ _ _ _ _ _ _ _ _ _ _ _ => ⟨rfl, rfl⟩⟩

/-- A player dictionary holding only Type-1 players. -/
def pdAllT1 : Nat → SimplePlayer := fun _ => sampleT1

/-- A Type-1 player who has already played both games once, with
`lastGameAPay = lastGameBPay = 2` and `lastOppGameA = lastOppGameB = 7`. -/
def playedOnceT1 : SimplePlayer :=
  ⟨5, 1, 1, 1, 1, 1, 1, 1, 2, 2, 7, 7, 1⟩

/-- Claim C4 as stated is false: an invocation of `moveA` in which the
agent keeps its previous action (here: the observed same-type peer's
last action matches) does not touch the payoff field or the
last-opponent field — the returned state still carries the old
`lastOppGameA = 7` and `lastGameAPay = 2`, not the new opponent index 3
or a recomputed expected payoff. -/
theorem claim_C4_counterexample :
    (moveA playedOnceT1 3 GameA_PAYOFFMAT (GameB1_PAYOFFMAT 1) (GameB2_PAYOFFMAT 1)
        [1] [1] pdAllT1 (initRoundAgg (1/20)) (fun _ => 1) (1/2)).1.lastOppGameA = 7
    ∧ (moveA playedOnceT1 3 GameA_PAYOFFMAT (GameB1_PAYOFFMAT 1) (GameB2_PAYOFFMAT 1)
        [1] [1] pdAllT1 (initRoundAgg (1/20)) (fun _ => 1) (1/2)).1.lastGameAPay = 2
    ∧ (7 : ℚ) ≠ ((3 : Nat) : ℚ) := by
  refine ⟨?_, ?_, by norm_num⟩ <;>
    simp [moveA, playedOnceT1, pdAllT1, sampleT1]

/-- Claim C4, amended: the decision procedures update the last-action,
payoff (to the computed expected payoff of the chosen action) and
last-opponent fields exactly in the invocations that run the
expected-payoff comparison — first-time play, or a triggered revision —
and increment the games-played counter on every invocation; in the two
keep branches (observed peer's action matches, or the uniform draw
exceeds the revision probability) the payoff and last-opponent fields
are left unchanged (only the counter changes). Conjuncts 1-4 cover
`moveA`'s four branches, conjuncts 5-8 `moveB`'s. -/
theorem claim_C4_amended
    (self : SimplePlayer) (opp : Nat) (gA gB1 gB2 : PayoffMat) (l1 l2 : List Nat)
    (pd : Nat → SimplePlayer) (agg : RoundAgg) (ch : List Nat → Nat) (u : ℚ) :
    (self.numGameA = 0 →
      (moveA self opp gA gB1 gB2 l1 l2 pd agg ch u).1.lastActionA = (moveA self opp gA gB1 gB2 l1 l2 pd agg ch u).2
      ∧ (moveA self opp gA gB1 gB2 l1 l2 pd agg ch u).2 = maxAction (evAs agg gA (if self.playertype = 1 then gB1 else gB2) self.lastActionB).1 (evAs agg gA (if self.playertype = 1 then gB1 else gB2) self.lastActionB).2
      ∧ (moveA self opp gA gB1 gB2 l1 l2 pd agg ch u).1.lastGameAPay = chosenEV (evAs agg gA (if self.playertype = 1 then gB1 else gB2) self.lastActionB).1 (evAs agg gA (if self.playertype = 1 then gB1 else gB2) self.lastActionB).2
      ∧ (moveA self opp gA gB1 gB2 l1 l2 pd agg ch u).1.lastOppGameA = (opp : ℚ)
      ∧ (moveA self opp gA gB1 gB2 l1 l2 pd agg ch u).1.numGameA = self.numGameA + 1)
    ∧ (self.numGameA ≠ 0 → (pd (if self.playertype = 1 then ch l1 else ch l2)).lastActionA = self.lastActionA →
      (moveA self opp gA gB1 gB2 l1 l2 pd agg ch u).1 = { self with numGameA := self.numGameA + 1 }
      ∧ (moveA self opp gA gB1 gB2 l1 l2 pd agg ch u).2 = self.lastActionA)
    ∧ (self.numGameA ≠ 0 → (pd (if self.playertype = 1 then ch l1 else ch l2)).lastActionA ≠ self.lastActionA →
        u > max 0 (((pd (if self.playertype = 1 then ch l1 else ch l2)).lastGameAPay - self.lastGameAPay) / 3) →
      (moveA self opp gA gB1 gB2 l1 l2 pd agg ch u).1 = { self with numGameA := self.numGameA + 1 }
      ∧ (moveA self opp gA gB1 gB2 l1 l2 pd agg ch u).2 = self.lastActionA)
    ∧ (self.numGameA ≠ 0 → (pd (if self.playertype = 1 then ch l1 else ch l2)).lastActionA ≠ self.lastActionA →
        ¬ u > max 0 (((pd (if self.playertype = 1 then ch l1 else ch l2)).lastGameAPay - self.lastGameAPay) / 3) →
      (moveA self opp gA gB1 gB2 l1 l2 pd agg ch u).1.lastActionA = (moveA self opp gA gB1 gB2 l1 l2 pd agg ch u).2
      ∧ (moveA self opp gA gB1 gB2 l1 l2 pd agg ch u).2 = maxAction (evAs agg gA (if self.playertype = 1 then gB1 else gB2) self.lastActionB).1 (evAs agg gA (if self.playertype = 1 then gB1 else gB2) self.lastActionB).2
      ∧ (moveA self opp gA gB1 gB2 l1 l2 pd agg ch u).1.lastGameAPay = chosenEV (evAs agg gA (if self.playertype = 1 then gB1 else gB2) self.lastActionB).1 (evAs agg gA (if self.playertype = 1 then gB1 else gB2) self.lastActionB).2
      ∧ (moveA self opp gA gB1 gB2 l1 l2 pd agg ch u).1.lastOppGameA = (opp : ℚ)
      ∧ (moveA self opp gA gB1 gB2 l1 l2 pd agg ch u).1.numGameA = self.numGameA + 1)
    ∧ (self.numGameB = 0 →
      (moveB self opp gA gB1 gB2 l1 l2 pd agg ch u).1.lastActionB = (moveB self opp gA gB1 gB2 l1 l2 pd agg ch u).2
      ∧ (moveB self opp gA gB1 gB2 l1 l2 pd agg ch u).2 = maxAction (evBs agg (if self.playertype = 1 then gB1 else gB2) (pd opp).lastActionA).1 (evBs agg (if self.playertype = 1 then gB1 else gB2) (pd opp).lastActionA).2
      ∧ (moveB self opp gA gB1 gB2 l1 l2 pd agg ch u).1.lastGameBPay = chosenEV (evBs agg (if self.playertype = 1 then gB1 else gB2) (pd opp).lastActionA).1 (evBs agg (if self.playertype = 1 then gB1 else gB2) (pd opp).lastActionA).2
      ∧ (moveB self opp gA gB1 gB2 l1 l2 pd agg ch u).1.lastOppGameB = (opp : ℚ)
      ∧ (moveB self opp gA gB1 gB2 l1 l2 pd agg ch u).1.numGameB = self.numGameB + 1)
    ∧ (self.numGameB ≠ 0 → (pd (if self.playertype = 1 then ch l1 else ch l2)).lastActionB = self.lastActionB →
      (moveB self opp gA gB1 gB2 l1 l2 pd agg ch u).1 = { self with numGameB := self.numGameB + 1 }
      ∧ (moveB self opp gA gB1 gB2 l1 l2 pd agg ch u).2 = self.lastActionB)
    ∧ (self.numGameB ≠ 0 → (pd (if self.playertype = 1 then ch l1 else ch l2)).lastActionB ≠ self.lastActionB →
        u > max 0 (((pd (if self.playertype = 1 then ch l1 else ch l2)).lastGameBPay - self.lastGameBPay) / 3) →
      (moveB self opp gA gB1 gB2 l1 l2 pd agg ch u).1 = { self with numGameB := self.numGameB + 1 }
      ∧ (moveB self opp gA gB1 gB2 l1 l2 pd agg ch u).2 = self.lastActionB)
    ∧ (self.numGameB ≠ 0 → (pd (if self.playertype = 1 then ch l1 else ch l2)).lastActionB ≠ self.lastActionB →
        ¬ u > max 0 (((pd (if self.playertype = 1 then ch l1 else ch l2)).lastGameBPay - self.lastGameBPay) / 3) →
      (moveB self opp gA gB1 gB2 l1 l2 pd agg ch u).1.lastActionB = (moveB self opp gA gB1 gB2 l1 l2 pd agg ch u).2
      ∧ (moveB self opp gA gB1 gB2 l1 l2 pd agg ch u).2 = maxAction (evBs agg (if self.playertype = 1 then gB1 else gB2) (pd opp).lastActionA).1 (evBs agg (if self.playertype = 1 then gB1 else gB2) (pd opp).lastActionA).2
      ∧ (moveB self opp gA gB1 gB2 l1 l2 pd agg ch u).1.lastGameBPay = chosenEV (evBs agg (if self.playertype = 1 then gB1 else gB2) (pd opp).lastActionA).1 (evBs agg (if self.playertype = 1 then gB1 else gB2) (pd opp).lastActionA).2
      ∧ (moveB self opp gA gB1 gB2 l1 l2 pd agg ch u).1.lastOppGameB = (opp : ℚ)
      ∧ (moveB self opp gA gB1 gB2 l1 l2 pd agg ch u).1.numGameB = self.numGameB + 1) := by
  refine ⟨?_, ?_, ?_, ?_, ?_, ?_, ?_, ?_⟩
  · intro h0
    simp [moveA, h0]
  · intro h0 hm
    simp [moveA, h0, hm]
  · intro h0 hm hu
    simp [moveA, h0, hm, hu]
  · intro h0 hm hu
    simp [moveA, h0, hm, hu]
  · intro h0
    simp [moveB, h0]
  · intro h0 hm
    simp [moveB, h0, hm]
  · intro h0 hm hu
    simp [moveB, h0, hm, hu]
  · intro h0 hm hu
    simp [moveB, h0, hm, hu]

/-- Witness for the amended C4: a first-time `moveA` does set the
last-opponent field, and a matched-peer `moveB` leaves everything but
the games-played counter unchanged. -/
theorem claim_C4_amended_witness :
    (moveA sampleT1 3 GameA_PAYOFFMAT (GameB1_PAYOFFMAT 1) (GameB2_PAYOFFMAT 1)
        [1] [1] pdAllT1 (initRoundAgg (1/20)) (fun _ => 1) (1/2)).1.lastOppGameA = ((3 : Nat) : ℚ)
    ∧ (moveB playedOnceT1 3 GameA_PAYOFFMAT (GameB1_PAYOFFMAT 1) (GameB2_PAYOFFMAT 1)
        [1] [1] pdAllT1 (initRoundAgg (1/20)) (fun _ => 1) (1/2)).1
      = { playedOnceT1 with numGameB := playedOnceT1.numGameB + 1 } := by
  constructor
  · exact ((claim_C4_amended sampleT1 3 GameA_PAYOFFMAT (GameB1_PAYOFFMAT 1)
      (GameB2_PAYOFFMAT 1) [1] [1] pdAllT1 (initRoundAgg (1/20))
      (fun _ => 1) (1/2)).1 rfl).2.2.2.1
  · exact ((claim_C4_amended playedOnceT1 3 GameA_PAYOFFMAT (GameB1_PAYOFFMAT 1)
      (GameB2_PAYOFFMAT 1) [1] [1] pdAllT1 (initRoundAgg (1/20))
      (fun _ => 1) (1/2)).2.2.2.2.2.1 (by decide) (by decide)).1

/-- Specification-side revision procedure, following the words of claim
C5 (not the source): if the sampled peer's last action equals the
agent's own last action, return it; otherwise keep the current action
exactly when the uniform draw exceeds the revision probability
max(0, (peer's last payoff − own last payoff)/3), else return the
action maximizing the recomputed expected payoffs. -/
def revisionSpec (myAction peerAction : Nat) (peerPay ownPay u : ℚ) (best : Nat) : Nat :=
  if peerAction = myAction then myAction
  else if u > max 0 ((peerPay - ownPay) / 3) then myAction
  else best

/-- Claim C5: for an agent whose games-played counter for the given game
is positive, the decision procedure's returned action refines
`revisionSpec`, with the observed peer drawn by the `choice` oracle from
the type-1 list when the agent is Type 1 and from the type-2 list
otherwise, the peer's stored last action and payoff read from the
dictionary, and the recomputed best response `maxAction` of the two
expected payoffs. (That the peer is sampled uniformly is the contract of
`random.choice`, modelled here by the oracle argument.) -/
theorem claim_C5_revision_rule
    (self : SimplePlayer) (opp : Nat) (gA gB1 gB2 : PayoffMat) (l1 l2 : List Nat)
    (pd : Nat → SimplePlayer) (agg : RoundAgg) (ch : List Nat → Nat) (u : ℚ) :
    (self.numGameA ≠ 0 →
      (moveA self opp gA gB1 gB2 l1 l2 pd agg ch u).2 =
        revisionSpec self.lastActionA (pd (if self.playertype = 1 then ch l1 else ch l2)).lastActionA
          (pd (if self.playertype = 1 then ch l1 else ch l2)).lastGameAPay self.lastGameAPay u
          (maxAction (evAs agg gA (if self.playertype = 1 then gB1 else gB2) self.lastActionB).1 (evAs agg gA (if self.playertype = 1 then gB1 else gB2) self.lastActionB).2))
    ∧ (self.numGameB ≠ 0 →
      (moveB self opp gA gB1 gB2 l1 l2 pd agg ch u).2 =
        revisionSpec self.lastActionB (pd (if self.playertype = 1 then ch l1 else ch l2)).lastActionB
          (pd (if self.playertype = 1 then ch l1 else ch l2)).lastGameBPay self.lastGameBPay u
          (maxAction (evBs agg (if self.playertype = 1 then gB1 else gB2) (pd opp).lastActionA).1 (evBs agg (if self.playertype = 1 then gB1 else gB2) (pd opp).lastActionA).2)) := by
  constructor
  · intro h0
    by_cases hm : (pd (if self.playertype = 1 then ch l1 else ch l2)).lastActionA = self.lastActionA
    · simp [moveA, revisionSpec, h0, hm]
    · by_cases hu : u > max 0 (((pd (if self.playertype = 1 then ch l1 else ch l2)).lastGameAPay - self.lastGameAPay) / 3)
      · simp [moveA, revisionSpec, h0, hm, hu]
      · simp [moveA, revisionSpec, h0, hm, hu]
  · intro h0
    by_cases hm : (pd (if self.playertype = 1 then ch l1 else ch l2)).lastActionB = self.lastActionB
    · simp [moveB, revisionSpec, h0, hm]
    · by_cases hu : u > max 0 (((pd (if self.playertype = 1 then ch l1 else ch l2)).lastGameBPay - self.lastGameBPay) / 3)
      · simp [moveB, revisionSpec, h0, hm, hu]
      · simp [moveB, revisionSpec, h0, hm, hu]

/-- Witness for C5: a concrete agent who has played both games, whose
sampled peer matches its last action, keeps action 1 in both games. -/
theorem claim_C5_witness :
    (moveA playedOnceT1 3 GameA_PAYOFFMAT (GameB1_PAYOFFMAT 1) (GameB2_PAYOFFMAT 1)
        [1] [1] pdAllT1 (initRoundAgg (1/20)) (fun _ => 1) (1/2)).2 = 1
    ∧ (moveB playedOnceT1 3 GameA_PAYOFFMAT (GameB1_PAYOFFMAT 1) (GameB2_PAYOFFMAT 1)
        [1] [1] pdAllT1 (initRoundAgg (1/20)) (fun _ => 1) (1/2)).2 = 1 := by
  have h := claim_C5_revision_rule playedOnceT1 3 GameA_PAYOFFMAT (GameB1_PAYOFFMAT 1)
    (GameB2_PAYOFFMAT 1) [1] [1] pdAllT1 (initRoundAgg (1/20)) (fun _ => 1) (1/2)
  constructor
  · rw [h.1 (by decide)]
    decide
  · rw [h.2 (by decide)]
    decide

/-- Claim C6: in every expected-payoff comparison — the selection
`max(EVdict, key=EVdict.get)` over the insertion-ordered dict
`{1: ev1, 2: ev2}`, embedded as `maxAction` — exactly equal expected
payoffs yield action 1; consequently each of the four comparison sites
(first-time and revision branches of `moveA` and `moveB`) returns
action 1 on a tie. -/
theorem claim_C6_tie_prefers_action1 :
    (∀ e1 e2 : ℚ, e1 = e2 → maxAction e1 e2 = 1)
    ∧ (∀ (self : SimplePlayer) (opp : Nat) (gA gB1 gB2 : PayoffMat) (l1 l2 : List Nat)
        (pd : Nat → SimplePlayer) (agg : RoundAgg) (ch : List Nat → Nat) (u : ℚ),
      self.numGameA = 0 → (evAs agg gA (if self.playertype = 1 then gB1 else gB2) self.lastActionB).1 = (evAs agg gA (if self.playertype = 1 then gB1 else gB2) self.lastActionB).2 → (moveA self opp gA gB1 gB2 l1 l2 pd agg ch u).2 = 1)
    ∧ (∀ (self : SimplePlayer) (opp : Nat) (gA gB1 gB2 : PayoffMat) (l1 l2 : List Nat)
        (pd : Nat → SimplePlayer) (agg : RoundAgg) (ch : List Nat → Nat) (u : ℚ),
      self.numGameA ≠ 0 → (pd (if self.playertype = 1 then ch l1 else ch l2)).lastActionA ≠ self.lastActionA →
        ¬ u > max 0 (((pd (if self.playertype = 1 then ch l1 else ch l2)).lastGameAPay - self.lastGameAPay) / 3) →
        (evAs agg gA (if self.playertype = 1 then gB1 else gB2) self.lastActionB).1 = (evAs agg gA (if self.playertype = 1 then gB1 else gB2) self.lastActionB).2 → (moveA self opp gA gB1 gB2 l1 l2 pd agg ch u).2 = 1)
    ∧ (∀ (self : SimplePlayer) (opp : Nat) (gA gB1 gB2 : PayoffMat) (l1 l2 : List Nat)
        (pd : Nat → SimplePlayer) (agg : RoundAgg) (ch : List Nat → Nat) (u : ℚ),
      self.numGameB = 0 → (evBs agg (if self.playertype = 1 then gB1 else gB2) (pd opp).lastActionA).1 = (evBs agg (if self.playertype = 1 then gB1 else gB2) (pd opp).lastActionA).2 → (moveB self opp gA gB1 gB2 l1 l2 pd agg ch u).2 = 1)
    ∧ (∀ (self : SimplePlayer) (opp : Nat) (gA gB1 gB2 : PayoffMat) (l1 l2 : List Nat)
        (pd : Nat → SimplePlayer) (agg : RoundAgg) (ch : List Nat → Nat) (u : ℚ),
      self.numGameB ≠ 0 → (pd (if self.playertype = 1 then ch l1 else ch l2)).lastActionB ≠ self.lastActionB →
        ¬ u > max 0 (((pd (if self.playertype = 1 then ch l1 else ch l2)).lastGameBPay - self.lastGameBPay) / 3) →
        (evBs agg (if self.playertype = 1 then gB1 else gB2) (pd opp).lastActionA).1 = (evBs agg (if self.playertype = 1 then gB1 else gB2) (pd opp).lastActionA).2 → (moveB self opp gA gB1 gB2 l1 l2 pd agg ch u).2 = 1) := by
  have hmax : ∀ e1 e2 : ℚ, e1 = e2 → maxAction e1 e2 = 1 := by
    intro e1 e2 he
    simp [maxAction, he]
  refine ⟨hmax, ?_, ?_, ?_, ?_⟩
  · intro self opp gA gB1 gB2 l1 l2 pd agg ch u h0 he
    simp [moveA, h0]
    exact hmax _ _ he
  · intro self opp gA gB1 gB2 l1 l2 pd agg ch u h0 hm hu he
    simp [moveA, h0, hm, hu]
    exact hmax _ _ he
  · intro self opp gA gB1 gB2 l1 l2 pd agg ch u h0 he
    simp [moveB, h0]
    exact hmax _ _ he
  · intro self opp gA gB1 gB2 l1 l2 pd agg ch u h0 hm hu he
    simp [moveB, h0, hm, hu]
    exact hmax _ _ he

/-- Witness for C6: with all-zero payoff matrices both expected payoffs
are equal, and a first-time move in either game returns action 1. -/
theorem claim_C6_witness :
    (moveA sampleT1 3 ⟨0, 0, 0, 0⟩ ⟨0, 0, 0, 0⟩ ⟨0, 0, 0, 0⟩ [1] [1] pdAllT1
        (initRoundAgg (1/20)) (fun _ => 1) (1/2)).2 = 1
    ∧ (moveB sampleT1 3 ⟨0, 0, 0, 0⟩ ⟨0, 0, 0, 0⟩ ⟨0, 0, 0, 0⟩ [1] [1] pdAllT1
        (initRoundAgg (1/20)) (fun _ => 1) (1/2)).2 = 1 := by
  constructor
  · exact claim_C6_tie_prefers_action1.2.1 sampleT1 3 ⟨0, 0, 0, 0⟩ ⟨0, 0, 0, 0⟩ ⟨0, 0, 0, 0⟩
      [1] [1] pdAllT1 (initRoundAgg (1/20)) (fun _ => 1) (1/2) rfl
      (by simp [evAs, indirectPaysA, sampleT1])
  · exact claim_C6_tie_prefers_action1.2.2.2.1 sampleT1 3 ⟨0, 0, 0, 0⟩ ⟨0, 0, 0, 0⟩ ⟨0, 0, 0, 0⟩
      [1] [1] pdAllT1 (initRoundAgg (1/20)) (fun _ => 1) (1/2) rfl
      (by simp [evBs, pdAllT1, sampleT1])


/-- The well-formedness predicate of claim C9: the current and last
actions of both games are in {1, 2}. -/
def actionsOK (p : SimplePlayer) : Prop :=
  (p.actionA = 1 ∨ p.actionA = 2) ∧ (p.actionB = 1 ∨ p.actionB = 2)
  ∧ (p.lastActionA = 1 ∨ p.lastActionA = 2) ∧ (p.lastActionB = 1 ∨ p.lastActionB = 2)

/-- The action selector only produces 1 or 2. -/
theorem maxAction_mem (e1 e2 : ℚ) : maxAction e1 e2 = 1 ∨ maxAction e1 e2 = 2 := by
  unfold maxAction
  split_ifs <;> simp

/-- `getplayertype` only produces 1 or 2. -/
theorem getplayertype_mem (d : ℚ) : getplayertype d = 1 ∨ getplayertype d = 2 := by
  unfold getplayertype
  split_ifs <;> simp

/-- `getactionA` only produces 1 or 2. -/
theorem getactionA_mem (pt : Nat) (agg : RoundAgg) (d : ℚ) :
    getactionA pt agg d = 1 ∨ getactionA pt agg d = 2 := by
  unfold getactionA
  split_ifs <;> simp

/-- `getactionB` only produces 1 or 2. -/
theorem getactionB_mem (pt : Nat) (agg : RoundAgg) (d : ℚ) :
    getactionB pt agg d = 1 ∨ getactionB pt agg d = 2 := by
  unfold getactionB
  split_ifs <;> simp

/-- `moveA` preserves action well-formedness, never changes the player
type, and returns an action in {1, 2}. -/
theorem moveA_preserves
    (self : SimplePlayer) (opp : Nat) (gA gB1 gB2 : PayoffMat) (l1 l2 : List Nat)
    (pd : Nat → SimplePlayer) (agg : RoundAgg) (ch : List Nat → Nat) (u : ℚ)
    (h : actionsOK self) :
    actionsOK (moveA self opp gA gB1 gB2 l1 l2 pd agg ch u).1
    ∧ (moveA self opp gA gB1 gB2 l1 l2 pd agg ch u).1.playertype = self.playertype
    ∧ ((moveA self opp gA gB1 gB2 l1 l2 pd agg ch u).2 = 1
       ∨ (moveA self opp gA gB1 gB2 l1 l2 pd agg ch u).2 = 2) := by
  obtain ⟨ha, hb, hla, hlb⟩ := h
  simp only [moveA]
  by_cases h0 : self.numGameA = 0
  · rw [if_pos h0]
    exact ⟨⟨ha, hb, maxAction_mem _ _, hlb⟩, rfl, maxAction_mem _ _⟩
  · rw [if_neg h0]
    by_cases hm : (pd (if self.playertype = 1 then ch l1 else ch l2)).lastActionA
        = self.lastActionA
    · rw [if_pos hm]
      exact ⟨⟨ha, hb, hla, hlb⟩, rfl, hla⟩
    · rw [if_neg hm]
      by_cases hu : u > max 0 (((pd (if self.playertype = 1 then ch l1 else
          ch l2)).lastGameAPay - self.lastGameAPay) / 3)
      · rw [if_pos hu]
        exact ⟨⟨ha, hb, hla, hlb⟩, rfl, hla⟩
      · rw [if_neg hu]
        exact ⟨⟨ha, hb, maxAction_mem _ _, hlb⟩, rfl, maxAction_mem _ _⟩

/-- `moveB` preserves action well-formedness, never changes the player
type, and returns an action in {1, 2}. -/
theorem moveB_preserves
    (self : SimplePlayer) (opp : Nat) (gA gB1 gB2 : PayoffMat) (l1 l2 : List Nat)
    (pd : Nat → SimplePlayer) (agg : RoundAgg) (ch : List Nat → Nat) (u : ℚ)
    (h : actionsOK self) :
    actionsOK (moveB self opp gA gB1 gB2 l1 l2 pd agg ch u).1
    ∧ (moveB self opp gA gB1 gB2 l1 l2 pd agg ch u).1.playertype = self.playertype
    ∧ ((moveB self opp gA gB1 gB2 l1 l2 pd agg ch u).2 = 1
       ∨ (moveB self opp gA gB1 gB2 l1 l2 pd agg ch u).2 = 2) := by
  obtain ⟨ha, hb, hla, hlb⟩ := h
  simp only [moveB]
  by_cases h0 : self.numGameB = 0
  · rw [if_pos h0]
    exact ⟨⟨ha, hb, hla, maxAction_mem _ _⟩, rfl, maxAction_mem _ _⟩
  · rw [if_neg h0]
    by_cases hm : (pd (if self.playertype = 1 then ch l1 else ch l2)).lastActionB
        = self.lastActionB
    · rw [if_pos hm]
      exact ⟨⟨ha, hb, hla, hlb⟩, rfl, hlb⟩
    · rw [if_neg hm]
      by_cases hu : u > max 0 (((pd (if self.playertype = 1 then ch l1 else
          ch l2)).lastGameBPay - self.lastGameBPay) / 3)
      · rw [if_pos hu]
        exact ⟨⟨ha, hb, hla, hlb⟩, rfl, hlb⟩
      · rw [if_neg hu]
        exact ⟨⟨ha, hb, hla, maxAction_mem _ _⟩, rfl, maxAction_mem _ _⟩

/-- A pointwise property of the dictionary survives an update whose new
value at the updated index satisfies it. -/
theorem modPD_ok (P : SimplePlayer → Prop) (pd : Nat → SimplePlayer) (i : Nat)
    (f : SimplePlayer → SimplePlayer) (h : ∀ j, P (pd j)) (hf : P (f (pd i))) :
    ∀ j, P (modPD pd i f j) := by
  intro j
  unfold modPD
  split_ifs with hj
  · subst hj; exact hf
  · exact h j

/-- An update whose new value keeps the player type leaves every
player's type unchanged. -/
theorem modPD_playertype (pd : Nat → SimplePlayer) (i : Nat)
    (f : SimplePlayer → SimplePlayer) (hf : (f (pd i)).playertype = (pd i).playertype) :
    ∀ j, (modPD pd i f j).playertype = (pd j).playertype := by
  intro j
  unfold modPD
  split_ifs with hj
  · subst hj; exact hf
  · rfl

/-- `playGameA` preserves action well-formedness of the whole dictionary
and keeps every player's type. -/
theorem playGameA_preserves
    (p1 p2 : Nat) (gA gB1 gB2 : PayoffMat) (l1 l2 : List Nat)
    (pd : Nat → SimplePlayer) (agg : RoundAgg) (c1 c2 : List Nat → Nat) (u1 u2 : ℚ)
    (h : ∀ i, actionsOK (pd i)) :
    (∀ i, actionsOK (playGameA p1 p2 gA gB1 gB2 l1 l2 pd agg c1 c2 u1 u2 i))
    ∧ (∀ i, (playGameA p1 p2 gA gB1 gB2 l1 l2 pd agg c1 c2 u1 u2 i).playertype
        = (pd i).playertype) := by
  have hm1 := moveA_preserves (pd p1) p2 gA gB1 gB2 l1 l2 pd agg c1 u1 (h p1)
  have h1 : ∀ j, actionsOK ((modPD pd p1 (fun _ => (moveA (pd p1) p2 gA gB1 gB2 l1 l2 pd agg c1 u1).1)) j) :=
    modPD_ok actionsOK pd p1 _ h hm1.1
  have hm2 := moveA_preserves ((modPD pd p1 (fun _ => (moveA (pd p1) p2 gA gB1 gB2 l1 l2 pd agg c1 u1).1)) p2) p1 gA gB1 gB2 l1 l2 (modPD pd p1 (fun _ => (moveA (pd p1) p2 gA gB1 gB2 l1 l2 pd agg c1 u1).1)) agg c2 u2 (h1 p2)
  have h2 : ∀ j, actionsOK ((modPD (modPD pd p1 (fun _ => (moveA (pd p1) p2 gA gB1 gB2 l1 l2 pd agg c1 u1).1)) p2 (fun _ => (moveA ((modPD pd p1 (fun _ => (moveA (pd p1) p2 gA gB1 gB2 l1 l2 pd agg c1 u1).1)) p2) p1 gA gB1 gB2 l1 l2 (modPD pd p1 (fun _ => (moveA (pd p1) p2 gA gB1 gB2 l1 l2 pd agg c1 u1).1)) agg c2 u2).1)) j) :=
    modPD_ok actionsOK (modPD pd p1 (fun _ => (moveA (pd p1) p2 gA gB1 gB2 l1 l2 pd agg c1 u1).1)) p2 _ h1 hm2.1
  have h3 : ∀ j, actionsOK ((modPD (modPD (modPD pd p1 (fun _ => (moveA (pd p1) p2 gA gB1 gB2 l1 l2 pd agg c1 u1).1)) p2 (fun _ => (moveA ((modPD pd p1 (fun _ => (moveA (pd p1) p2 gA gB1 gB2 l1 l2 pd agg c1 u1).1)) p2) p1 gA gB1 gB2 l1 l2 (modPD pd p1 (fun _ => (moveA (pd p1) p2 gA gB1 gB2 l1 l2 pd agg c1 u1).1)) agg c2 u2).1)) p1 (fun a => { a with lastActionA := (moveA (pd p1) p2 gA gB1 gB2 l1 l2 pd agg c1 u1).2 })) j) :=
    modPD_ok actionsOK (modPD (modPD pd p1 (fun _ => (moveA (pd p1) p2 gA gB1 gB2 l1 l2 pd agg c1 u1).1)) p2 (fun _ => (moveA ((modPD pd p1 (fun _ => (moveA (pd p1) p2 gA gB1 gB2 l1 l2 pd agg c1 u1).1)) p2) p1 gA gB1 gB2 l1 l2 (modPD pd p1 (fun _ => (moveA (pd p1) p2 gA gB1 gB2 l1 l2 pd agg c1 u1).1)) agg c2 u2).1)) p1 _ h2
      ⟨(h2 p1).1, (h2 p1).2.1, hm1.2.2, (h2 p1).2.2.2⟩
  have h4 : ∀ j, actionsOK ((modPD (modPD (modPD (modPD pd p1 (fun _ => (moveA (pd p1) p2 gA gB1 gB2 l1 l2 pd agg c1 u1).1)) p2 (fun _ => (moveA ((modPD pd p1 (fun _ => (moveA (pd p1) p2 gA gB1 gB2 l1 l2 pd agg c1 u1).1)) p2) p1 gA gB1 gB2 l1 l2 (modPD pd p1 (fun _ => (moveA (pd p1) p2 gA gB1 gB2 l1 l2 pd agg c1 u1).1)) agg c2 u2).1)) p1 (fun a => { a with lastActionA := (moveA (pd p1) p2 gA gB1 gB2 l1 l2 pd agg c1 u1).2 })) p2 (fun a => { a with lastActionA := (moveA ((modPD pd p1 (fun _ => (moveA (pd p1) p2 gA gB1 gB2 l1 l2 pd agg c1 u1).1)) p2) p1 gA gB1 gB2 l1 l2 (modPD pd p1 (fun _ => (moveA (pd p1) p2 gA gB1 gB2 l1 l2 pd agg c1 u1).1)) agg c2 u2).2 })) j) :=
    modPD_ok actionsOK (modPD (modPD (modPD pd p1 (fun _ => (moveA (pd p1) p2 gA gB1 gB2 l1 l2 pd agg c1 u1).1)) p2 (fun _ => (moveA ((modPD pd p1 (fun _ => (moveA (pd p1) p2 gA gB1 gB2 l1 l2 pd agg c1 u1).1)) p2) p1 gA gB1 gB2 l1 l2 (modPD pd p1 (fun _ => (moveA (pd p1) p2 gA gB1 gB2 l1 l2 pd agg c1 u1).1)) agg c2 u2).1)) p1 (fun a => { a with lastActionA := (moveA (pd p1) p2 gA gB1 gB2 l1 l2 pd agg c1 u1).2 })) p2 _ h3
      ⟨(h3 p2).1, (h3 p2).2.1, hm2.2.2, (h3 p2).2.2.2⟩
  have h5 : ∀ j, actionsOK ((modPD (modPD (modPD (modPD (modPD pd p1 (fun _ => (moveA (pd p1) p2 gA gB1 gB2 l1 l2 pd agg c1 u1).1)) p2 (fun _ => (moveA ((modPD pd p1 (fun _ => (moveA (pd p1) p2 gA gB1 gB2 l1 l2 pd agg c1 u1).1)) p2) p1 gA gB1 gB2 l1 l2 (modPD pd p1 (fun _ => (moveA (pd p1) p2 gA gB1 gB2 l1 l2 pd agg c1 u1).1)) agg c2 u2).1)) p1 (fun a => { a with lastActionA := (moveA (pd p1) p2 gA gB1 gB2 l1 l2 pd agg c1 u1).2 })) p2 (fun a => { a with lastActionA := (moveA ((modPD pd p1 (fun _ => (moveA (pd p1) p2 gA gB1 gB2 l1 l2 pd agg c1 u1).1)) p2) p1 gA gB1 gB2 l1 l2 (modPD pd p1 (fun _ => (moveA (pd p1) p2 gA gB1 gB2 l1 l2 pd agg c1 u1).1)) agg c2 u2).2 })) p1 (fun a => { a with lastOppGameA := (p2 : ℚ) })) j) :=
    modPD_ok actionsOK (modPD (modPD (modPD (modPD pd p1 (fun _ => (moveA (pd p1) p2 gA gB1 gB2 l1 l2 pd agg c1 u1).1)) p2 (fun _ => (moveA ((modPD pd p1 (fun _ => (moveA (pd p1) p2 gA gB1 gB2 l1 l2 pd agg c1 u1).1)) p2) p1 gA gB1 gB2 l1 l2 (modPD pd p1 (fun _ => (moveA (pd p1) p2 gA gB1 gB2 l1 l2 pd agg c1 u1).1)) agg c2 u2).1)) p1 (fun a => { a with lastActionA := (moveA (pd p1) p2 gA gB1 gB2 l1 l2 pd agg c1 u1).2 })) p2 (fun a => { a with lastActionA := (moveA ((modPD pd p1 (fun _ => (moveA (pd p1) p2 gA gB1 gB2 l1 l2 pd agg c1 u1).1)) p2) p1 gA gB1 gB2 l1 l2 (modPD pd p1 (fun _ => (moveA (pd p1) p2 gA gB1 gB2 l1 l2 pd agg c1 u1).1)) agg c2 u2).2 })) p1 _ h4
      ⟨(h4 p1).1, (h4 p1).2.1, (h4 p1).2.2.1, (h4 p1).2.2.2⟩
  have h6 : ∀ j, actionsOK ((modPD (modPD (modPD (modPD (modPD (modPD pd p1 (fun _ => (moveA (pd p1) p2 gA gB1 gB2 l1 l2 pd agg c1 u1).1)) p2 (fun _ => (moveA ((modPD pd p1 (fun _ => (moveA (pd p1) p2 gA gB1 gB2 l1 l2 pd agg c1 u1).1)) p2) p1 gA gB1 gB2 l1 l2 (modPD pd p1 (fun _ => (moveA (pd p1) p2 gA gB1 gB2 l1 l2 pd agg c1 u1).1)) agg c2 u2).1)) p1 (fun a => { a with lastActionA := (moveA (pd p1) p2 gA gB1 gB2 l1 l2 pd agg c1 u1).2 })) p2 (fun a => { a with lastActionA := (moveA ((modPD pd p1 (fun _ => (moveA (pd p1) p2 gA gB1 gB2 l1 l2 pd agg c1 u1).1)) p2) p1 gA gB1 gB2 l1 l2 (modPD pd p1 (fun _ => (moveA (pd p1) p2 gA gB1 gB2 l1 l2 pd agg c1 u1).1)) agg c2 u2).2 })) p1 (fun a => { a with lastOppGameA := (p2 : ℚ) })) p2 (fun a => { a with lastOppGameA := (p1 : ℚ) })) j) :=
    modPD_ok actionsOK (modPD (modPD (modPD (modPD (modPD pd p1 (fun _ => (moveA (pd p1) p2 gA gB1 gB2 l1 l2 pd agg c1 u1).1)) p2 (fun _ => (moveA ((modPD pd p1 (fun _ => (moveA (pd p1) p2 gA gB1 gB2 l1 l2 pd agg c1 u1).1)) p2) p1 gA gB1 gB2 l1 l2 (modPD pd p1 (fun _ => (moveA (pd p1) p2 gA gB1 gB2 l1 l2 pd agg c1 u1).1)) agg c2 u2).1)) p1 (fun a => { a with lastActionA := (moveA (pd p1) p2 gA gB1 gB2 l1 l2 pd agg c1 u1).2 })) p2 (fun a => { a with lastActionA := (moveA ((modPD pd p1 (fun _ => (moveA (pd p1) p2 gA gB1 gB2 l1 l2 pd agg c1 u1).1)) p2) p1 gA gB1 gB2 l1 l2 (modPD pd p1 (fun _ => (moveA (pd p1) p2 gA gB1 gB2 l1 l2 pd agg c1 u1).1)) agg c2 u2).2 })) p1 (fun a => { a with lastOppGameA := (p2 : ℚ) })) p2 _ h5
      ⟨(h5 p2).1, (h5 p2).2.1, (h5 p2).2.2.1, (h5 p2).2.2.2⟩
  have g1 : ∀ j, ((modPD pd p1 (fun _ => (moveA (pd p1) p2 gA gB1 gB2 l1 l2 pd agg c1 u1).1)) j).playertype = (pd j).playertype :=
    modPD_playertype pd p1 _ hm1.2.1
  have g2 : ∀ j, ((modPD (modPD pd p1 (fun _ => (moveA (pd p1) p2 gA gB1 gB2 l1 l2 pd agg c1 u1).1)) p2 (fun _ => (moveA ((modPD pd p1 (fun _ => (moveA (pd p1) p2 gA gB1 gB2 l1 l2 pd agg c1 u1).1)) p2) p1 gA gB1 gB2 l1 l2 (modPD pd p1 (fun _ => (moveA (pd p1) p2 gA gB1 gB2 l1 l2 pd agg c1 u1).1)) agg c2 u2).1)) j).playertype = ((modPD pd p1 (fun _ => (moveA (pd p1) p2 gA gB1 gB2 l1 l2 pd agg c1 u1).1)) j).playertype :=
    modPD_playertype (modPD pd p1 (fun _ => (moveA (pd p1) p2 gA gB1 gB2 l1 l2 pd agg c1 u1).1)) p2 _ hm2.2.1
  have g3 : ∀ j, ((modPD (modPD (modPD pd p1 (fun _ => (moveA (pd p1) p2 gA gB1 gB2 l1 l2 pd agg c1 u1).1)) p2 (fun _ => (moveA ((modPD pd p1 (fun _ => (moveA (pd p1) p2 gA gB1 gB2 l1 l2 pd agg c1 u1).1)) p2) p1 gA gB1 gB2 l1 l2 (modPD pd p1 (fun _ => (moveA (pd p1) p2 gA gB1 gB2 l1 l2 pd agg c1 u1).1)) agg c2 u2).1)) p1 (fun a => { a with lastActionA := (moveA (pd p1) p2 gA gB1 gB2 l1 l2 pd agg c1 u1).2 })) j).playertype = ((modPD (modPD pd p1 (fun _ => (moveA (pd p1) p2 gA gB1 gB2 l1 l2 pd agg c1 u1).1)) p2 (fun _ => (moveA ((modPD pd p1 (fun _ => (moveA (pd p1) p2 gA gB1 gB2 l1 l2 pd agg c1 u1).1)) p2) p1 gA gB1 gB2 l1 l2 (modPD pd p1 (fun _ => (moveA (pd p1) p2 gA gB1 gB2 l1 l2 pd agg c1 u1).1)) agg c2 u2).1)) j).playertype :=
    modPD_playertype (modPD (modPD pd p1 (fun _ => (moveA (pd p1) p2 gA gB1 gB2 l1 l2 pd agg c1 u1).1)) p2 (fun _ => (moveA ((modPD pd p1 (fun _ => (moveA (pd p1) p2 gA gB1 gB2 l1 l2 pd agg c1 u1).1)) p2) p1 gA gB1 gB2 l1 l2 (modPD pd p1 (fun _ => (moveA (pd p1) p2 gA gB1 gB2 l1 l2 pd agg c1 u1).1)) agg c2 u2).1)) p1 _ rfl
  have g4 : ∀ j, ((modPD (modPD (modPD (modPD pd p1 (fun _ => (moveA (pd p1) p2 gA gB1 gB2 l1 l2 pd agg c1 u1).1)) p2 (fun _ => (moveA ((modPD pd p1 (fun _ => (moveA (pd p1) p2 gA gB1 gB2 l1 l2 pd agg c1 u1).1)) p2) p1 gA gB1 gB2 l1 l2 (modPD pd p1 (fun _ => (moveA (pd p1) p2 gA gB1 gB2 l1 l2 pd agg c1 u1).1)) agg c2 u2).1)) p1 (fun a => { a with lastActionA := (moveA (pd p1) p2 gA gB1 gB2 l1 l2 pd agg c1 u1).2 })) p2 (fun a => { a with lastActionA := (moveA ((modPD pd p1 (fun _ => (moveA (pd p1) p2 gA gB1 gB2 l1 l2 pd agg c1 u1).1)) p2) p1 gA gB1 gB2 l1 l2 (modPD pd p1 (fun _ => (moveA (pd p1) p2 gA gB1 gB2 l1 l2 pd agg c1 u1).1)) agg c2 u2).2 })) j).playertype = ((modPD (modPD (modPD pd p1 (fun _ => (moveA (pd p1) p2 gA gB1 gB2 l1 l2 pd agg c1 u1).1)) p2 (fun _ => (moveA ((modPD pd p1 (fun _ => (moveA (pd p1) p2 gA gB1 gB2 l1 l2 pd agg c1 u1).1)) p2) p1 gA gB1 gB2 l1 l2 (modPD pd p1 (fun _ => (moveA (pd p1) p2 gA gB1 gB2 l1 l2 pd agg c1 u1).1)) agg c2 u2).1)) p1 (fun a => { a with lastActionA := (moveA (pd p1) p2 gA gB1 gB2 l1 l2 pd agg c1 u1).2 })) j).playertype :=
    modPD_playertype (modPD (modPD (modPD pd p1 (fun _ => (moveA (pd p1) p2 gA gB1 gB2 l1 l2 pd agg c1 u1).1)) p2 (fun _ => (moveA ((modPD pd p1 (fun _ => (moveA (pd p1) p2 gA gB1 gB2 l1 l2 pd agg c1 u1).1)) p2) p1 gA gB1 gB2 l1 l2 (modPD pd p1 (fun _ => (moveA (pd p1) p2 gA gB1 gB2 l1 l2 pd agg c1 u1).1)) agg c2 u2).1)) p1 (fun a => { a with lastActionA := (moveA (pd p1) p2 gA gB1 gB2 l1 l2 pd agg c1 u1).2 })) p2 _ rfl
  have g5 : ∀ j, ((modPD (modPD (modPD (modPD (modPD pd p1 (fun _ => (moveA (pd p1) p2 gA gB1 gB2 l1 l2 pd agg c1 u1).1)) p2 (fun _ => (moveA ((modPD pd p1 (fun _ => (moveA (pd p1) p2 gA gB1 gB2 l1 l2 pd agg c1 u1).1)) p2) p1 gA gB1 gB2 l1 l2 (modPD pd p1 (fun _ => (moveA (pd p1) p2 gA gB1 gB2 l1 l2 pd agg c1 u1).1)) agg c2 u2).1)) p1 (fun a => { a with lastActionA := (moveA (pd p1) p2 gA gB1 gB2 l1 l2 pd agg c1 u1).2 })) p2 (fun a => { a with lastActionA := (moveA ((modPD pd p1 (fun _ => (moveA (pd p1) p2 gA gB1 gB2 l1 l2 pd agg c1 u1).1)) p2) p1 gA gB1 gB2 l1 l2 (modPD pd p1 (fun _ => (moveA (pd p1) p2 gA gB1 gB2 l1 l2 pd agg c1 u1).1)) agg c2 u2).2 })) p1 (fun a => { a with lastOppGameA := (p2 : ℚ) })) j).playertype = ((modPD (modPD (modPD (modPD pd p1 (fun _ => (moveA (pd p1) p2 gA gB1 gB2 l1 l2 pd agg c1 u1).1)) p2 (fun _ => (moveA ((modPD pd p1 (fun _ => (moveA (pd p1) p2 gA gB1 gB2 l1 l2 pd agg c1 u1).1)) p2) p1 gA gB1 gB2 l1 l2 (modPD pd p1 (fun _ => (moveA (pd p1) p2 gA gB1 gB2 l1 l2 pd agg c1 u1).1)) agg c2 u2).1)) p1 (fun a => { a with lastActionA := (moveA (pd p1) p2 gA gB1 gB2 l1 l2 pd agg c1 u1).2 })) p2 (fun a => { a with lastActionA := (moveA ((modPD pd p1 (fun _ => (moveA (pd p1) p2 gA gB1 gB2 l1 l2 pd agg c1 u1).1)) p2) p1 gA gB1 gB2 l1 l2 (modPD pd p1 (fun _ => (moveA (pd p1) p2 gA gB1 gB2 l1 l2 pd agg c1 u1).1)) agg c2 u2).2 })) j).playertype :=
    modPD_playertype (modPD (modPD (modPD (modPD pd p1 (fun _ => (moveA (pd p1) p2 gA gB1 gB2 l1 l2 pd agg c1 u1).1)) p2 (fun _ => (moveA ((modPD pd p1 (fun _ => (moveA (pd p1) p2 gA gB1 gB2 l1 l2 pd agg c1 u1).1)) p2) p1 gA gB1 gB2 l1 l2 (modPD pd p1 (fun _ => (moveA (pd p1) p2 gA gB1 gB2 l1 l2 pd agg c1 u1).1)) agg c2 u2).1)) p1 (fun a => { a with lastActionA := (moveA (pd p1) p2 gA gB1 gB2 l1 l2 pd agg c1 u1).2 })) p2 (fun a => { a with lastActionA := (moveA ((modPD pd p1 (fun _ => (moveA (pd p1) p2 gA gB1 gB2 l1 l2 pd agg c1 u1).1)) p2) p1 gA gB1 gB2 l1 l2 (modPD pd p1 (fun _ => (moveA (pd p1) p2 gA gB1 gB2 l1 l2 pd agg c1 u1).1)) agg c2 u2).2 })) p1 _ rfl
  have g6 : ∀ j, ((modPD (modPD (modPD (modPD (modPD (modPD pd p1 (fun _ => (moveA (pd p1) p2 gA gB1 gB2 l1 l2 pd agg c1 u1).1)) p2 (fun _ => (moveA ((modPD pd p1 (fun _ => (moveA (pd p1) p2 gA gB1 gB2 l1 l2 pd agg c1 u1).1)) p2) p1 gA gB1 gB2 l1 l2 (modPD pd p1 (fun _ => (moveA (pd p1) p2 gA gB1 gB2 l1 l2 pd agg c1 u1).1)) agg c2 u2).1)) p1 (fun a => { a with lastActionA := (moveA (pd p1) p2 gA gB1 gB2 l1 l2 pd agg c1 u1).2 })) p2 (fun a => { a with lastActionA := (moveA ((modPD pd p1 (fun _ => (moveA (pd p1) p2 gA gB1 gB2 l1 l2 pd agg c1 u1).1)) p2) p1 gA gB1 gB2 l1 l2 (modPD pd p1 (fun _ => (moveA (pd p1) p2 gA gB1 gB2 l1 l2 pd agg c1 u1).1)) agg c2 u2).2 })) p1 (fun a => { a with lastOppGameA := (p2 : ℚ) })) p2 (fun a => { a with lastOppGameA := (p1 : ℚ) })) j).playertype = ((modPD (modPD (modPD (modPD (modPD pd p1 (fun _ => (moveA (pd p1) p2 gA gB1 gB2 l1 l2 pd agg c1 u1).1)) p2 (fun _ => (moveA ((modPD pd p1 (fun _ => (moveA (pd p1) p2 gA gB1 gB2 l1 l2 pd agg c1 u1).1)) p2) p1 gA gB1 gB2 l1 l2 (modPD pd p1 (fun _ => (moveA (pd p1) p2 gA gB1 gB2 l1 l2 pd agg c1 u1).1)) agg c2 u2).1)) p1 (fun a => { a with lastActionA := (moveA (pd p1) p2 gA gB1 gB2 l1 l2 pd agg c1 u1).2 })) p2 (fun a => { a with lastActionA := (moveA ((modPD pd p1 (fun _ => (moveA (pd p1) p2 gA gB1 gB2 l1 l2 pd agg c1 u1).1)) p2) p1 gA gB1 gB2 l1 l2 (modPD pd p1 (fun _ => (moveA (pd p1) p2 gA gB1 gB2 l1 l2 pd agg c1 u1).1)) agg c2 u2).2 })) p1 (fun a => { a with lastOppGameA := (p2 : ℚ) })) j).playertype :=
    modPD_playertype (modPD (modPD (modPD (modPD (modPD pd p1 (fun _ => (moveA (pd p1) p2 gA gB1 gB2 l1 l2 pd agg c1 u1).1)) p2 (fun _ => (moveA ((modPD pd p1 (fun _ => (moveA (pd p1) p2 gA gB1 gB2 l1 l2 pd agg c1 u1).1)) p2) p1 gA gB1 gB2 l1 l2 (modPD pd p1 (fun _ => (moveA (pd p1) p2 gA gB1 gB2 l1 l2 pd agg c1 u1).1)) agg c2 u2).1)) p1 (fun a => { a with lastActionA := (moveA (pd p1) p2 gA gB1 gB2 l1 l2 pd agg c1 u1).2 })) p2 (fun a => { a with lastActionA := (moveA ((modPD pd p1 (fun _ => (moveA (pd p1) p2 gA gB1 gB2 l1 l2 pd agg c1 u1).1)) p2) p1 gA gB1 gB2 l1 l2 (modPD pd p1 (fun _ => (moveA (pd p1) p2 gA gB1 gB2 l1 l2 pd agg c1 u1).1)) agg c2 u2).2 })) p1 (fun a => { a with lastOppGameA := (p2 : ℚ) })) p2 _ rfl
  exact ⟨fun i => h6 i,
    fun i => ((((g6 i).trans (g5 i)).trans ((g4 i).trans (g3 i))).trans (g2 i)).trans (g1 i)⟩

/-- `playGameB` preserves action well-formedness of the whole dictionary
and keeps every player's type. -/
theorem playGameB_preserves
    (p1 p2 : Nat) (gA gB1 gB2 : PayoffMat) (l1 l2 : List Nat)
    (pd : Nat → SimplePlayer) (agg : RoundAgg) (c1 c2 : List Nat → Nat) (u1 u2 : ℚ)
    (h : ∀ i, actionsOK (pd i)) :
    (∀ i, actionsOK (playGameB p1 p2 gA gB1 gB2 l1 l2 pd agg c1 c2 u1 u2 i))
    ∧ (∀ i, (playGameB p1 p2 gA gB1 gB2 l1 l2 pd agg c1 c2 u1 u2 i).playertype
        = (pd i).playertype) := by
  have hm1 := moveB_preserves (pd p1) p2 gA gB1 gB2 l1 l2 pd agg c1 u1 (h p1)
  have h1 : ∀ j, actionsOK ((modPD pd p1 (fun _ => (moveB (pd p1) p2 gA gB1 gB2 l1 l2 pd agg c1 u1).1)) j) :=
    modPD_ok actionsOK pd p1 _ h hm1.1
  have hm2 := moveB_preserves ((modPD pd p1 (fun _ => (moveB (pd p1) p2 gA gB1 gB2 l1 l2 pd agg c1 u1).1)) p2) p1 gA gB1 gB2 l1 l2 (modPD pd p1 (fun _ => (moveB (pd p1) p2 gA gB1 gB2 l1 l2 pd agg c1 u1).1)) agg c2 u2 (h1 p2)
  have h2 : ∀ j, actionsOK ((modPD (modPD pd p1 (fun _ => (moveB (pd p1) p2 gA gB1 gB2 l1 l2 pd agg c1 u1).1)) p2 (fun _ => (moveB ((modPD pd p1 (fun _ => (moveB (pd p1) p2 gA gB1 gB2 l1 l2 pd agg c1 u1).1)) p2) p1 gA gB1 gB2 l1 l2 (modPD pd p1 (fun _ => (moveB (pd p1) p2 gA gB1 gB2 l1 l2 pd agg c1 u1).1)) agg c2 u2).1)) j) :=
    modPD_ok actionsOK (modPD pd p1 (fun _ => (moveB (pd p1) p2 gA gB1 gB2 l1 l2 pd agg c1 u1).1)) p2 _ h1 hm2.1
  have h3 : ∀ j, actionsOK ((modPD (modPD (modPD pd p1 (fun _ => (moveB (pd p1) p2 gA gB1 gB2 l1 l2 pd agg c1 u1).1)) p2 (fun _ => (moveB ((modPD pd p1 (fun _ => (moveB (pd p1) p2 gA gB1 gB2 l1 l2 pd agg c1 u1).1)) p2) p1 gA gB1 gB2 l1 l2 (modPD pd p1 (fun _ => (moveB (pd p1) p2 gA gB1 gB2 l1 l2 pd agg c1 u1).1)) agg c2 u2).1)) p1 (fun a => { a with lastActionB := (moveB (pd p1) p2 gA gB1 gB2 l1 l2 pd agg c1 u1).2 })) j) :=
    modPD_ok actionsOK (modPD (modPD pd p1 (fun _ => (moveB (pd p1) p2 gA gB1 gB2 l1 l2 pd agg c1 u1).1)) p2 (fun _ => (moveB ((modPD pd p1 (fun _ => (moveB (pd p1) p2 gA gB1 gB2 l1 l2 pd agg c1 u1).1)) p2) p1 gA gB1 gB2 l1 l2 (modPD pd p1 (fun _ => (moveB (pd p1) p2 gA gB1 gB2 l1 l2 pd agg c1 u1).1)) agg c2 u2).1)) p1 _ h2
      ⟨(h2 p1).1, (h2 p1).2.1, (h2 p1).2.2.1, hm1.2.2⟩
  have h4 : ∀ j, actionsOK ((modPD (modPD (modPD (modPD pd p1 (fun _ => (moveB (pd p1) p2 gA gB1 gB2 l1 l2 pd agg c1 u1).1)) p2 (fun _ => (moveB ((modPD pd p1 (fun _ => (moveB (pd p1) p2 gA gB1 gB2 l1 l2 pd agg c1 u1).1)) p2) p1 gA gB1 gB2 l1 l2 (modPD pd p1 (fun _ => (moveB (pd p1) p2 gA gB1 gB2 l1 l2 pd agg c1 u1).1)) agg c2 u2).1)) p1 (fun a => { a with lastActionB := (moveB (pd p1) p2 gA gB1 gB2 l1 l2 pd agg c1 u1).2 })) p2 (fun a => { a with lastActionB := (moveB ((modPD pd p1 (fun _ => (moveB (pd p1) p2 gA gB1 gB2 l1 l2 pd agg c1 u1).1)) p2) p1 gA gB1 gB2 l1 l2 (modPD pd p1 (fun _ => (moveB (pd p1) p2 gA gB1 gB2 l1 l2 pd agg c1 u1).1)) agg c2 u2).2 })) j) :=
    modPD_ok actionsOK (modPD (modPD (modPD pd p1 (fun _ => (moveB (pd p1) p2 gA gB1 gB2 l1 l2 pd agg c1 u1).1)) p2 (fun _ => (moveB ((modPD pd p1 (fun _ => (moveB (pd p1) p2 gA gB1 gB2 l1 l2 pd agg c1 u1).1)) p2) p1 gA gB1 gB2 l1 l2 (modPD pd p1 (fun _ => (moveB (pd p1) p2 gA gB1 gB2 l1 l2 pd agg c1 u1).1)) agg c2 u2).1)) p1 (fun a => { a with lastActionB := (moveB (pd p1) p2 gA gB1 gB2 l1 l2 pd agg c1 u1).2 })) p2 _ h3
      ⟨(h3 p2).1, (h3 p2).2.1, (h3 p2).2.2.1, hm2.2.2⟩
  have h5 : ∀ j, actionsOK ((modPD (modPD (modPD (modPD (modPD pd p1 (fun _ => (moveB (pd p1) p2 gA gB1 gB2 l1 l2 pd agg c1 u1).1)) p2 (fun _ => (moveB ((modPD pd p1 (fun _ => (moveB (pd p1) p2 gA gB1 gB2 l1 l2 pd agg c1 u1).1)) p2) p1 gA gB1 gB2 l1 l2 (modPD pd p1 (fun _ => (moveB (pd p1) p2 gA gB1 gB2 l1 l2 pd agg c1 u1).1)) agg c2 u2).1)) p1 (fun a => { a with lastActionB := (moveB (pd p1) p2 gA gB1 gB2 l1 l2 pd agg c1 u1).2 })) p2 (fun a => { a with lastActionB := (moveB ((modPD pd p1 (fun _ => (moveB (pd p1) p2 gA gB1 gB2 l1 l2 pd agg c1 u1).1)) p2) p1 gA gB1 gB2 l1 l2 (modPD pd p1 (fun _ => (moveB (pd p1) p2 gA gB1 gB2 l1 l2 pd agg c1 u1).1)) agg c2 u2).2 })) p1 (fun a => { a with lastOppGameB := (p2 : ℚ) })) j) :=
    modPD_ok actionsOK (modPD (modPD (modPD (modPD pd p1 (fun _ => (moveB (pd p1) p2 gA gB1 gB2 l1 l2 pd agg c1 u1).1)) p2 (fun _ => (moveB ((modPD pd p1 (fun _ => (moveB (pd p1) p2 gA gB1 gB2 l1 l2 pd agg c1 u1).1)) p2) p1 gA gB1 gB2 l1 l2 (modPD pd p1 (fun _ => (moveB (pd p1) p2 gA gB1 gB2 l1 l2 pd agg c1 u1).1)) agg c2 u2).1)) p1 (fun a => { a with lastActionB := (moveB (pd p1) p2 gA gB1 gB2 l1 l2 pd agg c1 u1).2 })) p2 (fun a => { a with lastActionB := (moveB ((modPD pd p1 (fun _ => (moveB (pd p1) p2 gA gB1 gB2 l1 l2 pd agg c1 u1).1)) p2) p1 gA gB1 gB2 l1 l2 (modPD pd p1 (fun _ => (moveB (pd p1) p2 gA gB1 gB2 l1 l2 pd agg c1 u1).1)) agg c2 u2).2 })) p1 _ h4
      ⟨(h4 p1).1, (h4 p1).2.1, (h4 p1).2.2.1, (h4 p1).2.2.2⟩
  have h6 : ∀ j, actionsOK ((modPD (modPD (modPD (modPD (modPD (modPD pd p1 (fun _ => (moveB (pd p1) p2 gA gB1 gB2 l1 l2 pd agg c1 u1).1)) p2 (fun _ => (moveB ((modPD pd p1 (fun _ => (moveB (pd p1) p2 gA gB1 gB2 l1 l2 pd agg c1 u1).1)) p2) p1 gA gB1 gB2 l1 l2 (modPD pd p1 (fun _ => (moveB (pd p1) p2 gA gB1 gB2 l1 l2 pd agg c1 u1).1)) agg c2 u2).1)) p1 (fun a => { a with lastActionB := (moveB (pd p1) p2 gA gB1 gB2 l1 l2 pd agg c1 u1).2 })) p2 (fun a => { a with lastActionB := (moveB ((modPD pd p1 (fun _ => (moveB (pd p1) p2 gA gB1 gB2 l1 l2 pd agg c1 u1).1)) p2) p1 gA gB1 gB2 l1 l2 (modPD pd p1 (fun _ => (moveB (pd p1) p2 gA gB1 gB2 l1 l2 pd agg c1 u1).1)) agg c2 u2).2 })) p1 (fun a => { a with lastOppGameB := (p2 : ℚ) })) p2 (fun a => { a with lastOppGameB := (p1 : ℚ) })) j) :=
    modPD_ok actionsOK (modPD (modPD (modPD (modPD (modPD pd p1 (fun _ => (moveB (pd p1) p2 gA gB1 gB2 l1 l2 pd agg c1 u1).1)) p2 (fun _ => (moveB ((modPD pd p1 (fun _ => (moveB (pd p1) p2 gA gB1 gB2 l1 l2 pd agg c1 u1).1)) p2) p1 gA gB1 gB2 l1 l2 (modPD pd p1 (fun _ => (moveB (pd p1) p2 gA gB1 gB2 l1 l2 pd agg c1 u1).1)) agg c2 u2).1)) p1 (fun a => { a with lastActionB := (moveB (pd p1) p2 gA gB1 gB2 l1 l2 pd agg c1 u1).2 })) p2 (fun a => { a with lastActionB := (moveB ((modPD pd p1 (fun _ => (moveB (pd p1) p2 gA gB1 gB2 l1 l2 pd agg c1 u1).1)) p2) p1 gA gB1 gB2 l1 l2 (modPD pd p1 (fun _ => (moveB (pd p1) p2 gA gB1 gB2 l1 l2 pd agg c1 u1).1)) agg c2 u2).2 })) p1 (fun a => { a with lastOppGameB := (p2 : ℚ) })) p2 _ h5
      ⟨(h5 p2).1, (h5 p2).2.1, (h5 p2).2.2.1, (h5 p2).2.2.2⟩
  have h7 : ∀ j, actionsOK ((modPD (modPD (modPD (modPD (modPD (modPD (modPD pd p1 (fun _ => (moveB (pd p1) p2 gA gB1 gB2 l1 l2 pd agg c1 u1).1)) p2 (fun _ => (moveB ((modPD pd p1 (fun _ => (moveB (pd p1) p2 gA gB1 gB2 l1 l2 pd agg c1 u1).1)) p2) p1 gA gB1 gB2 l1 l2 (modPD pd p1 (fun _ => (moveB (pd p1) p2 gA gB1 gB2 l1 l2 pd agg c1 u1).1)) agg c2 u2).1)) p1 (fun a => { a with lastActionB := (moveB (pd p1) p2 gA gB1 gB2 l1 l2 pd agg c1 u1).2 })) p2 (fun a => { a with lastActionB := (moveB ((modPD pd p1 (fun _ => (moveB (pd p1) p2 gA gB1 gB2 l1 l2 pd agg c1 u1).1)) p2) p1 gA gB1 gB2 l1 l2 (modPD pd p1 (fun _ => (moveB (pd p1) p2 gA gB1 gB2 l1 l2 pd agg c1 u1).1)) agg c2 u2).2 })) p1 (fun a => { a with lastOppGameB := (p2 : ℚ) })) p2 (fun a => { a with lastOppGameB := (p1 : ℚ) })) p1 (fun a => { a with lastOppGameBLastActionA := ((modPD (modPD (modPD (modPD (modPD (modPD pd p1 (fun _ => (moveB (pd p1) p2 gA gB1 gB2 l1 l2 pd agg c1 u1).1)) p2 (fun _ => (moveB ((modPD pd p1 (fun _ => (moveB (pd p1) p2 gA gB1 gB2 l1 l2 pd agg c1 u1).1)) p2) p1 gA gB1 gB2 l1 l2 (modPD pd p1 (fun _ => (moveB (pd p1) p2 gA gB1 gB2 l1 l2 pd agg c1 u1).1)) agg c2 u2).1)) p1 (fun a => { a with lastActionB := (moveB (pd p1) p2 gA gB1 gB2 l1 l2 pd agg c1 u1).2 })) p2 (fun a => { a with lastActionB := (moveB ((modPD pd p1 (fun _ => (moveB (pd p1) p2 gA gB1 gB2 l1 l2 pd agg c1 u1).1)) p2) p1 gA gB1 gB2 l1 l2 (modPD pd p1 (fun _ => (moveB (pd p1) p2 gA gB1 gB2 l1 l2 pd agg c1 u1).1)) agg c2 u2).2 })) p1 (fun a => { a with lastOppGameB := (p2 : ℚ) })) p2 (fun a => { a with lastOppGameB := (p1 : ℚ) })) p2).lastActionA })) j) :=
    modPD_ok actionsOK (modPD (modPD (modPD (modPD (modPD (modPD pd p1 (fun _ => (moveB (pd p1) p2 gA gB1 gB2 l1 l2 pd agg c1 u1).1)) p2 (fun _ => (moveB ((modPD pd p1 (fun _ => (moveB (pd p1) p2 gA gB1 gB2 l1 l2 pd agg c1 u1).1)) p2) p1 gA gB1 gB2 l1 l2 (modPD pd p1 (fun _ => (moveB (pd p1) p2 gA gB1 gB2 l1 l2 pd agg c1 u1).1)) agg c2 u2).1)) p1 (fun a => { a with lastActionB := (moveB (pd p1) p2 gA gB1 gB2 l1 l2 pd agg c1 u1).2 })) p2 (fun a => { a with lastActionB := (moveB ((modPD pd p1 (fun _ => (moveB (pd p1) p2 gA gB1 gB2 l1 l2 pd agg c1 u1).1)) p2) p1 gA gB1 gB2 l1 l2 (modPD pd p1 (fun _ => (moveB (pd p1) p2 gA gB1 gB2 l1 l2 pd agg c1 u1).1)) agg c2 u2).2 })) p1 (fun a => { a with lastOppGameB := (p2 : ℚ) })) p2 (fun a => { a with lastOppGameB := (p1 : ℚ) })) p1 _ h6
      ⟨(h6 p1).1, (h6 p1).2.1, (h6 p1).2.2.1, (h6 p1).2.2.2⟩
  have h8 : ∀ j, actionsOK ((modPD (modPD (modPD (modPD (modPD (modPD (modPD (modPD pd p1 (fun _ => (moveB (pd p1) p2 gA gB1 gB2 l1 l2 pd agg c1 u1).1)) p2 (fun _ => (moveB ((modPD pd p1 (fun _ => (moveB (pd p1) p2 gA gB1 gB2 l1 l2 pd agg c1 u1).1)) p2) p1 gA gB1 gB2 l1 l2 (modPD pd p1 (fun _ => (moveB (pd p1) p2 gA gB1 gB2 l1 l2 pd agg c1 u1).1)) agg c2 u2).1)) p1 (fun a => { a with lastActionB := (moveB (pd p1) p2 gA gB1 gB2 l1 l2 pd agg c1 u1).2 })) p2 (fun a => { a with lastActionB := (moveB ((modPD pd p1 (fun _ => (moveB (pd p1) p2 gA gB1 gB2 l1 l2 pd agg c1 u1).1)) p2) p1 gA gB1 gB2 l1 l2 (modPD pd p1 (fun _ => (moveB (pd p1) p2 gA gB1 gB2 l1 l2 pd agg c1 u1).1)) agg c2 u2).2 })) p1 (fun a => { a with lastOppGameB := (p2 : ℚ) })) p2 (fun a => { a with lastOppGameB := (p1 : ℚ) })) p1 (fun a => { a with lastOppGameBLastActionA := ((modPD (modPD (modPD (modPD (modPD (modPD pd p1 (fun _ => (moveB (pd p1) p2 gA gB1 gB2 l1 l2 pd agg c1 u1).1)) p2 (fun _ => (moveB ((modPD pd p1 (fun _ => (moveB (pd p1) p2 gA gB1 gB2 l1 l2 pd agg c1 u1).1)) p2) p1 gA gB1 gB2 l1 l2 (modPD pd p1 (fun _ => (moveB (pd p1) p2 gA gB1 gB2 l1 l2 pd agg c1 u1).1)) agg c2 u2).1)) p1 (fun a => { a with lastActionB := (moveB (pd p1) p2 gA gB1 gB2 l1 l2 pd agg c1 u1).2 })) p2 (fun a => { a with lastActionB := (moveB ((modPD pd p1 (fun _ => (moveB (pd p1) p2 gA gB1 gB2 l1 l2 pd agg c1 u1).1)) p2) p1 gA gB1 gB2 l1 l2 (modPD pd p1 (fun _ => (moveB (pd p1) p2 gA gB1 gB2 l1 l2 pd agg c1 u1).1)) agg c2 u2).2 })) p1 (fun a => { a with lastOppGameB := (p2 : ℚ) })) p2 (fun a => { a with lastOppGameB := (p1 : ℚ) })) p2).lastActionA })) p2 (fun a => { a with lastOppGameBLastActionA := ((modPD (modPD (modPD (modPD (modPD (modPD (modPD pd p1 (fun _ => (moveB (pd p1) p2 gA gB1 gB2 l1 l2 pd agg c1 u1).1)) p2 (fun _ => (moveB ((modPD pd p1 (fun _ => (moveB (pd p1) p2 gA gB1 gB2 l1 l2 pd agg c1 u1).1)) p2) p1 gA gB1 gB2 l1 l2 (modPD pd p1 (fun _ => (moveB (pd p1) p2 gA gB1 gB2 l1 l2 pd agg c1 u1).1)) agg c2 u2).1)) p1 (fun a => { a with lastActionB := (moveB (pd p1) p2 gA gB1 gB2 l1 l2 pd agg c1 u1).2 })) p2 (fun a => { a with lastActionB := (moveB ((modPD pd p1 (fun _ => (moveB (pd p1) p2 gA gB1 gB2 l1 l2 pd agg c1 u1).1)) p2) p1 gA gB1 gB2 l1 l2 (modPD pd p1 (fun _ => (moveB (pd p1) p2 gA gB1 gB2 l1 l2 pd agg c1 u1).1)) agg c2 u2).2 })) p1 (fun a => { a with lastOppGameB := (p2 : ℚ) })) p2 (fun a => { a with lastOppGameB := (p1 : ℚ) })) p1 (fun a => { a with lastOppGameBLastActionA := ((modPD (modPD (modPD (modPD (modPD (modPD pd p1 (fun _ => (moveB (pd p1) p2 gA gB1 gB2 l1 l2 pd agg c1 u1).1)) p2 (fun _ => (moveB ((modPD pd p1 (fun _ => (moveB (pd p1) p2 gA gB1 gB2 l1 l2 pd agg c1 u1).1)) p2) p1 gA gB1 gB2 l1 l2 (modPD pd p1 (fun _ => (moveB (pd p1) p2 gA gB1 gB2 l1 l2 pd agg c1 u1).1)) agg c2 u2).1)) p1 (fun a => { a with lastActionB := (moveB (pd p1) p2 gA gB1 gB2 l1 l2 pd agg c1 u1).2 })) p2 (fun a => { a with lastActionB := (moveB ((modPD pd p1 (fun _ => (moveB (pd p1) p2 gA gB1 gB2 l1 l2 pd agg c1 u1).1)) p2) p1 gA gB1 gB2 l1 l2 (modPD pd p1 (fun _ => (moveB (pd p1) p2 gA gB1 gB2 l1 l2 pd agg c1 u1).1)) agg c2 u2).2 })) p1 (fun a => { a with lastOppGameB := (p2 : ℚ) })) p2 (fun a => { a with lastOppGameB := (p1 : ℚ) })) p2).lastActionA })) p1).lastActionA })) j) :=
    modPD_ok actionsOK (modPD (modPD (modPD (modPD (modPD (modPD (modPD pd p1 (fun _ => (moveB (pd p1) p2 gA gB1 gB2 l1 l2 pd agg c1 u1).1)) p2 (fun _ => (moveB ((modPD pd p1 (fun _ => (moveB (pd p1) p2 gA gB1 gB2 l1 l2 pd agg c1 u1).1)) p2) p1 gA gB1 gB2 l1 l2 (modPD pd p1 (fun _ => (moveB (pd p1) p2 gA gB1 gB2 l1 l2 pd agg c1 u1).1)) agg c2 u2).1)) p1 (fun a => { a with lastActionB := (moveB (pd p1) p2 gA gB1 gB2 l1 l2 pd agg c1 u1).2 })) p2 (fun a => { a with lastActionB := (moveB ((modPD pd p1 (fun _ => (moveB (pd p1) p2 gA gB1 gB2 l1 l2 pd agg c1 u1).1)) p2) p1 gA gB1 gB2 l1 l2 (modPD pd p1 (fun _ => (moveB (pd p1) p2 gA gB1 gB2 l1 l2 pd agg c1 u1).1)) agg c2 u2).2 })) p1 (fun a => { a with lastOppGameB := (p2 : ℚ) })) p2 (fun a => { a with lastOppGameB := (p1 : ℚ) })) p1 (fun a => { a with lastOppGameBLastActionA := ((modPD (modPD (modPD (modPD (modPD (modPD pd p1 (fun _ => (moveB (pd p1) p2 gA gB1 gB2 l1 l2 pd agg c1 u1).1)) p2 (fun _ => (moveB ((modPD pd p1 (fun _ => (moveB (pd p1) p2 gA gB1 gB2 l1 l2 pd agg c1 u1).1)) p2) p1 gA gB1 gB2 l1 l2 (modPD pd p1 (fun _ => (moveB (pd p1) p2 gA gB1 gB2 l1 l2 pd agg c1 u1).1)) agg c2 u2).1)) p1 (fun a => { a with lastActionB := (moveB (pd p1) p2 gA gB1 gB2 l1 l2 pd agg c1 u1).2 })) p2 (fun a => { a with lastActionB := (moveB ((modPD pd p1 (fun _ => (moveB (pd p1) p2 gA gB1 gB2 l1 l2 pd agg c1 u1).1)) p2) p1 gA gB1 gB2 l1 l2 (modPD pd p1 (fun _ => (moveB (pd p1) p2 gA gB1 gB2 l1 l2 pd agg c1 u1).1)) agg c2 u2).2 })) p1 (fun a => { a with lastOppGameB := (p2 : ℚ) })) p2 (fun a => { a with lastOppGameB := (p1 : ℚ) })) p2).lastActionA })) p2 _ h7
      ⟨(h7 p2).1, (h7 p2).2.1, (h7 p2).2.2.1, (h7 p2).2.2.2⟩
  have g1 : ∀ j, ((modPD pd p1 (fun _ => (moveB (pd p1) p2 gA gB1 gB2 l1 l2 pd agg c1 u1).1)) j).playertype = (pd j).playertype :=
    modPD_playertype pd p1 _ hm1.2.1
  have g2 : ∀ j, ((modPD (modPD pd p1 (fun _ => (moveB (pd p1) p2 gA gB1 gB2 l1 l2 pd agg c1 u1).1)) p2 (fun _ => (moveB ((modPD pd p1 (fun _ => (moveB (pd p1) p2 gA gB1 gB2 l1 l2 pd agg c1 u1).1)) p2) p1 gA gB1 gB2 l1 l2 (modPD pd p1 (fun _ => (moveB (pd p1) p2 gA gB1 gB2 l1 l2 pd agg c1 u1).1)) agg c2 u2).1)) j).playertype = ((modPD pd p1 (fun _ => (moveB (pd p1) p2 gA gB1 gB2 l1 l2 pd agg c1 u1).1)) j).playertype :=
    modPD_playertype (modPD pd p1 (fun _ => (moveB (pd p1) p2 gA gB1 gB2 l1 l2 pd agg c1 u1).1)) p2 _ hm2.2.1
  have g3 : ∀ j, ((modPD (modPD (modPD pd p1 (fun _ => (moveB (pd p1) p2 gA gB1 gB2 l1 l2 pd agg c1 u1).1)) p2 (fun _ => (moveB ((modPD pd p1 (fun _ => (moveB (pd p1) p2 gA gB1 gB2 l1 l2 pd agg c1 u1).1)) p2) p1 gA gB1 gB2 l1 l2 (modPD pd p1 (fun _ => (moveB (pd p1) p2 gA gB1 gB2 l1 l2 pd agg c1 u1).1)) agg c2 u2).1)) p1 (fun a => { a with lastActionB := (moveB (pd p1) p2 gA gB1 gB2 l1 l2 pd agg c1 u1).2 })) j).playertype = ((modPD (modPD pd p1 (fun _ => (moveB (pd p1) p2 gA gB1 gB2 l1 l2 pd agg c1 u1).1)) p2 (fun _ => (moveB ((modPD pd p1 (fun _ => (moveB (pd p1) p2 gA gB1 gB2 l1 l2 pd agg c1 u1).1)) p2) p1 gA gB1 gB2 l1 l2 (modPD pd p1 (fun _ => (moveB (pd p1) p2 gA gB1 gB2 l1 l2 pd agg c1 u1).1)) agg c2 u2).1)) j).playertype :=
    modPD_playertype (modPD (modPD pd p1 (fun _ => (moveB (pd p1) p2 gA gB1 gB2 l1 l2 pd agg c1 u1).1)) p2 (fun _ => (moveB ((modPD pd p1 (fun _ => (moveB (pd p1) p2 gA gB1 gB2 l1 l2 pd agg c1 u1).1)) p2) p1 gA gB1 gB2 l1 l2 (modPD pd p1 (fun _ => (moveB (pd p1) p2 gA gB1 gB2 l1 l2 pd agg c1 u1).1)) agg c2 u2).1)) p1 _ rfl
  have g4 : ∀ j, ((modPD (modPD (modPD (modPD pd p1 (fun _ => (moveB (pd p1) p2 gA gB1 gB2 l1 l2 pd agg c1 u1).1)) p2 (fun _ => (moveB ((modPD pd p1 (fun _ => (moveB (pd p1) p2 gA gB1 gB2 l1 l2 pd agg c1 u1).1)) p2) p1 gA gB1 gB2 l1 l2 (modPD pd p1 (fun _ => (moveB (pd p1) p2 gA gB1 gB2 l1 l2 pd agg c1 u1).1)) agg c2 u2).1)) p1 (fun a => { a with lastActionB := (moveB (pd p1) p2 gA gB1 gB2 l1 l2 pd agg c1 u1).2 })) p2 (fun a => { a with lastActionB := (moveB ((modPD pd p1 (fun _ => (moveB (pd p1) p2 gA gB1 gB2 l1 l2 pd agg c1 u1).1)) p2) p1 gA gB1 gB2 l1 l2 (modPD pd p1 (fun _ => (moveB (pd p1) p2 gA gB1 gB2 l1 l2 pd agg c1 u1).1)) agg c2 u2).2 })) j).playertype = ((modPD (modPD (modPD pd p1 (fun _ => (moveB (pd p1) p2 gA gB1 gB2 l1 l2 pd agg c1 u1).1)) p2 (fun _ => (moveB ((modPD pd p1 (fun _ => (moveB (pd p1) p2 gA gB1 gB2 l1 l2 pd agg c1 u1).1)) p2) p1 gA gB1 gB2 l1 l2 (modPD pd p1 (fun _ => (moveB (pd p1) p2 gA gB1 gB2 l1 l2 pd agg c1 u1).1)) agg c2 u2).1)) p1 (fun a => { a with lastActionB := (moveB (pd p1) p2 gA gB1 gB2 l1 l2 pd agg c1 u1).2 })) j).playertype :=
    modPD_playertype (modPD (modPD (modPD pd p1 (fun _ => (moveB (pd p1) p2 gA gB1 gB2 l1 l2 pd agg c1 u1).1)) p2 (fun _ => (moveB ((modPD pd p1 (fun _ => (moveB (pd p1) p2 gA gB1 gB2 l1 l2 pd agg c1 u1).1)) p2) p1 gA gB1 gB2 l1 l2 (modPD pd p1 (fun _ => (moveB (pd p1) p2 gA gB1 gB2 l1 l2 pd agg c1 u1).1)) agg c2 u2).1)) p1 (fun a => { a with lastActionB := (moveB (pd p1) p2 gA gB1 gB2 l1 l2 pd agg c1 u1).2 })) p2 _ rfl
  have g5 : ∀ j, ((modPD (modPD (modPD (modPD (modPD pd p1 (fun _ => (moveB (pd p1) p2 gA gB1 gB2 l1 l2 pd agg c1 u1).1)) p2 (fun _ => (moveB ((modPD pd p1 (fun _ => (moveB (pd p1) p2 gA gB1 gB2 l1 l2 pd agg c1 u1).1)) p2) p1 gA gB1 gB2 l1 l2 (modPD pd p1 (fun _ => (moveB (pd p1) p2 gA gB1 gB2 l1 l2 pd agg c1 u1).1)) agg c2 u2).1)) p1 (fun a => { a with lastActionB := (moveB (pd p1) p2 gA gB1 gB2 l1 l2 pd agg c1 u1).2 })) p2 (fun a => { a with lastActionB := (moveB ((modPD pd p1 (fun _ => (moveB (pd p1) p2 gA gB1 gB2 l1 l2 pd agg c1 u1).1)) p2) p1 gA gB1 gB2 l1 l2 (modPD pd p1 (fun _ => (moveB (pd p1) p2 gA gB1 gB2 l1 l2 pd agg c1 u1).1)) agg c2 u2).2 })) p1 (fun a => { a with lastOppGameB := (p2 : ℚ) })) j).playertype = ((modPD (modPD (modPD (modPD pd p1 (fun _ => (moveB (pd p1) p2 gA gB1 gB2 l1 l2 pd agg c1 u1).1)) p2 (fun _ => (moveB ((modPD pd p1 (fun _ => (moveB (pd p1) p2 gA gB1 gB2 l1 l2 pd agg c1 u1).1)) p2) p1 gA gB1 gB2 l1 l2 (modPD pd p1 (fun _ => (moveB (pd p1) p2 gA gB1 gB2 l1 l2 pd agg c1 u1).1)) agg c2 u2).1)) p1 (fun a => { a with lastActionB := (moveB (pd p1) p2 gA gB1 gB2 l1 l2 pd agg c1 u1).2 })) p2 (fun a => { a with lastActionB := (moveB ((modPD pd p1 (fun _ => (moveB (pd p1) p2 gA gB1 gB2 l1 l2 pd agg c1 u1).1)) p2) p1 gA gB1 gB2 l1 l2 (modPD pd p1 (fun _ => (moveB (pd p1) p2 gA gB1 gB2 l1 l2 pd agg c1 u1).1)) agg c2 u2).2 })) j).playertype :=
    modPD_playertype (modPD (modPD (modPD (modPD pd p1 (fun _ => (moveB (pd p1) p2 gA gB1 gB2 l1 l2 pd agg c1 u1).1)) p2 (fun _ => (moveB ((modPD pd p1 (fun _ => (moveB (pd p1) p2 gA gB1 gB2 l1 l2 pd agg c1 u1).1)) p2) p1 gA gB1 gB2 l1 l2 (modPD pd p1 (fun _ => (moveB (pd p1) p2 gA gB1 gB2 l1 l2 pd agg c1 u1).1)) agg c2 u2).1)) p1 (fun a => { a with lastActionB := (moveB (pd p1) p2 gA gB1 gB2 l1 l2 pd agg c1 u1).2 })) p2 (fun a => { a with lastActionB := (moveB ((modPD pd p1 (fun _ => (moveB (pd p1) p2 gA gB1 gB2 l1 l2 pd agg c1 u1).1)) p2) p1 gA gB1 gB2 l1 l2 (modPD pd p1 (fun _ => (moveB (pd p1) p2 gA gB1 gB2 l1 l2 pd agg c1 u1).1)) agg c2 u2).2 })) p1 _ rfl
  have g6 : ∀ j, ((modPD (modPD (modPD (modPD (modPD (modPD pd p1 (fun _ => (moveB (pd p1) p2 gA gB1 gB2 l1 l2 pd agg c1 u1).1)) p2 (fun _ => (moveB ((modPD pd p1 (fun _ => (moveB (pd p1) p2 gA gB1 gB2 l1 l2 pd agg c1 u1).1)) p2) p1 gA gB1 gB2 l1 l2 (modPD pd p1 (fun _ => (moveB (pd p1) p2 gA gB1 gB2 l1 l2 pd agg c1 u1).1)) agg c2 u2).1)) p1 (fun a => { a with lastActionB := (moveB (pd p1) p2 gA gB1 gB2 l1 l2 pd agg c1 u1).2 })) p2 (fun a => { a with lastActionB := (moveB ((modPD pd p1 (fun _ => (moveB (pd p1) p2 gA gB1 gB2 l1 l2 pd agg c1 u1).1)) p2) p1 gA gB1 gB2 l1 l2 (modPD pd p1 (fun _ => (moveB (pd p1) p2 gA gB1 gB2 l1 l2 pd agg c1 u1).1)) agg c2 u2).2 })) p1 (fun a => { a with lastOppGameB := (p2 : ℚ) })) p2 (fun a => { a with lastOppGameB := (p1 : ℚ) })) j).playertype = ((modPD (modPD (modPD (modPD (modPD pd p1 (fun _ => (moveB (pd p1) p2 gA gB1 gB2 l1 l2 pd agg c1 u1).1)) p2 (fun _ => (moveB ((modPD pd p1 (fun _ => (moveB (pd p1) p2 gA gB1 gB2 l1 l2 pd agg c1 u1).1)) p2) p1 gA gB1 gB2 l1 l2 (modPD pd p1 (fun _ => (moveB (pd p1) p2 gA gB1 gB2 l1 l2 pd agg c1 u1).1)) agg c2 u2).1)) p1 (fun a => { a with lastActionB := (moveB (pd p1) p2 gA gB1 gB2 l1 l2 pd agg c1 u1).2 })) p2 (fun a => { a with lastActionB := (moveB ((modPD pd p1 (fun _ => (moveB (pd p1) p2 gA gB1 gB2 l1 l2 pd agg c1 u1).1)) p2) p1 gA gB1 gB2 l1 l2 (modPD pd p1 (fun _ => (moveB (pd p1) p2 gA gB1 gB2 l1 l2 pd agg c1 u1).1)) agg c2 u2).2 })) p1 (fun a => { a with lastOppGameB := (p2 : ℚ) })) j).playertype :=
    modPD_playertype (modPD (modPD (modPD (modPD (modPD pd p1 (fun _ => (moveB (pd p1) p2 gA gB1 gB2 l1 l2 pd agg c1 u1).1)) p2 (fun _ => (moveB ((modPD pd p1 (fun _ => (moveB (pd p1) p2 gA gB1 gB2 l1 l2 pd agg c1 u1).1)) p2) p1 gA gB1 gB2 l1 l2 (modPD pd p1 (fun _ => (moveB (pd p1) p2 gA gB1 gB2 l1 l2 pd agg c1 u1).1)) agg c2 u2).1)) p1 (fun a => { a with lastActionB := (moveB (pd p1) p2 gA gB1 gB2 l1 l2 pd agg c1 u1).2 })) p2 (fun a => { a with lastActionB := (moveB ((modPD pd p1 (fun _ => (moveB (pd p1) p2 gA gB1 gB2 l1 l2 pd agg c1 u1).1)) p2) p1 gA gB1 gB2 l1 l2 (modPD pd p1 (fun _ => (moveB (pd p1) p2 gA gB1 gB2 l1 l2 pd agg c1 u1).1)) agg c2 u2).2 })) p1 (fun a => { a with lastOppGameB := (p2 : ℚ) })) p2 _ rfl
  have g7 : ∀ j, ((modPD (modPD (modPD (modPD (modPD (modPD (modPD pd p1 (fun _ => (moveB (pd p1) p2 gA gB1 gB2 l1 l2 pd agg c1 u1).1)) p2 (fun _ => (moveB ((modPD pd p1 (fun _ => (moveB (pd p1) p2 gA gB1 gB2 l1 l2 pd agg c1 u1).1)) p2) p1 gA gB1 gB2 l1 l2 (modPD pd p1 (fun _ => (moveB (pd p1) p2 gA gB1 gB2 l1 l2 pd agg c1 u1).1)) agg c2 u2).1)) p1 (fun a => { a with lastActionB := (moveB (pd p1) p2 gA gB1 gB2 l1 l2 pd agg c1 u1).2 })) p2 (fun a => { a with lastActionB := (moveB ((modPD pd p1 (fun _ => (moveB (pd p1) p2 gA gB1 gB2 l1 l2 pd agg c1 u1).1)) p2) p1 gA gB1 gB2 l1 l2 (modPD pd p1 (fun _ => (moveB (pd p1) p2 gA gB1 gB2 l1 l2 pd agg c1 u1).1)) agg c2 u2).2 })) p1 (fun a => { a with lastOppGameB := (p2 : ℚ) })) p2 (fun a => { a with lastOppGameB := (p1 : ℚ) })) p1 (fun a => { a with lastOppGameBLastActionA := ((modPD (modPD (modPD (modPD (modPD (modPD pd p1 (fun _ => (moveB (pd p1) p2 gA gB1 gB2 l1 l2 pd agg c1 u1).1)) p2 (fun _ => (moveB ((modPD pd p1 (fun _ => (moveB (pd p1) p2 gA gB1 gB2 l1 l2 pd agg c1 u1).1)) p2) p1 gA gB1 gB2 l1 l2 (modPD pd p1 (fun _ => (moveB (pd p1) p2 gA gB1 gB2 l1 l2 pd agg c1 u1).1)) agg c2 u2).1)) p1 (fun a => { a with lastActionB := (moveB (pd p1) p2 gA gB1 gB2 l1 l2 pd agg c1 u1).2 })) p2 (fun a => { a with lastActionB := (moveB ((modPD pd p1 (fun _ => (moveB (pd p1) p2 gA gB1 gB2 l1 l2 pd agg c1 u1).1)) p2) p1 gA gB1 gB2 l1 l2 (modPD pd p1 (fun _ => (moveB (pd p1) p2 gA gB1 gB2 l1 l2 pd agg c1 u1).1)) agg c2 u2).2 })) p1 (fun a => { a with lastOppGameB := (p2 : ℚ) })) p2 (fun a => { a with lastOppGameB := (p1 : ℚ) })) p2).lastActionA })) j).playertype = ((modPD (modPD (modPD (modPD (modPD (modPD pd p1 (fun _ => (moveB (pd p1) p2 gA gB1 gB2 l1 l2 pd agg c1 u1).1)) p2 (fun _ => (moveB ((modPD pd p1 (fun _ => (moveB (pd p1) p2 gA gB1 gB2 l1 l2 pd agg c1 u1).1)) p2) p1 gA gB1 gB2 l1 l2 (modPD pd p1 (fun _ => (moveB (pd p1) p2 gA gB1 gB2 l1 l2 pd agg c1 u1).1)) agg c2 u2).1)) p1 (fun a => { a with lastActionB := (moveB (pd p1) p2 gA gB1 gB2 l1 l2 pd agg c1 u1).2 })) p2 (fun a => { a with lastActionB := (moveB ((modPD pd p1 (fun _ => (moveB (pd p1) p2 gA gB1 gB2 l1 l2 pd agg c1 u1).1)) p2) p1 gA gB1 gB2 l1 l2 (modPD pd p1 (fun _ => (moveB (pd p1) p2 gA gB1 gB2 l1 l2 pd agg c1 u1).1)) agg c2 u2).2 })) p1 (fun a => { a with lastOppGameB := (p2 : ℚ) })) p2 (fun a => { a with lastOppGameB := (p1 : ℚ) })) j).playertype :=
    modPD_playertype (modPD (modPD (modPD (modPD (modPD (modPD pd p1 (fun _ => (moveB (pd p1) p2 gA gB1 gB2 l1 l2 pd agg c1 u1).1)) p2 (fun _ => (moveB ((modPD pd p1 (fun _ => (moveB (pd p1) p2 gA gB1 gB2 l1 l2 pd agg c1 u1).1)) p2) p1 gA gB1 gB2 l1 l2 (modPD pd p1 (fun _ => (moveB (pd p1) p2 gA gB1 gB2 l1 l2 pd agg c1 u1).1)) agg c2 u2).1)) p1 (fun a => { a with lastActionB := (moveB (pd p1) p2 gA gB1 gB2 l1 l2 pd agg c1 u1).2 })) p2 (fun a => { a with lastActionB := (moveB ((modPD pd p1 (fun _ => (moveB (pd p1) p2 gA gB1 gB2 l1 l2 pd agg c1 u1).1)) p2) p1 gA gB1 gB2 l1 l2 (modPD pd p1 (fun _ => (moveB (pd p1) p2 gA gB1 gB2 l1 l2 pd agg c1 u1).1)) agg c2 u2).2 })) p1 (fun a => { a with lastOppGameB := (p2 : ℚ) })) p2 (fun a => { a with lastOppGameB := (p1 : ℚ) })) p1 _ rfl
  have g8 : ∀ j, ((modPD (modPD (modPD (modPD (modPD (modPD (modPD (modPD pd p1 (fun _ => (moveB (pd p1) p2 gA gB1 gB2 l1 l2 pd agg c1 u1).1)) p2 (fun _ => (moveB ((modPD pd p1 (fun _ => (moveB (pd p1) p2 gA gB1 gB2 l1 l2 pd agg c1 u1).1)) p2) p1 gA gB1 gB2 l1 l2 (modPD pd p1 (fun _ => (moveB (pd p1) p2 gA gB1 gB2 l1 l2 pd agg c1 u1).1)) agg c2 u2).1)) p1 (fun a => { a with lastActionB := (moveB (pd p1) p2 gA gB1 gB2 l1 l2 pd agg c1 u1).2 })) p2 (fun a => { a with lastActionB := (moveB ((modPD pd p1 (fun _ => (moveB (pd p1) p2 gA gB1 gB2 l1 l2 pd agg c1 u1).1)) p2) p1 gA gB1 gB2 l1 l2 (modPD pd p1 (fun _ => (moveB (pd p1) p2 gA gB1 gB2 l1 l2 pd agg c1 u1).1)) agg c2 u2).2 })) p1 (fun a => { a with lastOppGameB := (p2 : ℚ) })) p2 (fun a => { a with lastOppGameB := (p1 : ℚ) })) p1 (fun a => { a with lastOppGameBLastActionA := ((modPD (modPD (modPD (modPD (modPD (modPD pd p1 (fun _ => (moveB (pd p1) p2 gA gB1 gB2 l1 l2 pd agg c1 u1).1)) p2 (fun _ => (moveB ((modPD pd p1 (fun _ => (moveB (pd p1) p2 gA gB1 gB2 l1 l2 pd agg c1 u1).1)) p2) p1 gA gB1 gB2 l1 l2 (modPD pd p1 (fun _ => (moveB (pd p1) p2 gA gB1 gB2 l1 l2 pd agg c1 u1).1)) agg c2 u2).1)) p1 (fun a => { a with lastActionB := (moveB (pd p1) p2 gA gB1 gB2 l1 l2 pd agg c1 u1).2 })) p2 (fun a => { a with lastActionB := (moveB ((modPD pd p1 (fun _ => (moveB (pd p1) p2 gA gB1 gB2 l1 l2 pd agg c1 u1).1)) p2) p1 gA gB1 gB2 l1 l2 (modPD pd p1 (fun _ => (moveB (pd p1) p2 gA gB1 gB2 l1 l2 pd agg c1 u1).1)) agg c2 u2).2 })) p1 (fun a => { a with lastOppGameB := (p2 : ℚ) })) p2 (fun a => { a with lastOppGameB := (p1 : ℚ) })) p2).lastActionA })) p2 (fun a => { a with lastOppGameBLastActionA := ((modPD (modPD (modPD (modPD (modPD (modPD (modPD pd p1 (fun _ => (moveB (pd p1) p2 gA gB1 gB2 l1 l2 pd agg c1 u1).1)) p2 (fun _ => (moveB ((modPD pd p1 (fun _ => (moveB (pd p1) p2 gA gB1 gB2 l1 l2 pd agg c1 u1).1)) p2) p1 gA gB1 gB2 l1 l2 (modPD pd p1 (fun _ => (moveB (pd p1) p2 gA gB1 gB2 l1 l2 pd agg c1 u1).1)) agg c2 u2).1)) p1 (fun a => { a with lastActionB := (moveB (pd p1) p2 gA gB1 gB2 l1 l2 pd agg c1 u1).2 })) p2 (fun a => { a with lastActionB := (moveB ((modPD pd p1 (fun _ => (moveB (pd p1) p2 gA gB1 gB2 l1 l2 pd agg c1 u1).1)) p2) p1 gA gB1 gB2 l1 l2 (modPD pd p1 (fun _ => (moveB (pd p1) p2 gA gB1 gB2 l1 l2 pd agg c1 u1).1)) agg c2 u2).2 })) p1 (fun a => { a with lastOppGameB := (p2 : ℚ) })) p2 (fun a => { a with lastOppGameB := (p1 : ℚ) })) p1 (fun a => { a with lastOppGameBLastActionA := ((modPD (modPD (modPD (modPD (modPD (modPD pd p1 (fun _ => (moveB (pd p1) p2 gA gB1 gB2 l1 l2 pd agg c1 u1).1)) p2 (fun _ => (moveB ((modPD pd p1 (fun _ => (moveB (pd p1) p2 gA gB1 gB2 l1 l2 pd agg c1 u1).1)) p2) p1 gA gB1 gB2 l1 l2 (modPD pd p1 (fun _ => (moveB (pd p1) p2 gA gB1 gB2 l1 l2 pd agg c1 u1).1)) agg c2 u2).1)) p1 (fun a => { a with lastActionB := (moveB (pd p1) p2 gA gB1 gB2 l1 l2 pd agg c1 u1).2 })) p2 (fun a => { a with lastActionB := (moveB ((modPD pd p1 (fun _ => (moveB (pd p1) p2 gA gB1 gB2 l1 l2 pd agg c1 u1).1)) p2) p1 gA gB1 gB2 l1 l2 (modPD pd p1 (fun _ => (moveB (pd p1) p2 gA gB1 gB2 l1 l2 pd agg c1 u1).1)) agg c2 u2).2 })) p1 (fun a => { a with lastOppGameB := (p2 : ℚ) })) p2 (fun a => { a with lastOppGameB := (p1 : ℚ) })) p2).lastActionA })) p1).lastActionA })) j).playertype = ((modPD (modPD (modPD (modPD (modPD (modPD (modPD pd p1 (fun _ => (moveB (pd p1) p2 gA gB1 gB2 l1 l2 pd agg c1 u1).1)) p2 (fun _ => (moveB ((modPD pd p1 (fun _ => (moveB (pd p1) p2 gA gB1 gB2 l1 l2 pd agg c1 u1).1)) p2) p1 gA gB1 gB2 l1 l2 (modPD pd p1 (fun _ => (moveB (pd p1) p2 gA gB1 gB2 l1 l2 pd agg c1 u1).1)) agg c2 u2).1)) p1 (fun a => { a with lastActionB := (moveB (pd p1) p2 gA gB1 gB2 l1 l2 pd agg c1 u1).2 })) p2 (fun a => { a with lastActionB := (moveB ((modPD pd p1 (fun _ => (moveB (pd p1) p2 gA gB1 gB2 l1 l2 pd agg c1 u1).1)) p2) p1 gA gB1 gB2 l1 l2 (modPD pd p1 (fun _ => (moveB (pd p1) p2 gA gB1 gB2 l1 l2 pd agg c1 u1).1)) agg c2 u2).2 })) p1 (fun a => { a with lastOppGameB := (p2 : ℚ) })) p2 (fun a => { a with lastOppGameB := (p1 : ℚ) })) p1 (fun a => { a with lastOppGameBLastActionA := ((modPD (modPD (modPD (modPD (modPD (modPD pd p1 (fun _ => (moveB (pd p1) p2 gA gB1 gB2 l1 l2 pd agg c1 u1).1)) p2 (fun _ => (moveB ((modPD pd p1 (fun _ => (moveB (pd p1) p2 gA gB1 gB2 l1 l2 pd agg c1 u1).1)) p2) p1 gA gB1 gB2 l1 l2 (modPD pd p1 (fun _ => (moveB (pd p1) p2 gA gB1 gB2 l1 l2 pd agg c1 u1).1)) agg c2 u2).1)) p1 (fun a => { a with lastActionB := (moveB (pd p1) p2 gA gB1 gB2 l1 l2 pd agg c1 u1).2 })) p2 (fun a => { a with lastActionB := (moveB ((modPD pd p1 (fun _ => (moveB (pd p1) p2 gA gB1 gB2 l1 l2 pd agg c1 u1).1)) p2) p1 gA gB1 gB2 l1 l2 (modPD pd p1 (fun _ => (moveB (pd p1) p2 gA gB1 gB2 l1 l2 pd agg c1 u1).1)) agg c2 u2).2 })) p1 (fun a => { a with lastOppGameB := (p2 : ℚ) })) p2 (fun a => { a with lastOppGameB := (p1 : ℚ) })) p2).lastActionA })) j).playertype :=
    modPD_playertype (modPD (modPD (modPD (modPD (modPD (modPD (modPD pd p1 (fun _ => (moveB (pd p1) p2 gA gB1 gB2 l1 l2 pd agg c1 u1).1)) p2 (fun _ => (moveB ((modPD pd p1 (fun _ => (moveB (pd p1) p2 gA gB1 gB2 l1 l2 pd agg c1 u1).1)) p2) p1 gA gB1 gB2 l1 l2 (modPD pd p1 (fun _ => (moveB (pd p1) p2 gA gB1 gB2 l1 l2 pd agg c1 u1).1)) agg c2 u2).1)) p1 (fun a => { a with lastActionB := (moveB (pd p1) p2 gA gB1 gB2 l1 l2 pd agg c1 u1).2 })) p2 (fun a => { a with lastActionB := (moveB ((modPD pd p1 (fun _ => (moveB (pd p1) p2 gA gB1 gB2 l1 l2 pd agg c1 u1).1)) p2) p1 gA gB1 gB2 l1 l2 (modPD pd p1 (fun _ => (moveB (pd p1) p2 gA gB1 gB2 l1 l2 pd agg c1 u1).1)) agg c2 u2).2 })) p1 (fun a => { a with lastOppGameB := (p2 : ℚ) })) p2 (fun a => { a with lastOppGameB := (p1 : ℚ) })) p1 (fun a => { a with lastOppGameBLastActionA := ((modPD (modPD (modPD (modPD (modPD (modPD pd p1 (fun _ => (moveB (pd p1) p2 gA gB1 gB2 l1 l2 pd agg c1 u1).1)) p2 (fun _ => (moveB ((modPD pd p1 (fun _ => (moveB (pd p1) p2 gA gB1 gB2 l1 l2 pd agg c1 u1).1)) p2) p1 gA gB1 gB2 l1 l2 (modPD pd p1 (fun _ => (moveB (pd p1) p2 gA gB1 gB2 l1 l2 pd agg c1 u1).1)) agg c2 u2).1)) p1 (fun a => { a with lastActionB := (moveB (pd p1) p2 gA gB1 gB2 l1 l2 pd agg c1 u1).2 })) p2 (fun a => { a with lastActionB := (moveB ((modPD pd p1 (fun _ => (moveB (pd p1) p2 gA gB1 gB2 l1 l2 pd agg c1 u1).1)) p2) p1 gA gB1 gB2 l1 l2 (modPD pd p1 (fun _ => (moveB (pd p1) p2 gA gB1 gB2 l1 l2 pd agg c1 u1).1)) agg c2 u2).2 })) p1 (fun a => { a with lastOppGameB := (p2 : ℚ) })) p2 (fun a => { a with lastOppGameB := (p1 : ℚ) })) p2).lastActionA })) p2 _ rfl
  exact ⟨fun i => h8 i,
    fun i => ((((g8 i).trans (g7 i)).trans ((g6 i).trans (g5 i))).trans
      ((g4 i).trans (g3 i))).trans ((g2 i).trans (g1 i))⟩

/-- Claim C9: for every agent and after every operation on it —
construction (`mkPlayer`, i.e. `SimplePlayer.__init__`), `moveA`,
`moveB`, and the post-interaction write-backs of `playGameA`/`playGameB`
— the current and last actions in each game lie in {1, 2}, and the
player type is never reassigned after construction (construction also
yields a type in {1, 2}). -/
theorem claim_C9_action_invariant :
    (∀ (z : Nat) (agg : RoundAgg) (dr : InitDraws),
      actionsOK (mkPlayer z agg dr)
      ∧ ((mkPlayer z agg dr).playertype = 1 ∨ (mkPlayer z agg dr).playertype = 2))
    ∧ (∀ (self : SimplePlayer) (opp : Nat) (gA gB1 gB2 : PayoffMat) (l1 l2 : List Nat)
        (pd : Nat → SimplePlayer) (agg : RoundAgg) (ch : List Nat → Nat) (u : ℚ),
      actionsOK self →
      actionsOK (moveA self opp gA gB1 gB2 l1 l2 pd agg ch u).1
      ∧ (moveA self opp gA gB1 gB2 l1 l2 pd agg ch u).1.playertype = self.playertype)
    ∧ (∀ (self : SimplePlayer) (opp : Nat) (gA gB1 gB2 : PayoffMat) (l1 l2 : List Nat)
        (pd : Nat → SimplePlayer) (agg : RoundAgg) (ch : List Nat → Nat) (u : ℚ),
      actionsOK self →
      actionsOK (moveB self opp gA gB1 gB2 l1 l2 pd agg ch u).1
      ∧ (moveB self opp gA gB1 gB2 l1 l2 pd agg ch u).1.playertype = self.playertype)
    ∧ (∀ (p1 p2 : Nat) (gA gB1 gB2 : PayoffMat) (l1 l2 : List Nat)
        (pd : Nat → SimplePlayer) (agg : RoundAgg) (c1 c2 : List Nat → Nat) (u1 u2 : ℚ),
      (∀ i, actionsOK (pd i)) →
      (∀ i, actionsOK (playGameA p1 p2 gA gB1 gB2 l1 l2 pd agg c1 c2 u1 u2 i))
      ∧ (∀ i, (playGameA p1 p2 gA gB1 gB2 l1 l2 pd agg c1 c2 u1 u2 i).playertype
          = (pd i).playertype))
    ∧ (∀ (p1 p2 : Nat) (gA gB1 gB2 : PayoffMat) (l1 l2 : List Nat)
        (pd : Nat → SimplePlayer) (agg : RoundAgg) (c1 c2 : List Nat → Nat) (u1 u2 : ℚ),
      (∀ i, actionsOK (pd i)) →
      (∀ i, actionsOK (playGameB p1 p2 gA gB1 gB2 l1 l2 pd agg c1 c2 u1 u2 i))
      ∧ (∀ i, (playGameB p1 p2 gA gB1 gB2 l1 l2 pd agg c1 c2 u1 u2 i).playertype
          = (pd i).playertype)) := by
  refine ⟨?_, ?_, ?_, ?_, ?_⟩
  · intro z agg dr
    exact ⟨⟨getactionA_mem _ agg dr.aDraw, getactionB_mem _ agg dr.bDraw,
      getactionA_mem _ agg dr.aDraw, getactionB_mem _ agg dr.bDraw⟩,
      getplayertype_mem dr.typeDraw⟩
  · intro self opp gA gB1 gB2 l1 l2 pd agg ch u h
    exact ⟨(moveA_preserves self opp gA gB1 gB2 l1 l2 pd agg ch u h).1,
      (moveA_preserves self opp gA gB1 gB2 l1 l2 pd agg ch u h).2.1⟩
  · intro self opp gA gB1 gB2 l1 l2 pd agg ch u h
    exact ⟨(moveB_preserves self opp gA gB1 gB2 l1 l2 pd agg ch u h).1,
      (moveB_preserves self opp gA gB1 gB2 l1 l2 pd agg ch u h).2.1⟩
  · intro p1 p2 gA gB1 gB2 l1 l2 pd agg c1 c2 u1 u2 h
    exact playGameA_preserves p1 p2 gA gB1 gB2 l1 l2 pd agg c1 c2 u1 u2 h
  · intro p1 p2 gA gB1 gB2 l1 l2 pd agg c1 c2 u1 u2 h
    exact playGameB_preserves p1 p2 gA gB1 gB2 l1 l2 pd agg c1 c2 u1 u2 h

/-- Witness for C9: a concrete Game-A and Game-B interaction on a
well-formed dictionary keeps agent 5 well-formed and keeps its type. -/
theorem claim_C9_witness :
    actionsOK (playGameA 1 2 GameA_PAYOFFMAT (GameB1_PAYOFFMAT 1) (GameB2_PAYOFFMAT 1)
      [1] [1] pdAllT1 (initRoundAgg (1/20)) (fun _ => 1) (fun _ => 1) (1/2) (1/2) 5)
    ∧ (playGameB 1 2 GameA_PAYOFFMAT (GameB1_PAYOFFMAT 1) (GameB2_PAYOFFMAT 1)
      [1] [1] pdAllT1 (initRoundAgg (1/20)) (fun _ => 1) (fun _ => 1) (1/2) (1/2) 5).playertype
      = (pdAllT1 5).playertype := by
  have hok : ∀ i, actionsOK (pdAllT1 i) := by
    intro i
    exact ⟨Or.inl rfl, Or.inl rfl, Or.inl rfl, Or.inl rfl⟩
  constructor
  · exact (claim_C9_action_invariant.2.2.2.1 1 2 GameA_PAYOFFMAT (GameB1_PAYOFFMAT 1)
      (GameB2_PAYOFFMAT 1) [1] [1] pdAllT1 (initRoundAgg (1/20))
      (fun _ => 1) (fun _ => 1) (1/2) (1/2) hok).1 5
  · exact (claim_C9_action_invariant.2.2.2.2 1 2 GameA_PAYOFFMAT (GameB1_PAYOFFMAT 1)
      (GameB2_PAYOFFMAT 1) [1] [1] pdAllT1 (initRoundAgg (1/20))
      (fun _ => 1) (fun _ => 1) (1/2) (1/2) hok).2 5

/-- Each joint counter of the conditional frequencies is bounded by its
conditioning counter: the joint condition implies the conditioning one. -/
theorem countOtherPlay_le (pd : Nat → SimplePlayer) (t o b : Nat) :
    (List.range' 1 (POPSIZE - 1)).countP (fun z => condOtherPlay t o b (pd z)) ≤
    (List.range' 1 (POPSIZE - 1)).countP (fun z => condOther t o (pd z)) := by
  refine List.countP_mono_left (fun z _ h => ?_)
  simp only [condOtherPlay, Bool.and_eq_true, beq_iff_eq] at h
  simp [condOther, h.1.1, h.1.2]

/-- A scanned count whose condition entails membership in type `t` is
bounded by the number of type-`t` players over the full index range
1 .. POPSIZE. -/
theorem countCond_le_numType (pd : Nat → SimplePlayer) (t : Nat)
    (cond : SimplePlayer → Bool) (hc : ∀ p, cond p = true → p.playertype = t) :
    (List.range' 1 (POPSIZE - 1)).countP (fun z => cond (pd z)) ≤
    (List.range' 1 POPSIZE).countP (fun z => (pd z).playertype == t) := by
  have hstep : (List.range' 1 (POPSIZE - 1)).countP (fun z => cond (pd z)) ≤
      (List.range' 1 (POPSIZE - 1)).countP (fun z => (pd z).playertype == t) := by
    refine List.countP_mono_left (fun z _ h => ?_)
    simp [hc (pd z) h]
  have hfull : (List.range' 1 (POPSIZE - 1)).countP (fun z => (pd z).playertype == t) ≤
      (List.range' 1 POPSIZE).countP (fun z => (pd z).playertype == t) := by
    rw [range'_POPSIZE_concat, List.countP_append]
    exact Nat.le_add_right _ _
  exact le_trans hstep hfull

/-- When the excluded agent (index POPSIZE) is not of type `t`, the
scanned type-`t` count over 1 .. POPSIZE−1 equals the full count over
1 .. POPSIZE. -/
theorem count_type_full (pd : Nat → SimplePlayer) (t : Nat)
    (hlast : (pd POPSIZE).playertype ≠ t) :
    (List.range' 1 (POPSIZE - 1)).countP (fun z => (pd z).playertype == t) =
    (List.range' 1 POPSIZE).countP (fun z => (pd z).playertype == t) := by
  rw [range'_POPSIZE_concat, List.countP_append]
  simp [hlast]

/-- Splitting a type-`t` count by the two possible values of a
well-formed action field: the action-1 and action-2 counts of type `t`
sum to the type-`t` count over the scanned range. -/
theorem countPlayA_split (pd : Nat → SimplePlayer) (t : Nat)
    (hact : ∀ z, (pd z).lastActionA = 1 ∨ (pd z).lastActionA = 2) :
    (List.range' 1 (POPSIZE - 1)).countP (fun z => condPlayA t 1 (pd z))
      + (List.range' 1 (POPSIZE - 1)).countP (fun z => condPlayA t 2 (pd z))
    = (List.range' 1 (POPSIZE - 1)).countP (fun z => (pd z).playertype == t) := by
  refine countP_split _ _ _ _ (fun z _ => ⟨?_, ?_⟩)
  · rcases hact z with h | h <;>
      by_cases hp : (pd z).playertype = t <;>
        simp [condPlayA, h, hp]
  · rcases hact z with h | h <;> simp [condPlayA, h]

/-- The analogue of `countPlayA_split` for the Game-B action field. -/
theorem countPlayB_split (pd : Nat → SimplePlayer) (t : Nat)
    (hact : ∀ z, (pd z).lastActionB = 1 ∨ (pd z).lastActionB = 2) :
    (List.range' 1 (POPSIZE - 1)).countP (fun z => condPlayB t 1 (pd z))
      + (List.range' 1 (POPSIZE - 1)).countP (fun z => condPlayB t 2 (pd z))
    = (List.range' 1 (POPSIZE - 1)).countP (fun z => (pd z).playertype == t) := by
  refine countP_split _ _ _ _ (fun z _ => ⟨?_, ?_⟩)
  · rcases hact z with h | h <;>
      by_cases hp : (pd z).playertype = t <;>
        simp [condPlayB, h, hp]
  · rcases hact z with h | h <;> simp [condPlayB, h]

/-- Two safe divisions by the same nonzero denominator whose numerators
sum to the denominator sum to 1. -/
theorem divide_add_divide_self (a b : Nat) (n : Nat) (hn : n ≠ 0)
    (hab : a + b = n) :
    divide (a : ℚ) (n : ℚ) + divide (b : ℚ) (n : ℚ) = 1 := by
  have hq : ((n : ℚ)) ≠ 0 := Nat.cast_ne_zero.mpr hn
  unfold divide
  rw [if_neg hq, if_neg hq, div_add_div_same]
  rw [show ((a : ℚ) + (b : ℚ)) = ((n : ℚ)) by exact_mod_cast congrArg (Nat.cast : Nat → ℚ) hab]
  exact div_self hq

/-- All 24 fields of a belief snapshot lie in the unit interval. -/
def aggInUnit (r : RoundAgg) : Prop :=
  (0 ≤ r.proptype1otherA1playB1 ∧ r.proptype1otherA1playB1 ≤ 1)
  ∧ (0 ≤ r.proptype1otherA1playB2 ∧ r.proptype1otherA1playB2 ≤ 1)
  ∧ (0 ≤ r.proptype1otherA2playB1 ∧ r.proptype1otherA2playB1 ≤ 1)
  ∧ (0 ≤ r.proptype1otherA2playB2 ∧ r.proptype1otherA2playB2 ≤ 1)
  ∧ (0 ≤ r.proptype2otherA1playB1 ∧ r.proptype2otherA1playB1 ≤ 1)
  ∧ (0 ≤ r.proptype2otherA1playB2 ∧ r.proptype2otherA1playB2 ≤ 1)
  ∧ (0 ≤ r.proptype2otherA2playB1 ∧ r.proptype2otherA2playB1 ≤ 1)
  ∧ (0 ≤ r.proptype2otherA2playB2 ∧ r.proptype2otherA2playB2 ≤ 1)
  ∧ (0 ≤ r.Type1PlayingA1 ∧ r.Type1PlayingA1 ≤ 1)
  ∧ (0 ≤ r.Type1PlayingA2 ∧ r.Type1PlayingA2 ≤ 1)
  ∧ (0 ≤ r.Type2PlayingA1 ∧ r.Type2PlayingA1 ≤ 1)
  ∧ (0 ≤ r.Type2PlayingA2 ∧ r.Type2PlayingA2 ≤ 1)
  ∧ (0 ≤ r.Type1PlayingB1 ∧ r.Type1PlayingB1 ≤ 1)
  ∧ (0 ≤ r.Type1PlayingB2 ∧ r.Type1PlayingB2 ≤ 1)
  ∧ (0 ≤ r.Type2PlayingB1 ∧ r.Type2PlayingB1 ≤ 1)
  ∧ (0 ≤ r.Type2PlayingB2 ∧ r.Type2PlayingB2 ≤ 1)
  ∧ (0 ≤ r.PropPlayingA1 ∧ r.PropPlayingA1 ≤ 1)
  ∧ (0 ≤ r.PropPlayingA2 ∧ r.PropPlayingA2 ≤ 1)
  ∧ (0 ≤ r.PropPlayingB1 ∧ r.PropPlayingB1 ≤ 1)
  ∧ (0 ≤ r.PropPlayingB2 ∧ r.PropPlayingB2 ≤ 1)
  ∧ (0 ≤ r.ProbType1GivenA1 ∧ r.ProbType1GivenA1 ≤ 1)
  ∧ (0 ≤ r.ProbType2GivenA1 ∧ r.ProbType2GivenA1 ≤ 1)
  ∧ (0 ≤ r.ProbType1GivenA2 ∧ r.ProbType1GivenA2 ≤ 1)
  ∧ (0 ≤ r.ProbType2GivenA2 ∧ r.ProbType2GivenA2 ≤ 1)

set_option maxRecDepth 100000 in
set_option maxHeartbeats 2000000 in
/-- Claim C2, amended: with `numType1`/`numType2` the true per-type
counts over indices 1 .. POPSIZE and every agent's game actions in
{1, 2}, every frequency-valued field of the snapshot computed by
`countAggs` lies in [0, 1]; for each fixed type and game, the two action
frequencies sum to exactly 1 whenever that type's count is nonzero AND
the excluded agent (index POPSIZE) is not of that type (the original
claim omitted the second condition — `countAggs` scans only
1 .. POPSIZE−1 while the denominator counts 1 .. POPSIZE); and both
frequencies are 0 when that type's count is zero. -/
theorem claim_C2_amended (pd : Nat → SimplePlayer) (n1 n2 : Nat)
    (h1 : n1 = (List.range' 1 POPSIZE).countP (fun z => (pd z).playertype == 1))
    (h2 : n2 = (List.range' 1 POPSIZE).countP (fun z => (pd z).playertype == 2))
    (hactA : ∀ z, (pd z).lastActionA = 1 ∨ (pd z).lastActionA = 2)
    (hactB : ∀ z, (pd z).lastActionB = 1 ∨ (pd z).lastActionB = 2) :
    aggInUnit (countAggs pd n1 n2)
    ∧ (n1 ≠ 0 → (pd POPSIZE).playertype ≠ 1 →
        (countAggs pd n1 n2).Type1PlayingA1 + (countAggs pd n1 n2).Type1PlayingA2 = 1
        ∧ (countAggs pd n1 n2).Type1PlayingB1 + (countAggs pd n1 n2).Type1PlayingB2 = 1)
    ∧ (n2 ≠ 0 → (pd POPSIZE).playertype ≠ 2 →
        (countAggs pd n1 n2).Type2PlayingA1 + (countAggs pd n1 n2).Type2PlayingA2 = 1
        ∧ (countAggs pd n1 n2).Type2PlayingB1 + (countAggs pd n1 n2).Type2PlayingB2 = 1)
    ∧ (n1 = 0 →
        (countAggs pd n1 n2).Type1PlayingA1 = 0 ∧ (countAggs pd n1 n2).Type1PlayingA2 = 0
        ∧ (countAggs pd n1 n2).Type1PlayingB1 = 0 ∧ (countAggs pd n1 n2).Type1PlayingB2 = 0)
    ∧ (n2 = 0 →
        (countAggs pd n1 n2).Type2PlayingA1 = 0 ∧ (countAggs pd n1 n2).Type2PlayingA2 = 0
        ∧ (countAggs pd n1 n2).Type2PlayingB1 = 0 ∧ (countAggs pd n1 n2).Type2PlayingB2 = 0) := by
  have hpt1 : (0 : ℚ) ≤ PROPTYPE1 := by norm_num [PROPTYPE1]
  have hpt2 : (0 : ℚ) ≤ PROPTYPE2 := by norm_num [PROPTYPE2, PROPTYPE1]
  have hps : PROPTYPE1 + PROPTYPE2 = 1 := by rw [PROPTYPE2]; ring
  have hle_proptype1otherA1playB1 : ((countsLoop pd).numtype1otherA1playB1 : ℚ) ≤ ((countsLoop pd).numtype1otherA1 : ℚ) := by
    rw [countsLoop_numtype1otherA1playB1, countsLoop_numtype1otherA1]
    exact_mod_cast countOtherPlay_le pd 1 1 1
  have u_proptype1otherA1playB1 : 0 ≤ divide ((countsLoop pd).numtype1otherA1playB1 : ℚ) ((countsLoop pd).numtype1otherA1 : ℚ) ∧ divide ((countsLoop pd).numtype1otherA1playB1 : ℚ) ((countsLoop pd).numtype1otherA1 : ℚ) ≤ 1 :=
    divide_mem_unit _ _ (Nat.cast_nonneg _) hle_proptype1otherA1playB1
  have hle_proptype1otherA1playB2 : ((countsLoop pd).numtype1otherA1playB2 : ℚ) ≤ ((countsLoop pd).numtype1otherA1 : ℚ) := by
    rw [countsLoop_numtype1otherA1playB2, countsLoop_numtype1otherA1]
    exact_mod_cast countOtherPlay_le pd 1 1 2
  have u_proptype1otherA1playB2 : 0 ≤ divide ((countsLoop pd).numtype1otherA1playB2 : ℚ) ((countsLoop pd).numtype1otherA1 : ℚ) ∧ divide ((countsLoop pd).numtype1otherA1playB2 : ℚ) ((countsLoop pd).numtype1otherA1 : ℚ) ≤ 1 :=
    divide_mem_unit _ _ (Nat.cast_nonneg _) hle_proptype1otherA1playB2
  have hle_proptype1otherA2playB1 : ((countsLoop pd).numtype1otherA2playB1 : ℚ) ≤ ((countsLoop pd).numtype1otherA2 : ℚ) := by
    rw [countsLoop_numtype1otherA2playB1, countsLoop_numtype1otherA2]
    exact_mod_cast countOtherPlay_le pd 1 2 1
  have u_proptype1otherA2playB1 : 0 ≤ divide ((countsLoop pd).numtype1otherA2playB1 : ℚ) ((countsLoop pd).numtype1otherA2 : ℚ) ∧ divide ((countsLoop pd).numtype1otherA2playB1 : ℚ) ((countsLoop pd).numtype1otherA2 : ℚ) ≤ 1 :=
    divide_mem_unit _ _ (Nat.cast_nonneg _) hle_proptype1otherA2playB1
  have hle_proptype1otherA2playB2 : ((countsLoop pd).numtype1otherA2playB2 : ℚ) ≤ ((countsLoop pd).numtype1otherA2 : ℚ) := by
    rw [countsLoop_numtype1otherA2playB2, countsLoop_numtype1otherA2]
    exact_mod_cast countOtherPlay_le pd 1 2 2
  have u_proptype1otherA2playB2 : 0 ≤ divide ((countsLoop pd).numtype1otherA2playB2 : ℚ) ((countsLoop pd).numtype1otherA2 : ℚ) ∧ divide ((countsLoop pd).numtype1otherA2playB2 : ℚ) ((countsLoop pd).numtype1otherA2 : ℚ) ≤ 1 :=
    divide_mem_unit _ _ (Nat.cast_nonneg _) hle_proptype1otherA2playB2
  have hle_proptype2otherA1playB1 : ((countsLoop pd).numtype2otherA1playB1 : ℚ) ≤ ((countsLoop pd).numtype2otherA1 : ℚ) := by
    rw [countsLoop_numtype2otherA1playB1, countsLoop_numtype2otherA1]
    exact_mod_cast countOtherPlay_le pd 2 1 1
  have u_proptype2otherA1playB1 : 0 ≤ divide ((countsLoop pd).numtype2otherA1playB1 : ℚ) ((countsLoop pd).numtype2otherA1 : ℚ) ∧ divide ((countsLoop pd).numtype2otherA1playB1 : ℚ) ((countsLoop pd).numtype2otherA1 : ℚ) ≤ 1 :=
    divide_mem_unit _ _ (Nat.cast_nonneg _) hle_proptype2otherA1playB1
  have hle_proptype2otherA1playB2 : ((countsLoop pd).numtype2otherA1playB2 : ℚ) ≤ ((countsLoop pd).numtype2otherA1 : ℚ) := by
    rw [countsLoop_numtype2otherA1playB2, countsLoop_numtype2otherA1]
    exact_mod_cast countOtherPlay_le pd 2 1 2
  have u_proptype2otherA1playB2 : 0 ≤ divide ((countsLoop pd).numtype2otherA1playB2 : ℚ) ((countsLoop pd).numtype2otherA1 : ℚ) ∧ divide ((countsLoop pd).numtype2otherA1playB2 : ℚ) ((countsLoop pd).numtype2otherA1 : ℚ) ≤ 1 :=
    divide_mem_unit _ _ (Nat.cast_nonneg _) hle_proptype2otherA1playB2
  have hle_proptype2otherA2playB1 : ((countsLoop pd).numtype2otherA2playB1 : ℚ) ≤ ((countsLoop pd).numtype2otherA2 : ℚ) := by
    rw [countsLoop_numtype2otherA2playB1, countsLoop_numtype2otherA2]
    exact_mod_cast countOtherPlay_le pd 2 2 1
  have u_proptype2otherA2playB1 : 0 ≤ divide ((countsLoop pd).numtype2otherA2playB1 : ℚ) ((countsLoop pd).numtype2otherA2 : ℚ) ∧ divide ((countsLoop pd).numtype2otherA2playB1 : ℚ) ((countsLoop pd).numtype2otherA2 : ℚ) ≤ 1 :=
    divide_mem_unit _ _ (Nat.cast_nonneg _) hle_proptype2otherA2playB1
  have hle_proptype2otherA2playB2 : ((countsLoop pd).numtype2otherA2playB2 : ℚ) ≤ ((countsLoop pd).numtype2otherA2 : ℚ) := by
    rw [countsLoop_numtype2otherA2playB2, countsLoop_numtype2otherA2]
    exact_mod_cast countOtherPlay_le pd 2 2 2
  have u_proptype2otherA2playB2 : 0 ≤ divide ((countsLoop pd).numtype2otherA2playB2 : ℚ) ((countsLoop pd).numtype2otherA2 : ℚ) ∧ divide ((countsLoop pd).numtype2otherA2playB2 : ℚ) ((countsLoop pd).numtype2otherA2 : ℚ) ≤ 1 :=
    divide_mem_unit _ _ (Nat.cast_nonneg _) hle_proptype2otherA2playB2
  have hle_Type1PlayingA1 : ((countsLoop pd).numType1PlayingA1 : ℚ) ≤ (n1 : ℚ) := by
    rw [countsLoop_numType1PlayingA1, h1]
    exact_mod_cast countCond_le_numType pd 1 (condPlayA 1 1) (fun p hp => by
      simp only [condPlayA, condPlayB, Bool.and_eq_true, beq_iff_eq] at hp
      exact hp.1)
  have u_Type1PlayingA1 : 0 ≤ divide ((countsLoop pd).numType1PlayingA1 : ℚ) (n1 : ℚ) ∧ divide ((countsLoop pd).numType1PlayingA1 : ℚ) (n1 : ℚ) ≤ 1 :=
    divide_mem_unit _ _ (Nat.cast_nonneg _) hle_Type1PlayingA1
  have hle_Type1PlayingA2 : ((countsLoop pd).numType1PlayingA2 : ℚ) ≤ (n1 : ℚ) := by
    rw [countsLoop_numType1PlayingA2, h1]
    exact_mod_cast countCond_le_numType pd 1 (condPlayA 1 2) (fun p hp => by
      simp only [condPlayA, condPlayB, Bool.and_eq_true, beq_iff_eq] at hp
      exact hp.1)
  have u_Type1PlayingA2 : 0 ≤ divide ((countsLoop pd).numType1PlayingA2 : ℚ) (n1 : ℚ) ∧ divide ((countsLoop pd).numType1PlayingA2 : ℚ) (n1 : ℚ) ≤ 1 :=
    divide_mem_unit _ _ (Nat.cast_nonneg _) hle_Type1PlayingA2
  have hle_Type2PlayingA1 : ((countsLoop pd).numType2PlayingA1 : ℚ) ≤ (n2 : ℚ) := by
    rw [countsLoop_numType2PlayingA1, h2]
    exact_mod_cast countCond_le_numType pd 2 (condPlayA 2 1) (fun p hp => by
      simp only [condPlayA, condPlayB, Bool.and_eq_true, beq_iff_eq] at hp
      exact hp.1)
  have u_Type2PlayingA1 : 0 ≤ divide ((countsLoop pd).numType2PlayingA1 : ℚ) (n2 : ℚ) ∧ divide ((countsLoop pd).numType2PlayingA1 : ℚ) (n2 : ℚ) ≤ 1 :=
    divide_mem_unit _ _ (Nat.cast_nonneg _) hle_Type2PlayingA1
  have hle_Type2PlayingA2 : ((countsLoop pd).numType2PlayingA2 : ℚ) ≤ (n2 : ℚ) := by
    rw [countsLoop_numType2PlayingA2, h2]
    exact_mod_cast countCond_le_numType pd 2 (condPlayA 2 2) (fun p hp => by
      simp only [condPlayA, condPlayB, Bool.and_eq_true, beq_iff_eq] at hp
      exact hp.1)
  have u_Type2PlayingA2 : 0 ≤ divide ((countsLoop pd).numType2PlayingA2 : ℚ) (n2 : ℚ) ∧ divide ((countsLoop pd).numType2PlayingA2 : ℚ) (n2 : ℚ) ≤ 1 :=
    divide_mem_unit _ _ (Nat.cast_nonneg _) hle_Type2PlayingA2
  have hle_Type1PlayingB1 : ((countsLoop pd).numType1PlayingB1 : ℚ) ≤ (n1 : ℚ) := by
    rw [countsLoop_numType1PlayingB1, h1]
    exact_mod_cast countCond_le_numType pd 1 (condPlayB 1 1) (fun p hp => by
      simp only [condPlayA, condPlayB, Bool.and_eq_true, beq_iff_eq] at hp
      exact hp.1)
  have u_Type1PlayingB1 : 0 ≤ divide ((countsLoop pd).numType1PlayingB1 : ℚ) (n1 : ℚ) ∧ divide ((countsLoop pd).numType1PlayingB1 : ℚ) (n1 : ℚ) ≤ 1 :=
    divide_mem_unit _ _ (Nat.cast_nonneg _) hle_Type1PlayingB1
  have hle_Type1PlayingB2 : ((countsLoop pd).numType1PlayingB2 : ℚ) ≤ (n1 : ℚ) := by
    rw [countsLoop_numType1PlayingB2, h1]
    exact_mod_cast countCond_le_numType pd 1 (condPlayB 1 2) (fun p hp => by
      simp only [condPlayA, condPlayB, Bool.and_eq_true, beq_iff_eq] at hp
      exact hp.1)
  have u_Type1PlayingB2 : 0 ≤ divide ((countsLoop pd).numType1PlayingB2 : ℚ) (n1 : ℚ) ∧ divide ((countsLoop pd).numType1PlayingB2 : ℚ) (n1 : ℚ) ≤ 1 :=
    divide_mem_unit _ _ (Nat.cast_nonneg _) hle_Type1PlayingB2
  have hle_Type2PlayingB1 : ((countsLoop pd).numType2PlayingB1 : ℚ) ≤ (n2 : ℚ) := by
    rw [countsLoop_numType2PlayingB1, h2]
    exact_mod_cast countCond_le_numType pd 2 (condPlayB 2 1) (fun p hp => by
      simp only [condPlayA, condPlayB, Bool.and_eq_true, beq_iff_eq] at hp
      exact hp.1)
  have u_Type2PlayingB1 : 0 ≤ divide ((countsLoop pd).numType2PlayingB1 : ℚ) (n2 : ℚ) ∧ divide ((countsLoop pd).numType2PlayingB1 : ℚ) (n2 : ℚ) ≤ 1 :=
    divide_mem_unit _ _ (Nat.cast_nonneg _) hle_Type2PlayingB1
  have hle_Type2PlayingB2 : ((countsLoop pd).numType2PlayingB2 : ℚ) ≤ (n2 : ℚ) := by
    rw [countsLoop_numType2PlayingB2, h2]
    exact_mod_cast countCond_le_numType pd 2 (condPlayB 2 2) (fun p hp => by
      simp only [condPlayA, condPlayB, Bool.and_eq_true, beq_iff_eq] at hp
      exact hp.1)
  have u_Type2PlayingB2 : 0 ≤ divide ((countsLoop pd).numType2PlayingB2 : ℚ) (n2 : ℚ) ∧ divide ((countsLoop pd).numType2PlayingB2 : ℚ) (n2 : ℚ) ≤ 1 :=
    divide_mem_unit _ _ (Nat.cast_nonneg _) hle_Type2PlayingB2
  have u_PropPlayingA1 : 0 ≤ divide ((countsLoop pd).numType1PlayingA1 : ℚ) (n1 : ℚ) * PROPTYPE1 + divide ((countsLoop pd).numType2PlayingA1 : ℚ) (n2 : ℚ) * PROPTYPE2 ∧ divide ((countsLoop pd).numType1PlayingA1 : ℚ) (n1 : ℚ) * PROPTYPE1 + divide ((countsLoop pd).numType2PlayingA1 : ℚ) (n2 : ℚ) * PROPTYPE2 ≤ 1 := by
    constructor
    · exact add_nonneg (mul_nonneg u_Type1PlayingA1.1 hpt1) (mul_nonneg u_Type2PlayingA1.1 hpt2)
    · exact le_of_le_of_eq
        (add_le_add (mul_le_of_le_one_left hpt1 u_Type1PlayingA1.2)
          (mul_le_of_le_one_left hpt2 u_Type2PlayingA1.2)) hps
  have u_PropPlayingA2 : 0 ≤ divide ((countsLoop pd).numType1PlayingA2 : ℚ) (n1 : ℚ) * PROPTYPE1 + divide ((countsLoop pd).numType2PlayingA2 : ℚ) (n2 : ℚ) * PROPTYPE2 ∧ divide ((countsLoop pd).numType1PlayingA2 : ℚ) (n1 : ℚ) * PROPTYPE1 + divide ((countsLoop pd).numType2PlayingA2 : ℚ) (n2 : ℚ) * PROPTYPE2 ≤ 1 := by
    constructor
    · exact add_nonneg (mul_nonneg u_Type1PlayingA2.1 hpt1) (mul_nonneg u_Type2PlayingA2.1 hpt2)
    · exact le_of_le_of_eq
        (add_le_add (mul_le_of_le_one_left hpt1 u_Type1PlayingA2.2)
          (mul_le_of_le_one_left hpt2 u_Type2PlayingA2.2)) hps
  have u_PropPlayingB1 : 0 ≤ divide ((countsLoop pd).numType1PlayingB1 : ℚ) (n1 : ℚ) * PROPTYPE1 + divide ((countsLoop pd).numType2PlayingB1 : ℚ) (n2 : ℚ) * PROPTYPE2 ∧ divide ((countsLoop pd).numType1PlayingB1 : ℚ) (n1 : ℚ) * PROPTYPE1 + divide ((countsLoop pd).numType2PlayingB1 : ℚ) (n2 : ℚ) * PROPTYPE2 ≤ 1 := by
    constructor
    · exact add_nonneg (mul_nonneg u_Type1PlayingB1.1 hpt1) (mul_nonneg u_Type2PlayingB1.1 hpt2)
    · exact le_of_le_of_eq
        (add_le_add (mul_le_of_le_one_left hpt1 u_Type1PlayingB1.2)
          (mul_le_of_le_one_left hpt2 u_Type2PlayingB1.2)) hps
  have u_PropPlayingB2 : 0 ≤ divide ((countsLoop pd).numType1PlayingB2 : ℚ) (n1 : ℚ) * PROPTYPE1 + divide ((countsLoop pd).numType2PlayingB2 : ℚ) (n2 : ℚ) * PROPTYPE2 ∧ divide ((countsLoop pd).numType1PlayingB2 : ℚ) (n1 : ℚ) * PROPTYPE1 + divide ((countsLoop pd).numType2PlayingB2 : ℚ) (n2 : ℚ) * PROPTYPE2 ≤ 1 := by
    constructor
    · exact add_nonneg (mul_nonneg u_Type1PlayingB2.1 hpt1) (mul_nonneg u_Type2PlayingB2.1 hpt2)
    · exact le_of_le_of_eq
        (add_le_add (mul_le_of_le_one_left hpt1 u_Type1PlayingB2.2)
          (mul_le_of_le_one_left hpt2 u_Type2PlayingB2.2)) hps
  have u_ProbType1GivenA1 : 0 ≤ divide (PROPTYPE1 * (divide ((countsLoop pd).numType1PlayingA1 : ℚ) (n1 : ℚ))) (PROPTYPE1 * (divide ((countsLoop pd).numType1PlayingA1 : ℚ) (n1 : ℚ)) + PROPTYPE2 * (divide ((countsLoop pd).numType2PlayingA1 : ℚ) (n2 : ℚ))) ∧ divide (PROPTYPE1 * (divide ((countsLoop pd).numType1PlayingA1 : ℚ) (n1 : ℚ))) (PROPTYPE1 * (divide ((countsLoop pd).numType1PlayingA1 : ℚ) (n1 : ℚ)) + PROPTYPE2 * (divide ((countsLoop pd).numType2PlayingA1 : ℚ) (n2 : ℚ))) ≤ 1 :=
    divide_mem_unit _ _ (mul_nonneg hpt1 u_Type1PlayingA1.1) (le_add_of_nonneg_right (mul_nonneg hpt2 u_Type2PlayingA1.1))
  have u_ProbType2GivenA1 : 0 ≤ divide (PROPTYPE2 * (divide ((countsLoop pd).numType2PlayingA1 : ℚ) (n2 : ℚ))) (PROPTYPE1 * (divide ((countsLoop pd).numType1PlayingA1 : ℚ) (n1 : ℚ)) + PROPTYPE2 * (divide ((countsLoop pd).numType2PlayingA1 : ℚ) (n2 : ℚ))) ∧ divide (PROPTYPE2 * (divide ((countsLoop pd).numType2PlayingA1 : ℚ) (n2 : ℚ))) (PROPTYPE1 * (divide ((countsLoop pd).numType1PlayingA1 : ℚ) (n1 : ℚ)) + PROPTYPE2 * (divide ((countsLoop pd).numType2PlayingA1 : ℚ) (n2 : ℚ))) ≤ 1 :=
    divide_mem_unit _ _ (mul_nonneg hpt2 u_Type2PlayingA1.1) (le_add_of_nonneg_left (mul_nonneg hpt1 u_Type1PlayingA1.1))
  have u_ProbType1GivenA2 : 0 ≤ divide (PROPTYPE1 * (divide ((countsLoop pd).numType1PlayingA2 : ℚ) (n1 : ℚ))) (PROPTYPE1 * (divide ((countsLoop pd).numType1PlayingA2 : ℚ) (n1 : ℚ)) + PROPTYPE2 * (divide ((countsLoop pd).numType2PlayingA2 : ℚ) (n2 : ℚ))) ∧ divide (PROPTYPE1 * (divide ((countsLoop pd).numType1PlayingA2 : ℚ) (n1 : ℚ))) (PROPTYPE1 * (divide ((countsLoop pd).numType1PlayingA2 : ℚ) (n1 : ℚ)) + PROPTYPE2 * (divide ((countsLoop pd).numType2PlayingA2 : ℚ) (n2 : ℚ))) ≤ 1 :=
    divide_mem_unit _ _ (mul_nonneg hpt1 u_Type1PlayingA2.1) (le_add_of_nonneg_right (mul_nonneg hpt2 u_Type2PlayingA2.1))
  have u_ProbType2GivenA2 : 0 ≤ divide (PROPTYPE2 * (divide ((countsLoop pd).numType2PlayingA2 : ℚ) (n2 : ℚ))) (PROPTYPE1 * (divide ((countsLoop pd).numType1PlayingA2 : ℚ) (n1 : ℚ)) + PROPTYPE2 * (divide ((countsLoop pd).numType2PlayingA2 : ℚ) (n2 : ℚ))) ∧ divide (PROPTYPE2 * (divide ((countsLoop pd).numType2PlayingA2 : ℚ) (n2 : ℚ))) (PROPTYPE1 * (divide ((countsLoop pd).numType1PlayingA2 : ℚ) (n1 : ℚ)) + PROPTYPE2 * (divide ((countsLoop pd).numType2PlayingA2 : ℚ) (n2 : ℚ))) ≤ 1 :=
    divide_mem_unit _ _ (mul_nonneg hpt2 u_Type2PlayingA2.1) (le_add_of_nonneg_left (mul_nonneg hpt1 u_Type1PlayingA2.1))
  refine ⟨⟨u_proptype1otherA1playB1, u_proptype1otherA1playB2, u_proptype1otherA2playB1, u_proptype1otherA2playB2, u_proptype2otherA1playB1, u_proptype2otherA1playB2, u_proptype2otherA2playB1, u_proptype2otherA2playB2, u_Type1PlayingA1, u_Type1PlayingA2, u_Type2PlayingA1, u_Type2PlayingA2, u_Type1PlayingB1, u_Type1PlayingB2, u_Type2PlayingB1, u_Type2PlayingB2, u_PropPlayingA1, u_PropPlayingA2, u_PropPlayingB1, u_PropPlayingB2, u_ProbType1GivenA1, u_ProbType2GivenA1, u_ProbType1GivenA2, u_ProbType2GivenA2⟩, ?_, ?_, ?_, ?_⟩
  · intro hn hlast
    constructor
    · show divide ((countsLoop pd).numType1PlayingA1 : ℚ) (n1 : ℚ) + divide ((countsLoop pd).numType1PlayingA2 : ℚ) (n1 : ℚ) = 1
      refine divide_add_divide_self _ _ n1 hn ?_
      rw [countsLoop_numType1PlayingA1, countsLoop_numType1PlayingA2, h1]
      rw [countPlayA_split pd 1 hactA]
      exact count_type_full pd 1 hlast
    · show divide ((countsLoop pd).numType1PlayingB1 : ℚ) (n1 : ℚ) + divide ((countsLoop pd).numType1PlayingB2 : ℚ) (n1 : ℚ) = 1
      refine divide_add_divide_self _ _ n1 hn ?_
      rw [countsLoop_numType1PlayingB1, countsLoop_numType1PlayingB2, h1]
      rw [countPlayB_split pd 1 hactB]
      exact count_type_full pd 1 hlast
  · intro hn hlast
    constructor
    · show divide ((countsLoop pd).numType2PlayingA1 : ℚ) (n2 : ℚ) + divide ((countsLoop pd).numType2PlayingA2 : ℚ) (n2 : ℚ) = 1
      refine divide_add_divide_self _ _ n2 hn ?_
      rw [countsLoop_numType2PlayingA1, countsLoop_numType2PlayingA2, h2]
      rw [countPlayA_split pd 2 hactA]
      exact count_type_full pd 2 hlast
    · show divide ((countsLoop pd).numType2PlayingB1 : ℚ) (n2 : ℚ) + divide ((countsLoop pd).numType2PlayingB2 : ℚ) (n2 : ℚ) = 1
      refine divide_add_divide_self _ _ n2 hn ?_
      rw [countsLoop_numType2PlayingB1, countsLoop_numType2PlayingB2, h2]
      rw [countPlayB_split pd 2 hactB]
      exact count_type_full pd 2 hlast
  · intro h0
    refine ⟨?_, ?_, ?_, ?_⟩
    · show divide ((countsLoop pd).numType1PlayingA1 : ℚ) (n1 : ℚ) = 0
      rw [h0]
      norm_num [divide]
    · show divide ((countsLoop pd).numType1PlayingA2 : ℚ) (n1 : ℚ) = 0
      rw [h0]
      norm_num [divide]
    · show divide ((countsLoop pd).numType1PlayingB1 : ℚ) (n1 : ℚ) = 0
      rw [h0]
      norm_num [divide]
    · show divide ((countsLoop pd).numType1PlayingB2 : ℚ) (n1 : ℚ) = 0
      rw [h0]
      norm_num [divide]
  · intro h0
    refine ⟨?_, ?_, ?_, ?_⟩
    · show divide ((countsLoop pd).numType2PlayingA1 : ℚ) (n2 : ℚ) = 0
      rw [h0]
      norm_num [divide]
    · show divide ((countsLoop pd).numType2PlayingA2 : ℚ) (n2 : ℚ) = 0
      rw [h0]
      norm_num [divide]
    · show divide ((countsLoop pd).numType2PlayingB1 : ℚ) (n2 : ℚ) = 0
      rw [h0]
      norm_num [divide]
    · show divide ((countsLoop pd).numType2PlayingB2 : ℚ) (n2 : ℚ) = 0
      rw [h0]
      norm_num [divide]

/-- A dictionary whose only Type-1 player sits at the excluded index
POPSIZE = 1000. -/
def pdLastT1 : Nat → SimplePlayer := fun z => if z = 1000 then sampleT1 else sampleT2

/-- `pdLastT1` has exactly one Type-1 player among indices 1..POPSIZE. -/
theorem pdLastT1_count1 :
    (List.range' 1 POPSIZE).countP (fun z => (pdLastT1 z).playertype == 1) = 1 := by
  rw [range'_POPSIZE_concat, List.countP_append]
  have hz : (List.range' 1 (POPSIZE - 1)).countP (fun z => (pdLastT1 z).playertype == 1) = 0 := by
    refine List.countP_eq_zero.mpr (fun a ha => ?_)
    have hb := List.mem_range'_1.mp ha
    have hpop : POPSIZE = 1000 := rfl
    have hne : a ≠ 1000 := by omega
    simp [pdLastT1, hne, sampleT2]
  rw [hz]
  have hpop : POPSIZE = 1000 := rfl
  simp [hpop, pdLastT1, sampleT1]

/-- `pdLastT1` has 999 Type-2 players among indices 1..POPSIZE. -/
theorem pdLastT1_count2 :
    (List.range' 1 POPSIZE).countP (fun z => (pdLastT1 z).playertype == 2) = 999 := by
  rw [range'_POPSIZE_concat, List.countP_append]
  have hz : (List.range' 1 (POPSIZE - 1)).countP (fun z => (pdLastT1 z).playertype == 2)
      = (List.range' 1 (POPSIZE - 1)).length := by
    refine List.countP_eq_length.mpr (fun a ha => ?_)
    have hb := List.mem_range'_1.mp ha
    have hpop : POPSIZE = 1000 := rfl
    have hne : a ≠ 1000 := by omega
    simp [pdLastT1, hne, sampleT2]
  rw [hz, List.length_range']
  have hpop : POPSIZE = 1000 := rfl
  simp [hpop, pdLastT1, sampleT1]

/-- Every action field of `pdLastT1` is in {1, 2}. -/
theorem pdLastT1_actions :
    (∀ z, (pdLastT1 z).lastActionA = 1 ∨ (pdLastT1 z).lastActionA = 2)
    ∧ (∀ z, (pdLastT1 z).lastActionB = 1 ∨ (pdLastT1 z).lastActionB = 2) := by
  constructor <;> intro z <;> unfold pdLastT1 <;> split_ifs <;> simp [sampleT1, sampleT2]

/-- Witness for the amended C2 at `pdLastT1` with the true counts
`numType1 = 1`, `numType2 = 999`: all fields lie in [0, 1], and the
Type-2 action frequencies (Type 2 has a nonzero count and is not the
excluded agent's type... the excluded agent is Type 1) sum to 1. -/
theorem claim_C2_witness :
    aggInUnit (countAggs pdLastT1 1 999)
    ∧ (countAggs pdLastT1 1 999).Type2PlayingA1
      + (countAggs pdLastT1 1 999).Type2PlayingA2 = 1 := by
  have h := claim_C2_amended pdLastT1 1 999 pdLastT1_count1.symm pdLastT1_count2.symm
    pdLastT1_actions.1 pdLastT1_actions.2
  refine ⟨h.1, (h.2.2.1 (by norm_num) ?_).1⟩
  have hpop : POPSIZE = 1000 := rfl
  simp [hpop, pdLastT1, sampleT1]

set_option maxRecDepth 100000 in
/-- Claim C2 as stated is false: on `pdLastT1` the number of Type-1
agents among indices 1..POPSIZE is 1 (nonzero), yet
`Type1PlayingA1 + Type1PlayingA2 = 0 ≠ 1`, because the only Type-1
agent has index POPSIZE and the aggregation scan excludes it. -/
theorem claim_C2_counterexample :
    (List.range' 1 POPSIZE).countP (fun z => (pdLastT1 z).playertype == 1) = 1
    ∧ (countAggs pdLastT1 1 999).Type1PlayingA1
      + (countAggs pdLastT1 1 999).Type1PlayingA2 = 0
    ∧ ((0 : ℚ) ≠ 1) := by
  refine ⟨pdLastT1_count1, ?_, by norm_num⟩
  have hA1 : (countsLoop pdLastT1).numType1PlayingA1 = 0 := by
    rw [countsLoop_numType1PlayingA1]
    refine List.countP_eq_zero.mpr (fun a ha => ?_)
    have hb := List.mem_range'_1.mp ha
    have hpop : POPSIZE = 1000 := rfl
    have hne : a ≠ 1000 := by omega
    simp [pdLastT1, hne, sampleT2, condPlayA]
  have hA2 : (countsLoop pdLastT1).numType1PlayingA2 = 0 := by
    rw [countsLoop_numType1PlayingA2]
    refine List.countP_eq_zero.mpr (fun a ha => ?_)
    have hb := List.mem_range'_1.mp ha
    have hpop : POPSIZE = 1000 := rfl
    have hne : a ≠ 1000 := by omega
    simp [pdLastT1, hne, sampleT2, condPlayA]
  show divide ((countsLoop pdLastT1).numType1PlayingA1 : ℚ) ((1 : Nat) : ℚ)
    + divide ((countsLoop pdLastT1).numType1PlayingA2 : ℚ) ((1 : Nat) : ℚ) = 0
  rw [hA1, hA2]
  norm_num [divide]
